import Mathlib

/-!
Shallow embedding of the WideTree drawing library (tree.js).

The source provides one component, `DrawingTreeNode`: a visual tree over an
external backing-node hierarchy, with a memoized bottom-up required-width
computation (`getRequiredWidth`), on-demand expansion and collapse, an
invalidation protocol that walks parent links to the root and redraws there,
a renderer (`draw`) positioning representations and connector bars inside a
DOM container, and an asynchronous representation refresh
(`updateRepresentation`).

Modelling conventions:
* Backing nodes form an immutable tree `BTree`; a backing node is identified
  by its access path from the backing root (object identity in the source),
  which is where its remembered `drawingTreeNodeIsExpanded` flag is stored.
* DOM elements live in a `Dom`: a list of `ElemData` records addressed by
  allocation index; `appendChild`, `removeChild` and the style setters act on
  that list.  Pixel styles are rationals (the source positions elements at
  half-width offsets such as `NODE_WIDTH / 2`).
* Each `DrawingTreeNode` method becomes a state-passing function on `DNode`
  and `TState`.  `draw` recurses on an explicit fuel bound (any fuel at least
  the tree depth gives the source behavior); everything else is structural.
* Mouse listeners and `Timer` logging are not modelled; the claims under
  verification do not mention them.  The children-count badge element created
  by `createRepresentation` and the external content factory call are
  modelled, with factory invocations recorded in an event log.
-/

/-- Layout constant `NODE_WIDTH` (the configured minimum node width).
The source value is 75 pixels; all lengths and coordinates in this
development are in half-pixel units (twice the source's pixel numerals), so
that the renderer's half-width offsets such as `NODE_WIDTH / 2` stay exact
in integer arithmetic.  Every formula is linear in the lengths, so the
scaling is a pure change of unit. -/
def NODE_WIDTH : Int := 150

/-- Layout constant `NODE_MARGIN_X` (source: 10 pixels), in half-pixels. -/
def NODE_MARGIN_X : Int := 20

/-- Layout constant `NODE_HEIGHT` (source: 80 pixels), in half-pixels. -/
def NODE_HEIGHT : Int := 160

/-- Layout constant `NODE_MARGIN_Y` (source: 20 pixels), in half-pixels. -/
def NODE_MARGIN_Y : Int := 40

/-- A backing node: the external hierarchy queried through `getChildren`.
The structure is immutable; the spec assumes it is an acyclic tree. -/
inductive BTree where
  | mk (children : List BTree)

mutual

/-- Decidable equality of backing trees. -/
def BTree.decEqT : (a b : BTree) → Decidable (a = b)
  | .mk as, .mk bs =>
    have h : Decidable (as = bs) := BTree.decEqList as bs
    decidable_of_iff (as = bs) (by rw [BTree.mk.injEq])
termination_by structural a => a

/-- Decidable equality of lists of backing trees. -/
def BTree.decEqList : (as bs : List BTree) → Decidable (as = bs)
  | [], [] => isTrue rfl
  | [], _ :: _ => isFalse (fun h => List.noConfusion h)
  | _ :: _, [] => isFalse (fun h => List.noConfusion h)
  | a :: as, b :: bs =>
    have h1 : Decidable (a = b) := BTree.decEqT a b
    have h2 : Decidable (as = bs) := BTree.decEqList as bs
    decidable_of_iff (a = b ∧ as = bs) (by rw [List.cons.injEq])
termination_by structural a => a

end

instance : DecidableEq BTree := BTree.decEqT

/-- Children of a backing node, as returned by its `getChildren` method. -/
def BTree.children : BTree → List BTree
  | .mk cs => cs

/-- A DOM element: class, text content, absolute style properties, parent
link and ordered child list.  Unset styles are `none`. -/
structure ElemData where
  className : String := ""
  text : String := ""
  left : Option Int := none
  top : Option Int := none
  width : Option Int := none
  parent : Option Nat := none
  kids : List Nat := []
deriving Repr, DecidableEq

/-- The DOM: elements addressed by allocation index. -/
structure Dom where
  elems : List ElemData := []
deriving Repr, DecidableEq

/-- A blank element: what the model uses for the opaque content produced by
the external factory (`createRepresentation`). -/
def blankElem : ElemData := {}

/-- The children-count badge div created by `createRepresentation`. -/
def badgeElem (cnt : Nat) : ElemData := { className := "children", text := toString cnt }

/-- A connector-bar div with the given class. -/
def barElem (cls : String) : ElemData := { className := cls }

/-- Update the element at index `i` (no-op when out of range). -/
def updAt : Nat → (α → α) → List α → List α
  | _, _, [] => []
  | 0, f, a :: t => f a :: t
  | Nat.succ j, f, a :: t => a :: updAt j f t

/-- Allocate a fresh element (document.createElement / the content factory);
returns the new DOM and the new element's index. -/
def allocElem (d : Dom) (e : ElemData) : Dom × Nat :=
  ({ elems := d.elems ++ [e] }, d.elems.length)

/-- Look up an element record. -/
def elemAt? (d : Dom) (i : Nat) : Option ElemData :=
  d.elems[i]?

/-- Update one element record in the DOM. -/
def updElem (i : Nat) (f : ElemData → ElemData) (d : Dom) : Dom :=
  { elems := updAt i f d.elems }

/-- Read `className` (empty string when the element does not exist). -/
def classOf (d : Dom) (i : Nat) : String :=
  ((elemAt? d i).map (fun e => e.className)).getD ""

/-- Read `style.left`. -/
def leftOf (d : Dom) (i : Nat) : Option Int :=
  (elemAt? d i).bind (fun e => e.left)

/-- Read `style.top`. -/
def topOf (d : Dom) (i : Nat) : Option Int :=
  (elemAt? d i).bind (fun e => e.top)

/-- Read `style.width`. -/
def widthOf (d : Dom) (i : Nat) : Option Int :=
  (elemAt? d i).bind (fun e => e.width)

/-- Read `parentNode`. -/
def parentOf (d : Dom) (i : Nat) : Option Nat :=
  (elemAt? d i).bind (fun e => e.parent)

/-- Read the ordered child list of an element. -/
def kidsOf (d : Dom) (i : Nat) : List Nat :=
  ((elemAt? d i).map (fun e => e.kids)).getD []

/-- Set `className`. -/
def setClassName (i : Nat) (v : String) (d : Dom) : Dom :=
  updElem i (fun e => { e with className := v }) d

/-- Set `style.left`. -/
def setLeft (i : Nat) (v : Option Int) (d : Dom) : Dom :=
  updElem i (fun e => { e with left := v }) d

/-- Set `style.top`. -/
def setTop (i : Nat) (v : Option Int) (d : Dom) : Dom :=
  updElem i (fun e => { e with top := v }) d

/-- Set `style.width`. -/
def setWidth (i : Nat) (v : Option Int) (d : Dom) : Dom :=
  updElem i (fun e => { e with width := v }) d

/-- Set the text content of an element. -/
def setText (i : Nat) (v : String) (d : Dom) : Dom :=
  updElem i (fun e => { e with text := v }) d

/-- DOM `appendChild container elem`: detach `elem` from its current parent
if any, then append it as the last child of `container`. -/
def appendChild (c i : Nat) (d : Dom) : Dom :=
  let d1 := match parentOf d i with
    | some p => updElem p (fun e => { e with kids := e.kids.erase i }) d
    | none => d
  let d2 := updElem c (fun e => { e with kids := e.kids ++ [i] }) d1
  updElem i (fun e => { e with parent := some c }) d2

/-- DOM `parent.removeChild(elem)`. -/
def removeChild (p i : Nat) (d : Dom) : Dom :=
  let d1 := updElem p (fun e => { e with kids := e.kids.erase i }) d
  updElem i (fun e => { e with parent := none }) d1

/-- The guarded attach used throughout `draw`:
`if (element.parentNode != container) container.appendChild(element)`. -/
def appendIfAbsent (c i : Nat) (d : Dom) : Dom :=
  if parentOf d i = some c then d else appendChild c i d

/-- The local helper `remove(e)` in `collapse`:
`if (e.parentNode) e.parentNode.removeChild(e)`. -/
def removeIfAttached (i : Nat) (d : Dom) : Dom :=
  match parentOf d i with
  | some p => removeChild p i d
  | none => d

/-- Observable interactions with a backing node: a `getChildren` query and a
`createRepresentation` content-factory call, tagged by the backing node's
path. -/
inductive Event where
  | getChildren (path : List Nat)
  | createRep (path : List Nat)
deriving Repr, DecidableEq

/-- Global mutable state outside the visual node tree: the DOM, the
per-backing-node remembered expansion flags (`drawingTreeNodeIsExpanded`),
the queue of deferred child-refresh continuations scheduled by
`updateRepresentation` (via `setImmediate` / `setTimeout 0`), and the event
log of backing-node interactions. -/
structure TState where
  dom : Dom := {}
  flags : List (List Nat × Bool) := []
  pending : List (List Nat) := []
  log : List Event := []
deriving Repr, DecidableEq

/-- Read a backing node's remembered expansion flag; an absent property is
falsy in the source, hence the `false` default. -/
def getFlag (fs : List (List Nat × Bool)) (p : List Nat) : Bool :=
  match fs.find? (fun q => decide (q.1 = p)) with
  | some q => q.2
  | none => false

/-- Write a backing node's remembered expansion flag. -/
def setFlag (p : List Nat) (v : Bool) (fs : List (List Nat × Bool)) :
    List (List Nat × Bool) :=
  (p, v) :: fs

/-- A `DrawingTreeNode`.  Field for field with the source constructor:
`innerNode` (the backing node, here the subtree together with its path used
as its identity), `nodeChildren` (the snapshot of `innerNode.getChildren()`
captured at construction), `children` (materialized child visual nodes),
`requiredWidth` (cached width, `-1` the dirty sentinel), `representation`
(DOM index of the visual content), `isExpanded`, the three lazily created
connector bars, and the `lastContainer` / `lastViewport` recorded by `draw`
for `redraw`. -/
inductive DNode where
  | mk (innerNode : BTree) (path : List Nat) (nodeChildren : List BTree)
      (children : List DNode) (requiredWidth : Int) (representation : Nat)
      (isExpanded : Bool) (childBar : Option Nat) (horizontalBar : Option Nat)
      (parentBar : Option Nat) (lastContainer : Option Nat)
      (lastViewport : Option (Int × Int))

mutual

/-- Decidable equality of visual nodes. -/
def DNode.decEqD : (a b : DNode) → Decidable (a = b)
  | .mk b1 p1 nc1 c1 rw1 r1 e1 cb1 hb1 pb1 lc1 lv1,
    .mk b2 p2 nc2 c2 rw2 r2 e2 cb2 hb2 pb2 lc2 lv2 =>
    have h : Decidable (c1 = c2) := DNode.decEqListD c1 c2
    decidable_of_iff
      (b1 = b2 ∧ p1 = p2 ∧ nc1 = nc2 ∧ c1 = c2 ∧ rw1 = rw2 ∧ r1 = r2 ∧ e1 = e2 ∧
        cb1 = cb2 ∧ hb1 = hb2 ∧ pb1 = pb2 ∧ lc1 = lc2 ∧ lv1 = lv2)
      (by rw [DNode.mk.injEq])
termination_by structural a => a

/-- Decidable equality of lists of visual nodes. -/
def DNode.decEqListD : (as bs : List DNode) → Decidable (as = bs)
  | [], [] => isTrue rfl
  | [], _ :: _ => isFalse (fun h => List.noConfusion h)
  | _ :: _, [] => isFalse (fun h => List.noConfusion h)
  | a :: as, b :: bs =>
    have h1 : Decidable (a = b) := DNode.decEqD a b
    have h2 : Decidable (as = bs) := DNode.decEqListD as bs
    decidable_of_iff (a = b ∧ as = bs) (by rw [List.cons.injEq])
termination_by structural a => a

end

instance : DecidableEq DNode := DNode.decEqD

namespace DNode

/-- The backing node wrapped by this visual node. -/
def innerNode : DNode → BTree
  | .mk b _ _ _ _ _ _ _ _ _ _ _ => b

/-- The backing node's path (its identity in the backing tree). -/
def path : DNode → List Nat
  | .mk _ p _ _ _ _ _ _ _ _ _ _ => p

/-- The construction-time snapshot of the backing node's children. -/
def nodeChildren : DNode → List BTree
  | .mk _ _ ncs _ _ _ _ _ _ _ _ _ => ncs

/-- The materialized child visual nodes. -/
def children : DNode → List DNode
  | .mk _ _ _ cs _ _ _ _ _ _ _ _ => cs

/-- The cached subtree width (`-1` when dirty). -/
def requiredWidth : DNode → Int
  | .mk _ _ _ _ rw _ _ _ _ _ _ _ => rw

/-- DOM index of the node's visual representation. -/
def representation : DNode → Nat
  | .mk _ _ _ _ _ rep _ _ _ _ _ _ => rep

/-- The expansion flag. -/
def isExpanded : DNode → Bool
  | .mk _ _ _ _ _ _ exp _ _ _ _ _ => exp

/-- The lazily created vertical stem towards the children. -/
def childBar : DNode → Option Nat
  | .mk _ _ _ _ _ _ _ cb _ _ _ _ => cb

/-- The lazily created horizontal bar spanning the children. -/
def horizontalBar : DNode → Option Nat
  | .mk _ _ _ _ _ _ _ _ hb _ _ _ => hb

/-- The lazily created vertical link towards the parent. -/
def parentBar : DNode → Option Nat
  | .mk _ _ _ _ _ _ _ _ _ pb _ _ => pb

/-- The container recorded by the last `draw` call. -/
def lastContainer : DNode → Option Nat
  | .mk _ _ _ _ _ _ _ _ _ _ lc _ => lc

/-- The viewport origin recorded by the last `draw` call. -/
def lastViewport : DNode → Option (Int × Int)
  | .mk _ _ _ _ _ _ _ _ _ _ _ lv => lv

/-- Replace the materialized children. -/
def setChildren (cs : List DNode) : DNode → DNode
  | .mk b p ncs _ rw rep exp cb hb pb lc lv => .mk b p ncs cs rw rep exp cb hb pb lc lv

/-- Overwrite the cached width. -/
def setRW (w : Int) : DNode → DNode
  | .mk b p ncs cs _ rep exp cb hb pb lc lv => .mk b p ncs cs w rep exp cb hb pb lc lv

/-- Overwrite the representation handle. -/
def setRepresentation (r : Nat) : DNode → DNode
  | .mk b p ncs cs rw _ exp cb hb pb lc lv => .mk b p ncs cs rw r exp cb hb pb lc lv

/-- Overwrite the expansion flag. -/
def setExpanded (v : Bool) : DNode → DNode
  | .mk b p ncs cs rw rep _ cb hb pb lc lv => .mk b p ncs cs rw rep v cb hb pb lc lv

/-- Overwrite the child-bar handle. -/
def setChildBar (v : Option Nat) : DNode → DNode
  | .mk b p ncs cs rw rep exp _ hb pb lc lv => .mk b p ncs cs rw rep exp v hb pb lc lv

/-- Overwrite the horizontal-bar handle. -/
def setHorizontalBar (v : Option Nat) : DNode → DNode
  | .mk b p ncs cs rw rep exp cb _ pb lc lv => .mk b p ncs cs rw rep exp cb v pb lc lv

/-- Overwrite the parent-bar handle. -/
def setParentBar (v : Option Nat) : DNode → DNode
  | .mk b p ncs cs rw rep exp cb hb _ lc lv => .mk b p ncs cs rw rep exp cb hb v lc lv

/-- Record the container and viewport of a `draw` call. -/
def setLast (c : Option Nat) (v : Option (Int × Int)) : DNode → DNode
  | .mk b p ncs cs rw rep exp cb hb pb _ _ => .mk b p ncs cs rw rep exp cb hb pb c v

end DNode

mutual

/-- `DrawingTreeNode.prototype.getRequiredWidth`: if the cached width is the
dirty sentinel `-1`, recompute it as the sum of the children's required
widths plus `NODE_MARGIN_X * (childCount - 1)` when there are children,
floored at `NODE_WIDTH`, and cache the result; otherwise return the cache.
Returns the width together with the node updated with the refreshed caches. -/
def getRequiredWidth (n : DNode) : Int × DNode :=
  match n with
  | .mk b p ncs cs rw rep exp cb hb pb lc lv =>
    if rw = -1 then
      let r := getRequiredWidthList cs
      let w1 := r.1 + (if 0 < cs.length then NODE_MARGIN_X * ((cs.length : Int) - 1) else 0)
      let w2 := if w1 < NODE_WIDTH then NODE_WIDTH else w1
      (w2, .mk b p ncs r.2 w2 rep exp cb hb pb lc lv)
    else
      (rw, n)
termination_by structural n

/-- The `for` loop inside `getRequiredWidth`: left-to-right sum of the
children's required widths, threading each child's refreshed cache. -/
def getRequiredWidthList (cs : List DNode) : Int × List DNode :=
  match cs with
  | [] => (0, [])
  | c :: rest =>
    let q := getRequiredWidth c
    let r := getRequiredWidthList rest
    (q.1 + r.1, q.2 :: r.2)
termination_by structural cs

end

/-- The body of `DrawingTreeNode.prototype.createRepresentation`: call the
backing node's content factory (an external call, recorded in the log; the
produced element is opaque, so it is modelled as a fresh blank element),
create the children-count badge div, and append the badge to the
representation.  The click and mousedown listeners it also installs belong
to the interaction layer and are not modelled. -/
def createRepresentationOp (p : List Nat) (childCount : Nat) (s : TState) : Nat × TState :=
  let r1 := allocElem s.dom blankElem
  let r2 := allocElem r1.1 (badgeElem childCount)
  (r1.2, { s with dom := appendChild r1.2 r2.2 r2.1,
                  log := s.log ++ [Event.createRep p] })

mutual

/-- The `DrawingTreeNode` constructor: snapshot `getChildren()` (logged),
start with no materialized children, a dirty width cache and a fresh
representation, set `isExpanded` iff the snapshot is empty, and re-expand
(non-recursively) when the backing node carries a remembered
`drawingTreeNodeIsExpanded` flag.  The re-expansion is the body of `expand`
(see `expandWith`), written out so that the mutual recursion is structural
over the backing tree. -/
def construct : BTree → List Nat → TState → DNode × TState
  | BTree.mk cs, p, s =>
    let s1 : TState := { s with log := s.log ++ [Event.getChildren p] }
    let r := createRepresentationOp p cs.length s1
    let n : DNode := DNode.mk (BTree.mk cs) p cs [] (-1) r.1 cs.isEmpty none none none none none
    if getFlag r.2.flags p then
      let r2 := expandChildren cs p 0 false r.2
      ((n.setChildren r2.1).setExpanded true,
        { r2.2 with flags := setFlag p true r2.2.flags })
    else (n, r.2)
termination_by structural b => b

/-- The `nodeChildren.map` inside `expand`: construct each child (its backing
identity is the parent's path extended with its index), expanding it
recursively (again the inlined `expand` body) when requested. -/
def expandChildren : List BTree → List Nat → Nat → Bool → TState → List DNode × TState
  | [], _, _, _, s => ([], s)
  | BTree.mk bcs :: rest, p, i, recurse, s =>
    let r1 := construct (BTree.mk bcs) (p ++ [i]) s
    let r2 :=
      if recurse then
        let q := expandChildren bcs r1.1.path 0 true r1.2
        ((r1.1.setChildren q.1).setExpanded true,
          { q.2 with flags := setFlag r1.1.path true q.2.flags })
      else r1
    let r3 := expandChildren rest p (i + 1) recurse r2.2
    (r2.1 :: r3.1, r3.2)
termination_by structural bs => bs

end

/-- `DrawingTreeNode.prototype.expand`: construct one child visual node per
snapshot entry (recursively expanding each when `recurse` is set), then set
`isExpanded` and record it on the backing node.  The snapshot list is passed
explicitly; callers pass the node's own `nodeChildren`. -/
def expandWith : List BTree → Bool → DNode → TState → DNode × TState
  | bs, recurse, n, s =>
    let r := expandChildren bs n.path 0 recurse s
    ((n.setChildren r.1).setExpanded true,
      { r.2 with flags := setFlag n.path true r.2.flags })

/-- Lazily fetch a connector bar handle, as in `getChildBar` /
`getHorizontalBar` / `getParentBar`: reuse the stored element, or create a
div with the given class.  Returns the element index, the updated stored
handle, and the DOM. -/
def ensureBar (cur : Option Nat) (cls : String) (d : Dom) : Nat × Option Nat × Dom :=
  match cur with
  | some i => (i, some i, d)
  | none =>
    let r := allocElem d (barElem cls)
    (r.2, some r.2, r.1)

mutual

/-- `DrawingTreeNode.prototype.collapse`: when `removeSelf`, detach the
representation and the (lazily fetched, hence possibly just created)
parent bar; detach the child bar and horizontal bar likewise; collapse and
discard all children; reset the width cache to `0`; reset `isExpanded` to
the leaf default and record it on the backing node. -/
def collapseNode : Bool → DNode → TState → DNode × TState
  | removeSelf, DNode.mk b p ncs cs _ rep _ cb hb pb lc lv, s =>
    let r1 : Option Nat × TState :=
      if removeSelf then
        let d1 := removeIfAttached rep s.dom
        let r := ensureBar pb "vertical" d1
        (r.2.1, { s with dom := removeIfAttached r.1 r.2.2 })
      else (pb, s)
    let r2 := ensureBar cb "vertical" r1.2.dom
    let s2 : TState := { r1.2 with dom := removeIfAttached r2.1 r2.2.2 }
    let r3 := ensureBar hb "horizontal" s2.dom
    let s3 : TState := { s2 with dom := removeIfAttached r3.1 r3.2.2 }
    let s4 := collapseList cs s3
    let exp1 := ncs.isEmpty
    (DNode.mk b p ncs [] 0 rep exp1 r2.2.1 r3.2.1 r1.1 lc lv,
      { s4 with flags := setFlag p exp1 s4.flags })
termination_by structural _ n _ => n

/-- The `children.map(x => x.collapse(true))` loop. -/
def collapseList : List DNode → TState → TState
  | [], s => s
  | c :: rest, s => collapseList rest (collapseNode true c s).2
termination_by structural cs _ => cs

end

/-- Last element of a list with a default, as `children[children.length-1]`
on a nonempty list. -/
def lastD (l : List α) (dflt : α) : α :=
  match l.getLast? with
  | some a => a
  | none => dflt

/-- The child loop of `draw`, parameterized by the function drawing one
child (the recursive `draw` call one fuel level down): for each child,
compute its required width, position and (if needed) attach its parent bar,
draw it at the current cursor with a fresh viewport object, then advance the
x cursor by the child's width plus the horizontal margin. -/
def drawKids (drawFn : DNode → Int × Int → TState → DNode × (Int × Int) × TState)
    (container : Nat) : List DNode → Int → Int → TState → List DNode × Int × TState
  | [], vx, _, s => ([], vx, s)
  | c :: rest, vx, vy, s =>
    let q := getRequiredWidth c
    let r1 := ensureBar q.2.parentBar "vertical" s.dom
    let d1 := appendIfAbsent container r1.1
      (setTop r1.1 (some (vy - NODE_MARGIN_Y / 2))
        (setLeft r1.1 (some (vx + NODE_WIDTH / 2)) r1.2.2))
    let r2 := drawFn (q.2.setParentBar r1.2.1) (vx, vy) { s with dom := d1 }
    let r3 := drawKids drawFn container rest (vx + q.1 + NODE_MARGIN_X) vy r2.2.2
    (r2.1 :: r3.1, r3.2)

/-- `DrawingTreeNode.prototype.draw(container, viewport)`: record the
container and a snapshot of the viewport origin, position and (if needed)
attach the representation with a state class, and, when there are children,
compute the first, last and total required widths, position and attach the
child bar and the horizontal bar (width `totalWidth - lastWidth`), advance
the viewport's y cursor, and lay the children out left to right.  The
returned viewport is the caller's viewport object after the in-place
mutations the source performs on it.  Recursion is fuel-bounded; any fuel at
least the node's depth gives the source behavior. -/
def draw : Nat → DNode → Nat → Int × Int → TState → DNode × (Int × Int) × TState
  | 0, n, _, vp, s => (n, vp, s)
  | Nat.succ fuel, DNode.mk b p ncs cs rw rep exp cb hb pb _ _, container, vp, s =>
    let d1 := setTop rep (some vp.2) (setLeft rep (some vp.1)
      (setClassName rep (String.append "node" (if exp then "" else " collapsed")) s.dom))
    let d2 := appendIfAbsent container rep d1
    match cs with
    | [] =>
      (DNode.mk b p ncs [] rw rep exp cb hb pb (some container) (some vp), vp,
        { s with dom := d2 })
    | c0 :: rest =>
      let fw := getRequiredWidth c0
      let children1 := fw.2 :: rest
      let lw := getRequiredWidth (lastD children1 fw.2)
      let children2 := children1.set (children1.length - 1) lw.2
      let tw := getRequiredWidth
        (DNode.mk b p ncs children2 rw rep exp cb hb pb (some container) (some vp))
      let r2 := ensureBar cb "vertical" d2
      let d3 := appendIfAbsent container r2.1
        (setTop r2.1 (some (vp.2 + NODE_HEIGHT))
          (setLeft r2.1 (some (vp.1 + NODE_WIDTH / 2)) r2.2.2))
      let r3 := ensureBar hb "horizontal" d3
      let d4 := appendIfAbsent container r3.1
        (setTop r3.1 (some (vp.2 + NODE_HEIGHT + NODE_MARGIN_Y / 2))
          (setLeft r3.1 (some (vp.1 + NODE_WIDTH / 2))
            (setWidth r3.1 (some (tw.1 - lw.1)) r3.2.2)))
      let vy := vp.2 + NODE_HEIGHT + NODE_MARGIN_Y
      let r4 := drawKids (fun m vv t => draw fuel m container vv t) container
        tw.2.children vp.1 vy { s with dom := d4 }
      (((tw.2.setChildBar r2.2.1).setHorizontalBar r3.2.1).setChildren r4.1,
        (r4.2.1, vy), r4.2.2)

/-- The child loop of `draw` at a given fuel level. -/
def drawChildren (fuel container : Nat) (cs : List DNode) (vx vy : Int) (s : TState) :
    List DNode × Int × TState :=
  drawKids (fun m vv t => draw fuel m container vv t) container cs vx vy s

/-- `DrawingTreeNode.prototype.redraw`: replay `draw` with the recorded
container and viewport.  The source reads `lastContainer` / `lastViewport`
unconditionally; a node that was never drawn would fault on the undefined
viewport, a flow the spec does not exercise, modelled as a no-op. -/
def redrawNode (fuel : Nat) (n : DNode) (s : TState) : DNode × TState :=
  match n.lastContainer, n.lastViewport with
  | some c, some v =>
    let r := draw fuel n c v s
    (r.1, r.2.2)
  | _, _ => (n, s)

/-- One ancestor level of a node's position in the visual tree: the parent's
other fields and the siblings on each side.  A list of frames, innermost
first, is the chain of `parent` references the source walks in
`invalidate`; the empty list marks the root (no parent). -/
structure Frame where
  innerNode : BTree
  path : List Nat
  nodeChildren : List BTree
  before : List DNode
  after : List DNode
  requiredWidth : Int
  representation : Nat
  isExpanded : Bool
  childBar : Option Nat
  horizontalBar : Option Nat
  parentBar : Option Nat
  lastContainer : Option Nat
  lastViewport : Option (Int × Int)

/-- Rebuild the parent node from a frame and the child sitting in the hole. -/
def plug (f : Frame) (n : DNode) : DNode :=
  DNode.mk f.innerNode f.path f.nodeChildren (f.before ++ n :: f.after) f.requiredWidth
    f.representation f.isExpanded f.childBar f.horizontalBar f.parentBar f.lastContainer
    f.lastViewport

/-- `DrawingTreeNode.prototype.invalidate` on a node with ancestor chain
`ctx`: mark the node's cached width dirty; if a parent exists, delegate to
the parent's `invalidate`; otherwise (the root) call `redraw`.  Returns the
resulting root node and state together with the number of `redraw` calls
performed. -/
def invalidateUp (fuel : Nat) : List Frame → DNode → TState → DNode × TState × Nat
  | [], n, s =>
    let r := redrawNode fuel (n.setRW (-1)) s
    (r.1, r.2, 1)
  | f :: rest, n, s => invalidateUp fuel rest (plug f (n.setRW (-1))) s

/-- The pure marking part of `invalidate`: rebuild the root with the node
and every ancestor's cached width set to the dirty sentinel. -/
def dirtyPlug : List Frame → DNode → DNode
  | [], n => n.setRW (-1)
  | f :: rest, n => dirtyPlug rest (plug f (n.setRW (-1)))

/-- Root-to-node child-index path of the hole described by a context. -/
def holePath (ctx : List Frame) : List Nat :=
  (ctx.map (fun f => f.before.length)).reverse

/-- Navigate a visual tree along a child-index path. -/
def nodeAt : DNode → List Nat → Option DNode
  | n, [] => some n
  | n, i :: rest =>
    match n.children[i]? with
    | some c => nodeAt c rest
    | none => none

/-- `DrawingTreeNode.prototype.updateRepresentation`: when the
representation is attached, capture its class and position, detach and drop
it, create a fresh representation through the backing node's factory, attach
it to the same parent and restore the captured styling; in all cases,
schedule (without running) the children's refresh on a later event-loop
turn, modelled by appending the node's path to the pending queue. -/
def updateRepresentationNode (n : DNode) (s : TState) : DNode × TState :=
  let r :=
    match parentOf s.dom n.representation with
    | some par =>
      let savedClass := classOf s.dom n.representation
      let savedLeft := leftOf s.dom n.representation
      let savedTop := topOf s.dom n.representation
      let d1 := removeChild par n.representation s.dom
      let r1 := createRepresentationOp n.path n.nodeChildren.length { s with dom := d1 }
      let d2 := appendChild par r1.1 r1.2.dom
      let d3 := setTop r1.1 savedTop (setLeft r1.1 savedLeft (setClassName r1.1 savedClass d2))
      (n.setRepresentation r1.1, { r1.2 with dom := d3 })
    | none => (n, s)
  (r.1, { r.2 with pending := r.2.pending ++ [r.1.path] })

/-- Apply an operation to the node at a child-index path, rebuilding the
tree along the way (the identity when the path does not exist). -/
def opAt (f : DNode → TState → DNode × TState) : List Nat → DNode → TState → DNode × TState
  | [], n, s => f n s
  | i :: rest, n, s =>
    match n.children[i]? with
    | some c =>
      let r := opAt f rest c s
      (n.setChildren (n.children.set i r.1), r.2)
    | none => (n, s)

/-- User-level `expand` on the node at a path (the click handler's
`that.expand(e.ctrlKey)`); the snapshot passed is the node's own
`nodeChildren`. -/
def expandAtPath (root : DNode) (p : List Nat) (recurse : Bool) (s : TState) : DNode × TState :=
  opAt (fun n t => expandWith n.nodeChildren recurse n t) p root s

/-- User-level `collapse` on the node at a path. -/
def collapseAtPath (root : DNode) (p : List Nat) (removeSelf : Bool) (s : TState) :
    DNode × TState :=
  opAt (collapseNode removeSelf) p root s

/-- The state before any tree is built: empty DOM, no remembered flags, no
pending refreshes, empty log. -/
def initState : TState := {}

/-- States of the visual tree reachable from constructing the root over a
backing tree by any sequence of user expand and collapse operations. -/
inductive Reachable (B : BTree) : DNode × TState → Prop where
  | init : Reachable B (construct B [] initState)
  | expandStep (st : DNode × TState) (p : List Nat) (recurse : Bool) :
      Reachable B st → Reachable B (expandAtPath st.1 p recurse st.2)
  | collapseStep (st : DNode × TState) (p : List Nat) (removeSelf : Bool) :
      Reachable B st → Reachable B (collapseAtPath st.1 p removeSelf st.2)

mutual

/-- Boolean check of the claimed invariant: every node in the tree whose
snapshot is empty has `isExpanded` set. -/
def leafExpandedB : DNode → Bool
  | .mk _ _ ncs cs _ _ exp _ _ _ _ _ => (!ncs.isEmpty || exp) && leafExpandedListB cs
termination_by structural n => n

/-- List version of `leafExpandedB`. -/
def leafExpandedListB : List DNode → Bool
  | [] => true
  | c :: rest => leafExpandedB c && leafExpandedListB rest
termination_by structural cs => cs

end

mutual

/-- Depth of a visual node tree (a leaf has depth 1); `draw` behaves as the
source whenever its fuel is at least this. -/
def depthD : DNode → Nat
  | .mk _ _ _ cs _ _ _ _ _ _ _ _ => 1 + depthList cs
termination_by structural n => n

/-- Maximum depth over a list of children. -/
def depthList : List DNode → Nat
  | [] => 0
  | c :: rest => max (depthD c) (depthList rest)
termination_by structural cs => cs

end

mutual

/-- All DOM element indices held by a visual node tree: each node's
representation and whichever connector bars it has created. -/
def idsOf : DNode → List Nat
  | .mk _ _ _ cs _ rep _ cb hb pb _ _ =>
    rep :: (([cb, hb, pb].filterMap id) ++ idsOfList cs)
termination_by structural n => n

/-- List version of `idsOf`. -/
def idsOfList : List DNode → List Nat
  | [] => []
  | c :: rest => idsOf c ++ idsOfList rest
termination_by structural cs => cs

end

/-- Well-formedness of a node tree against a DOM and a container: the
element handles are pairwise distinct, all in range, and none of them is the
container (object identity of distinct DOM elements).  Any tree actually
built by `construct` / `expand` into a real container satisfies this. -/
def WFNode (n : DNode) (container : Nat) (d : Dom) : Prop :=
  (idsOf n).Nodup ∧ (∀ i ∈ idsOf n, i < d.elems.length) ∧
    container ∉ idsOf n ∧ container < d.elems.length

instance (n : DNode) (c : Nat) (d : Dom) : Decidable (WFNode n c d) := by
  unfold WFNode; exact inferInstance

/-- Cached width of the last child, `0` for an empty list (the horizontal
bar's width is total width minus this). -/
def lastRW (cs : List DNode) : Int :=
  match cs.getLast? with
  | some c => c.requiredWidth
  | none => 0

/-- Total x-cursor advance of the child loop of `draw`: each child
contributes its required width plus the horizontal margin. -/
def sumAdvance (cs : List DNode) : Int :=
  (cs.map (fun c => c.requiredWidth + NODE_MARGIN_X)).sum

/-- The element at index `i` exists in the DOM and satisfies `P`. -/
def ElemIs (d : Dom) (i : Nat) (P : ElemData → Prop) : Prop :=
  ∃ e, elemAt? d i = some e ∧ P e

mutual

/-- The node is fully laid out in the DOM at the given origin: exactly the
facts `draw` establishes and whose presence makes a second `draw` with the
same container and origin the identity on the DOM and the node. -/
def Drawn : DNode → Nat → Int × Int → Dom → Prop
  | .mk _ _ _ cs rw rep exp cb hb _ lc lv, container, vp, d =>
    lc = some container ∧ lv = some vp ∧
    ElemIs d rep (fun e =>
      e.className = String.append "node" (if exp then "" else " collapsed") ∧
      e.left = some vp.1 ∧ e.top = some vp.2 ∧ e.parent = some container) ∧
    (match cs with
     | [] => True
     | c0 :: rest =>
       rw ≠ -1 ∧
       (∃ cbi, cb = some cbi ∧ ElemIs d cbi (fun e =>
         e.left = some (vp.1 + NODE_WIDTH / 2) ∧
         e.top = some (vp.2 + NODE_HEIGHT) ∧ e.parent = some container)) ∧
       (∃ hbi, hb = some hbi ∧ ElemIs d hbi (fun e =>
         e.width = some (rw - lastRW (c0 :: rest)) ∧
         e.left = some (vp.1 + NODE_WIDTH / 2) ∧
         e.top = some (vp.2 + NODE_HEIGHT + NODE_MARGIN_Y / 2) ∧
         e.parent = some container)) ∧
       DrawnKids (c0 :: rest) container vp.1 (vp.2 + NODE_HEIGHT + NODE_MARGIN_Y) d)
termination_by structural n => n

/-- Each child in turn is drawn at the running cursor, with its parent bar
positioned and attached and its width cache clean. -/
def DrawnKids : List DNode → Nat → Int → Int → Dom → Prop
  | [], _, _, _, _ => True
  | c :: rest, container, vx, vy, d =>
    c.requiredWidth ≠ -1 ∧
    (∃ pbi, c.parentBar = some pbi ∧ ElemIs d pbi (fun e =>
      e.left = some (vx + NODE_WIDTH / 2) ∧
      e.top = some (vy - NODE_MARGIN_Y / 2) ∧ e.parent = some container)) ∧
    Drawn c container (vx, vy) d ∧
    DrawnKids rest container (vx + c.requiredWidth + NODE_MARGIN_X) vy d
termination_by structural cs => cs

end

/-- Backing tree with no children: a single leaf. -/
def exLeaf : BTree := BTree.mk []

/-- Backing tree: a root with one leaf child. -/
def exOne : BTree := BTree.mk [BTree.mk []]

/-- Backing tree: a root with two leaf children. -/
def exPair : BTree := BTree.mk [BTree.mk [], BTree.mk []]

/-- A starting state whose DOM already holds one element: the container the
tree is built into (index 0). -/
def exContainerState : TState := { dom := { elems := [{}] } }

/-- Depth tag of an event: the length of the backing path it concerns, used
to separate a node's own backing queries from those of strictly deeper
descendants. -/
def eventDepth : Event → Nat
  | .getChildren p => p.length
  | .createRep p => p.length

/-- Leaf root constructed into the container state. -/
def exBuildLeaf : DNode × TState := construct exLeaf [] exContainerState

/-- The leaf root drawn at the origin into container 0. -/
def exDrawLeaf : DNode × (Int × Int) × TState := draw 1 exBuildLeaf.1 0 (0, 0) exBuildLeaf.2

/-- Two-leaf root constructed into the container state. -/
def exBuildPair : DNode × TState := construct exPair [] exContainerState

/-- The two-leaf root, expanded. -/
def exExpandPair : DNode × TState :=
  expandWith exBuildPair.1.nodeChildren false exBuildPair.1 exBuildPair.2

/-- The expanded two-leaf root drawn at the origin into container 0. -/
def exDrawPair : DNode × (Int × Int) × TState := draw 2 exExpandPair.1 0 (0, 0) exExpandPair.2

/-- One-child root, constructed. -/
def exBuildOne : DNode × TState := construct exOne [] initState

/-- One-child root, expanded. -/
def exExpandOne : DNode × TState :=
  expandWith exBuildOne.1.nodeChildren false exBuildOne.1 exBuildOne.2

/-- One-child root with its width computed (cache now clean). -/
def exWidthOne : Int × DNode := getRequiredWidth exExpandOne.1

/-- The one-child root collapsed (children discarded). -/
def exCollapseOne : DNode × TState := collapseNode false exWidthOne.2 exExpandOne.2

/-- The one-child root expanded a second time without an intervening
collapse (the scenario of the double-expand claim). -/
def exExpandOneTwice : DNode × TState :=
  expandWith exExpandOne.1.nodeChildren false exExpandOne.1 exExpandOne.2

/-- Leaf root constructed from the pristine initial state. -/
def exLeafBuilt : DNode × TState := construct exLeaf [] initState

/-- The leaf root collapsed in place: a state reachable by construction
followed by one collapse. -/
def exLeafCollapsed : DNode × TState := collapseAtPath exLeafBuilt.1 [] false exLeafBuilt.2

/-- A concrete one-level ancestor frame (parent with no other children),
used to witness the invalidation theorem. -/
def exFrame : Frame :=
  { innerNode := exOne, path := [], nodeChildren := [exLeaf], before := [], after := [],
    requiredWidth := 5, representation := 0, isExpanded := true, childBar := none,
    horizontalBar := none, parentBar := none, lastContainer := none, lastViewport := none }

/-- A concrete child node sitting below `exFrame`. -/
def exChildNode : DNode := DNode.mk exLeaf [0] [] [] 7 1 true none none none none none

/-- The viewport cursor `draw` hands back: unchanged for a childless node,
otherwise advanced once vertically by a row height plus margin and
horizontally by each child's width plus margin. -/
def outVp (n : DNode) (vp : Int × Int) : Int × Int :=
  if n.children.isEmpty then vp
  else (vp.1 + sumAdvance n.children, vp.2 + NODE_HEIGHT + NODE_MARGIN_Y)

/-- Forget an element's child list, keeping the styled fields (`draw` and
its helpers reposition elements and reparent them, but the layout facts
`Drawn` records never concern a `kids` list). -/
def dropKids (e : ElemData) : ElemData :=
  { e with kids := [] }

/-- Two DOMs agree at an index up to the element's child list. -/
def elemAgree (d d' : Dom) (j : Nat) : Prop :=
  (elemAt? d' j).map dropKids = (elemAt? d j).map dropKids

mutual

/-- The element indices `draw` may write styled fields to below a node: its
representation and child/horizontal bars and, for each child, that child's
parent bar and recursively the child's own write set — but not the node's
own parent bar, which only the node's parent writes. -/
def wIds : DNode → List Nat
  | .mk _ _ _ cs _ rep _ cb hb _ _ _ =>
    rep :: (([cb, hb].filterMap id) ++ wIdsList cs)
termination_by structural n => n

/-- The write set of the child loop: each child's parent bar and write set. -/
def wIdsList : List DNode → List Nat
  | [] => []
  | c :: rest => ([c.parentBar].filterMap id) ++ wIds c ++ wIdsList rest
termination_by structural cs => cs

end

/-!  Theorems.  First, bookkeeping lemmas about the list and DOM
primitives; then one section per claim. -/

@[simp] theorem updAt_nil (i : Nat) (f : α → α) : updAt i f ([] : List α) = [] := by
  cases i <;> rfl

@[simp] theorem updAt_zero (f : α → α) (a : α) (t : List α) : updAt 0 f (a :: t) = f a :: t := rfl

@[simp] theorem updAt_succ (j : Nat) (f : α → α) (a : α) (t : List α) :
    updAt (j + 1) f (a :: t) = a :: updAt j f t := rfl

@[simp] theorem length_updAt (i : Nat) (f : α → α) (l : List α) :
    (updAt i f l).length = l.length := by
  induction l generalizing i with
  | nil => simp
  | cons a t ih => cases i <;> simp [ih]

theorem getElem?_updAt_self (i : Nat) (f : α → α) (l : List α) :
    (updAt i f l)[i]? = (l[i]?).map f := by
  induction l generalizing i with
  | nil => simp
  | cons a t ih => cases i <;> simp [ih]

theorem getElem?_updAt_ne (i j : Nat) (f : α → α) (l : List α) (h : j ≠ i) :
    (updAt i f l)[j]? = l[j]? := by
  induction l generalizing i j with
  | nil => simp
  | cons a t ih =>
    cases i with
    | zero =>
      cases j with
      | zero => exact absurd rfl h
      | succ jj => simp
    | succ ii =>
      cases j with
      | zero => simp
      | succ jj => simpa using ih ii jj (by omega)

theorem updAt_eq_self {i : Nat} {f : α → α} {l : List α} {a : α}
    (h : l[i]? = some a) (hf : f a = a) : updAt i f l = l := by
  induction l generalizing i with
  | nil => simp
  | cons x t ih =>
    cases i with
    | zero =>
      simp only [List.getElem?_cons_zero, Option.some.injEq] at h
      subst h
      simp [hf]
    | succ ii =>
      simp only [List.getElem?_cons_succ] at h
      simp [ih h]

theorem set_of_getElem? {l : List α} {i : Nat} {a : α} (h : l[i]? = some a) :
    l.set i a = l := by
  induction l generalizing i with
  | nil => simp
  | cons x t ih =>
    cases i with
    | zero =>
      simp only [List.getElem?_cons_zero, Option.some.injEq] at h
      subst h
      rfl
    | succ ii =>
      simp only [List.getElem?_cons_succ] at h
      simp [List.set, ih h]

@[simp] theorem length_updElem (i : Nat) (f : ElemData → ElemData) (d : Dom) :
    (updElem i f d).elems.length = d.elems.length := by
  simp [updElem]

theorem elemAt?_updElem_self (i : Nat) (f : ElemData → ElemData) (d : Dom) :
    elemAt? (updElem i f d) i = (elemAt? d i).map f := by
  simp [elemAt?, updElem, getElem?_updAt_self]

theorem elemAt?_updElem_ne (i j : Nat) (f : ElemData → ElemData) (d : Dom) (h : j ≠ i) :
    elemAt? (updElem i f d) j = elemAt? d j := by
  simp [elemAt?, updElem, getElem?_updAt_ne i j f d.elems h]

theorem updElem_eq_self {i : Nat} {f : ElemData → ElemData} {d : Dom} {e : ElemData}
    (h : elemAt? d i = some e) (hf : f e = e) : updElem i f d = d := by
  show Dom.mk (updAt i f d.elems) = d
  rw [updAt_eq_self h hf]

@[simp] theorem DNode.innerNode_mk {b p ncs cs rw rep exp cb hb pb lc lv} :
    (DNode.mk b p ncs cs rw rep exp cb hb pb lc lv).innerNode = b := rfl

@[simp] theorem DNode.path_mk {b p ncs cs rw rep exp cb hb pb lc lv} :
    (DNode.mk b p ncs cs rw rep exp cb hb pb lc lv).path = p := rfl

@[simp] theorem DNode.nodeChildren_mk {b p ncs cs rw rep exp cb hb pb lc lv} :
    (DNode.mk b p ncs cs rw rep exp cb hb pb lc lv).nodeChildren = ncs := rfl

@[simp] theorem DNode.children_mk {b p ncs cs rw rep exp cb hb pb lc lv} :
    (DNode.mk b p ncs cs rw rep exp cb hb pb lc lv).children = cs := rfl

@[simp] theorem DNode.requiredWidth_mk {b p ncs cs rw rep exp cb hb pb lc lv} :
    (DNode.mk b p ncs cs rw rep exp cb hb pb lc lv).requiredWidth = rw := rfl

@[simp] theorem DNode.representation_mk {b p ncs cs rw rep exp cb hb pb lc lv} :
    (DNode.mk b p ncs cs rw rep exp cb hb pb lc lv).representation = rep := rfl

@[simp] theorem DNode.isExpanded_mk {b p ncs cs rw rep exp cb hb pb lc lv} :
    (DNode.mk b p ncs cs rw rep exp cb hb pb lc lv).isExpanded = exp := rfl

@[simp] theorem DNode.childBar_mk {b p ncs cs rw rep exp cb hb pb lc lv} :
    (DNode.mk b p ncs cs rw rep exp cb hb pb lc lv).childBar = cb := rfl

@[simp] theorem DNode.horizontalBar_mk {b p ncs cs rw rep exp cb hb pb lc lv} :
    (DNode.mk b p ncs cs rw rep exp cb hb pb lc lv).horizontalBar = hb := rfl

@[simp] theorem DNode.parentBar_mk {b p ncs cs rw rep exp cb hb pb lc lv} :
    (DNode.mk b p ncs cs rw rep exp cb hb pb lc lv).parentBar = pb := rfl

@[simp] theorem DNode.lastContainer_mk {b p ncs cs rw rep exp cb hb pb lc lv} :
    (DNode.mk b p ncs cs rw rep exp cb hb pb lc lv).lastContainer = lc := rfl

@[simp] theorem DNode.lastViewport_mk {b p ncs cs rw rep exp cb hb pb lc lv} :
    (DNode.mk b p ncs cs rw rep exp cb hb pb lc lv).lastViewport = lv := rfl

@[simp] theorem DNode.setChildren_mk {b p ncs cs rw rep exp cb hb pb lc lv cs'} :
    (DNode.mk b p ncs cs rw rep exp cb hb pb lc lv).setChildren cs' =
      DNode.mk b p ncs cs' rw rep exp cb hb pb lc lv := rfl

@[simp] theorem DNode.setRW_mk {b p ncs cs rw rep exp cb hb pb lc lv w} :
    (DNode.mk b p ncs cs rw rep exp cb hb pb lc lv).setRW w =
      DNode.mk b p ncs cs w rep exp cb hb pb lc lv := rfl

@[simp] theorem DNode.setRepresentation_mk {b p ncs cs rw rep exp cb hb pb lc lv r} :
    (DNode.mk b p ncs cs rw rep exp cb hb pb lc lv).setRepresentation r =
      DNode.mk b p ncs cs rw r exp cb hb pb lc lv := rfl

@[simp] theorem DNode.setExpanded_mk {b p ncs cs rw rep exp cb hb pb lc lv v} :
    (DNode.mk b p ncs cs rw rep exp cb hb pb lc lv).setExpanded v =
      DNode.mk b p ncs cs rw rep v cb hb pb lc lv := rfl

@[simp] theorem DNode.setChildBar_mk {b p ncs cs rw rep exp cb hb pb lc lv v} :
    (DNode.mk b p ncs cs rw rep exp cb hb pb lc lv).setChildBar v =
      DNode.mk b p ncs cs rw rep exp v hb pb lc lv := rfl

@[simp] theorem DNode.setHorizontalBar_mk {b p ncs cs rw rep exp cb hb pb lc lv v} :
    (DNode.mk b p ncs cs rw rep exp cb hb pb lc lv).setHorizontalBar v =
      DNode.mk b p ncs cs rw rep exp cb v pb lc lv := rfl

@[simp] theorem DNode.setParentBar_mk {b p ncs cs rw rep exp cb hb pb lc lv v} :
    (DNode.mk b p ncs cs rw rep exp cb hb pb lc lv).setParentBar v =
      DNode.mk b p ncs cs rw rep exp cb hb v lc lv := rfl

@[simp] theorem DNode.setLast_mk {b p ncs cs rw rep exp cb hb pb lc lv c v} :
    (DNode.mk b p ncs cs rw rep exp cb hb pb lc lv).setLast c v =
      DNode.mk b p ncs cs rw rep exp cb hb pb c v := rfl

theorem DNode.eta (n : DNode) :
    DNode.mk n.innerNode n.path n.nodeChildren n.children n.requiredWidth n.representation
      n.isExpanded n.childBar n.horizontalBar n.parentBar n.lastContainer n.lastViewport = n := by
  cases n
  rfl

theorem getRequiredWidth_clean {n : DNode} (h : n.requiredWidth ≠ -1) :
    getRequiredWidth n = (n.requiredWidth, n) := by
  cases n with
  | mk b p ncs cs rw rep exp cb hb pb lc lv =>
    simp only [DNode.requiredWidth_mk] at h
    simp [getRequiredWidth, h]

theorem ite_lt_max (a b : Int) : (if a < b then b else a) = max b a := by
  split <;> rename_i h
  · exact (max_eq_left (le_of_lt h)).symm
  · exact (max_eq_right (not_lt.mp h)).symm

theorem getRequiredWidth_fst_dirty {n : DNode} (h : n.requiredWidth = -1) :
    (getRequiredWidth n).1 =
      max NODE_WIDTH ((getRequiredWidthList n.children).1 +
        if 0 < n.children.length then NODE_MARGIN_X * ((n.children.length : Int) - 1) else 0) := by
  cases n with
  | mk b p ncs cs rw rep exp cb hb pb lc lv =>
    simp only [DNode.requiredWidth_mk] at h
    subst h
    simp only [getRequiredWidth, if_pos rfl, DNode.children_mk]
    exact ite_lt_max _ _

theorem getRequiredWidth_snd_dirty {n : DNode} (h : n.requiredWidth = -1) :
    (getRequiredWidth n).2 =
      (n.setChildren (getRequiredWidthList n.children).2).setRW (getRequiredWidth n).1 := by
  cases n with
  | mk b p ncs cs rw rep exp cb hb pb lc lv =>
    simp only [DNode.requiredWidth_mk] at h
    subst h
    simp [getRequiredWidth]

theorem getRequiredWidth_fst_min {n : DNode} (h : n.requiredWidth = -1) :
    NODE_WIDTH ≤ (getRequiredWidth n).1 := by
  rw [getRequiredWidth_fst_dirty h]
  exact le_max_left _ _

theorem getRequiredWidth_snd_rw (n : DNode) :
    (getRequiredWidth n).2.requiredWidth = (getRequiredWidth n).1 := by
  by_cases h : n.requiredWidth = -1
  · rw [getRequiredWidth_snd_dirty h]
    cases n
    simp
  · rw [getRequiredWidth_clean h]

theorem getRequiredWidth_fst_ne (n : DNode) : (getRequiredWidth n).1 ≠ -1 := by
  by_cases h : n.requiredWidth = -1
  · have := getRequiredWidth_fst_min h
    have hw : NODE_WIDTH = 150 := rfl
    omega
  · rw [getRequiredWidth_clean h]
    exact h

theorem getRequiredWidth_idem (n : DNode) :
    getRequiredWidth (getRequiredWidth n).2 = ((getRequiredWidth n).1, (getRequiredWidth n).2) := by
  have h1 : (getRequiredWidth n).2.requiredWidth ≠ -1 := by
    rw [getRequiredWidth_snd_rw]
    exact getRequiredWidth_fst_ne n
  rw [getRequiredWidth_clean h1, getRequiredWidth_snd_rw]

theorem getRequiredWidthList_fst_map (cs : List DNode) :
    (getRequiredWidthList cs).1 = (cs.map (fun c => (getRequiredWidth c).1)).sum := by
  induction cs with
  | nil => simp [getRequiredWidthList]
  | cons c rest ih => simp [getRequiredWidthList, ih]

theorem getRequiredWidthList_snd_map (cs : List DNode) :
    (getRequiredWidthList cs).2 = cs.map (fun c => (getRequiredWidth c).2) := by
  induction cs with
  | nil => simp [getRequiredWidthList]
  | cons c rest ih => simp [getRequiredWidthList, ih]

/-- C1: for every node whose cached width is dirty, `getRequiredWidth`
returns `max(NODE_WIDTH, w1 + ... + wn + (n-1) * NODE_MARGIN_X)` over the
children's required widths when there are children, returns `NODE_WIDTH`
when there are none, and caches the result. -/
theorem c1_requiredWidth_formula (n : DNode) (h : n.requiredWidth = -1) :
    (n.children = [] → (getRequiredWidth n).1 = NODE_WIDTH) ∧
    (n.children ≠ [] →
      (getRequiredWidth n).1 =
        max NODE_WIDTH ((n.children.map (fun c => (getRequiredWidth c).1)).sum +
          NODE_MARGIN_X * ((n.children.length : Int) - 1))) ∧
    (getRequiredWidth n).2.requiredWidth = (getRequiredWidth n).1 := by
  refine ⟨?_, ?_, getRequiredWidth_snd_rw n⟩
  · intro hcs
    rw [getRequiredWidth_fst_dirty h, hcs]
    simp only [getRequiredWidthList, List.length_nil, lt_self_iff_false, if_false, add_zero]
    decide
  · intro hcs
    rw [getRequiredWidth_fst_dirty h, getRequiredWidthList_fst_map]
    have hlen : 0 < n.children.length := List.length_pos.mpr hcs
    rw [if_pos hlen]

/-- Witness for C1 at the expanded one-child tree: the dirty root's width
is the single child's width floored at the minimum. -/
theorem c1_witness :
    (getRequiredWidth exExpandOne.1).1 =
      max NODE_WIDTH ((exExpandOne.1.children.map (fun c => (getRequiredWidth c).1)).sum +
        NODE_MARGIN_X * ((exExpandOne.1.children.length : Int) - 1)) :=
  (c1_requiredWidth_formula exExpandOne.1 (by decide)).2.1 (by decide)

theorem collapseNode_fst_rw (removeSelf : Bool) (n : DNode) (s : TState) :
    (collapseNode removeSelf n s).1.requiredWidth = 0 := by
  cases n
  simp [collapseNode]

theorem collapseNode_fst_children (removeSelf : Bool) (n : DNode) (s : TState) :
    (collapseNode removeSelf n s).1.children = [] := by
  cases n
  simp [collapseNode]

/-- C3 counterexample: the collapsed leaf is reachable by construction
followed by one user collapse, yet `getRequiredWidth` returns `0`, below
`NODE_WIDTH` (collapse resets the cache to the clean value `0`, not to the
dirty sentinel). -/
theorem c3_counterexample :
    Reachable exLeaf exLeafCollapsed ∧ (getRequiredWidth exLeafCollapsed.1).1 < NODE_WIDTH :=
  ⟨Reachable.collapseStep _ [] false Reachable.init, by decide⟩

/-- C3 amended: `getRequiredWidth` is at least `NODE_WIDTH` whenever the
cached width is dirty at the call; but immediately after a `collapse` the
cache holds the clean value `0`, and `getRequiredWidth` then returns `0`
(below the minimum) until the node is invalidated. -/
theorem c3_amended (n m : DNode) (removeSelf : Bool) (s : TState)
    (h : n.requiredWidth = -1) :
    NODE_WIDTH ≤ (getRequiredWidth n).1 ∧
      (getRequiredWidth (collapseNode removeSelf m s).1).1 = 0 := by
  refine ⟨getRequiredWidth_fst_min h, ?_⟩
  have h0 : (collapseNode removeSelf m s).1.requiredWidth = 0 := collapseNode_fst_rw _ _ _
  have hne : (collapseNode removeSelf m s).1.requiredWidth ≠ -1 := by omega
  rw [getRequiredWidth_clean hne, h0]

/-- Witness for C3 amended at concrete inputs. -/
theorem c3_amended_witness :
    NODE_WIDTH ≤ (getRequiredWidth exBuildLeaf.1).1 ∧
      (getRequiredWidth (collapseNode false exLeafBuilt.1 exLeafBuilt.2).1).1 = 0 :=
  c3_amended exBuildLeaf.1 exLeafBuilt.1 false exLeafBuilt.2 (by decide)

/-- C4 counterexample: after expanding a one-child root, computing its
width and collapsing it, the cache holds `0` — not the dirty sentinel `-1`
— its child list is empty, and the next `getRequiredWidth` returns the
cached `0` rather than the `NODE_WIDTH` a recomputation over the empty
child list would produce. -/
theorem c4_counterexample :
    exCollapseOne.1.requiredWidth = 0 ∧ exCollapseOne.1.requiredWidth ≠ -1 ∧
      exCollapseOne.1.children = [] ∧ (getRequiredWidth exCollapseOne.1).1 = 0 ∧
      (getRequiredWidth exCollapseOne.1).1 ≠ NODE_WIDTH := by
  decide

/-- C4 amended: after `collapse(removeSelf)` returns, the cached
`requiredWidth` is the clean value `0` (not the dirty sentinel `-1`), so
the next `getRequiredWidth` returns `0` without recomputing; only once the
cache is reset to the sentinel (as `invalidate` does) is the width
recomputed, yielding `NODE_WIDTH` for the now-empty child list. -/
theorem c4_amended (removeSelf : Bool) (n : DNode) (s : TState) :
    (collapseNode removeSelf n s).1.requiredWidth = 0 ∧
    getRequiredWidth (collapseNode removeSelf n s).1 = (0, (collapseNode removeSelf n s).1) ∧
    (getRequiredWidth ((collapseNode removeSelf n s).1.setRW (-1))).1 = NODE_WIDTH := by
  have h0 : (collapseNode removeSelf n s).1.requiredWidth = 0 := collapseNode_fst_rw _ _ _
  have hne : (collapseNode removeSelf n s).1.requiredWidth ≠ -1 := by omega
  refine ⟨h0, ?_, ?_⟩
  · rw [getRequiredWidth_clean hne, h0]
  · have hc : (collapseNode removeSelf n s).1.children = [] := collapseNode_fst_children _ _ _
    have hrw : ((collapseNode removeSelf n s).1.setRW (-1)).requiredWidth = -1 := by
      cases h : (collapseNode removeSelf n s).1
      simp
    rw [getRequiredWidth_fst_dirty hrw]
    have hc2 : ((collapseNode removeSelf n s).1.setRW (-1)).children = [] := by
      cases h : (collapseNode removeSelf n s).1
      simp only [DNode.setRW_mk, DNode.children_mk]
      have := hc
      rw [h] at this
      simpa using this
    rw [hc2]
    simp only [getRequiredWidthList, List.length_nil, lt_self_iff_false, if_false, add_zero]
    decide

theorem take_append_left_of_le {l r : List α} {k : Nat} (h : k ≤ l.length) :
    (l ++ r).take k = l.take k := by
  induction l generalizing k with
  | nil =>
    have : k = 0 := by simpa using h
    subst this
    simp
  | cons a t ih =>
    cases k with
    | zero => simp
    | succ kk =>
      simp only [List.cons_append, List.take_succ_cons]
      rw [ih (by simpa using h)]

theorem take_of_le_length {l : List α} {k : Nat} (h : l.length ≤ k) : l.take k = l := by
  induction l generalizing k with
  | nil => simp
  | cons a t ih =>
    cases k with
    | zero => simp at h
    | succ kk =>
      simp only [List.take_succ_cons]
      rw [ih (by simpa using h)]

theorem getElem?_append_cons (l : List α) (a : α) (r : List α) :
    (l ++ a :: r)[l.length]? = some a := by
  induction l with
  | nil => simp
  | cons x t ih => simpa using ih

theorem invalidateUp_eq (fuel : Nat) (ctx : List Frame) (n : DNode) (s : TState) :
    invalidateUp fuel ctx n s =
      ((redrawNode fuel (dirtyPlug ctx n) s).1, (redrawNode fuel (dirtyPlug ctx n) s).2, 1) := by
  induction ctx generalizing n with
  | nil => simp [invalidateUp, dirtyPlug]
  | cons f rest ih => simp [invalidateUp, dirtyPlug, ih]

theorem holePath_cons (f : Frame) (rest : List Frame) :
    holePath (f :: rest) = holePath rest ++ [f.before.length] := by
  simp [holePath]

theorem length_holePath (ctx : List Frame) : (holePath ctx).length = ctx.length := by
  simp [holePath]

theorem nodeAt_append_single (n : DNode) (p : List Nat) (i : Nat) :
    nodeAt n (p ++ [i]) = (nodeAt n p).bind (fun m => m.children[i]?) := by
  induction p generalizing n with
  | nil =>
    simp only [List.nil_append, nodeAt, Option.bind_some]
    cases h : n.children[i]? with
    | none => simp [nodeAt, h]
    | some c => simp [nodeAt, h]
  | cons j rest ih =>
    simp only [List.cons_append, nodeAt]
    cases h : n.children[j]? with
    | none => simp
    | some c => simpa using ih c

theorem nodeAt_dirtyPlug (ctx : List Frame) (m : DNode) :
    nodeAt (dirtyPlug ctx m) (holePath ctx) = some (m.setRW (-1)) := by
  induction ctx generalizing m with
  | nil => simp [dirtyPlug, holePath, nodeAt]
  | cons f rest ih =>
    rw [holePath_cons, dirtyPlug, nodeAt_append_single, ih]
    cases hm : m with
    | mk b p ncs cs rw rep exp cb hb pb lc lv =>
      simp only [Option.bind_some, plug, DNode.setRW_mk, DNode.children_mk]
      exact getElem?_append_cons _ _ _

theorem dirtyPlug_marks (ctx : List Frame) (m : DNode) :
    ∀ k, k ≤ ctx.length →
      ∃ q, nodeAt (dirtyPlug ctx m) ((holePath ctx).take k) = some q ∧
        q.requiredWidth = -1 := by
  induction ctx generalizing m with
  | nil =>
    intro k hk
    have hk0 : k = 0 := by simpa using hk
    subst hk0
    refine ⟨m.setRW (-1), by simp [dirtyPlug, nodeAt], ?_⟩
    cases m
    simp
  | cons f rest ih =>
    intro k hk
    by_cases hk2 : k ≤ rest.length
    · rw [holePath_cons, take_append_left_of_le (by rw [length_holePath]; exact hk2)]
      rw [dirtyPlug]
      have hres := ih (plug f (m.setRW (-1))) k hk2
      rw [holePath] at hres ⊢
      exact hres
    · have hk3 : k = rest.length + 1 := by
        simp only [List.length_cons] at hk
        omega
      subst hk3
      rw [take_of_le_length (by rw [holePath_cons]; simp [length_holePath])]
      refine ⟨m.setRW (-1), nodeAt_dirtyPlug _ _, ?_⟩
      cases m
      simp

/-- C2: `invalidate` on a node at an arbitrary ancestor context performs
exactly one `redraw` (the count in the third component is 1), that redraw is
executed on the fully rebuilt root — the unique ancestor with no parent —
after the node and every ancestor on the way up have had their cached
widths set to the dirty sentinel (`dirtyPlug`), and the marking really
dirties every prefix of the path from the root to the invalidated node. -/
theorem c2_invalidate_single_redraw (fuel : Nat) (ctx : List Frame) (n : DNode) (s : TState) :
    invalidateUp fuel ctx n s =
      ((redrawNode fuel (dirtyPlug ctx n) s).1, (redrawNode fuel (dirtyPlug ctx n) s).2, 1) ∧
    (∀ k, k ≤ ctx.length →
      ∃ q, nodeAt (dirtyPlug ctx n) ((holePath ctx).take k) = some q ∧
        q.requiredWidth = -1) :=
  ⟨invalidateUp_eq fuel ctx n s, dirtyPlug_marks ctx n⟩

/-- Witness for C2 at a concrete one-frame context. -/
theorem c2_witness :
    (invalidateUp 0 [exFrame] exChildNode initState =
      ((redrawNode 0 (dirtyPlug [exFrame] exChildNode) initState).1,
        (redrawNode 0 (dirtyPlug [exFrame] exChildNode) initState).2, 1)) ∧
    (∃ q, nodeAt (dirtyPlug [exFrame] exChildNode) ((holePath [exFrame]).take 1) = some q ∧
      q.requiredWidth = -1) :=
  ⟨(c2_invalidate_single_redraw 0 [exFrame] exChildNode initState).1,
    (c2_invalidate_single_redraw 0 [exFrame] exChildNode initState).2 1 (by decide)⟩

theorem getElem?_append_lt {l r : List α} {j : Nat} (h : j < l.length) :
    (l ++ r)[j]? = l[j]? := by
  induction l generalizing j with
  | nil => simp at h
  | cons a t ih =>
    cases j with
    | zero => simp
    | succ jj => simpa using ih (by simpa using h)

@[simp] theorem leafExpandedB_mk {b p ncs cs rw rep exp cb hb pb lc lv} :
    leafExpandedB (DNode.mk b p ncs cs rw rep exp cb hb pb lc lv) =
      ((!ncs.isEmpty || exp) && leafExpandedListB cs) := by
  simp [leafExpandedB]

@[simp] theorem leafExpandedListB_nil : leafExpandedListB [] = true := by
  simp [leafExpandedListB]

@[simp] theorem leafExpandedListB_cons {c : DNode} {rest : List DNode} :
    leafExpandedListB (c :: rest) = (leafExpandedB c && leafExpandedListB rest) := by
  simp [leafExpandedListB]

theorem createRepresentationOp_fst (p : List Nat) (cnt : Nat) (s : TState) :
    (createRepresentationOp p cnt s).1 = s.dom.elems.length := rfl

theorem createRepresentationOp_eq (p : List Nat) (cnt : Nat) (s : TState) :
    createRepresentationOp p cnt s =
      (s.dom.elems.length,
        { s with
            dom := updElem (s.dom.elems.length + 1)
              (fun e => { e with parent := some s.dom.elems.length })
              (updElem s.dom.elems.length
                (fun e => { e with kids := e.kids ++ [s.dom.elems.length + 1] })
                { elems := (s.dom.elems ++ [blankElem]) ++ [badgeElem cnt] }),
            log := s.log ++ [Event.createRep p] }) := by
  simp only [createRepresentationOp, allocElem, appendChild, parentOf, elemAt?]
  have hidx : ((s.dom.elems ++ [blankElem]).length) = s.dom.elems.length + 1 := by simp
  simp only [hidx]
  rw [show ((s.dom.elems ++ [blankElem]) ++ [badgeElem cnt])[s.dom.elems.length + 1]? =
      some (badgeElem cnt) from by
    rw [← hidx]
    exact List.getElem?_concat_length _ _]
  rfl

theorem createRepresentationOp_length (p : List Nat) (cnt : Nat) (s : TState) :
    (createRepresentationOp p cnt s).2.dom.elems.length = s.dom.elems.length + 2 := by
  rw [createRepresentationOp_eq]
  simp

theorem createRepresentationOp_preserve (p : List Nat) (cnt : Nat) (s : TState)
    {j : Nat} (hj : j < s.dom.elems.length) :
    elemAt? (createRepresentationOp p cnt s).2.dom j = elemAt? s.dom j := by
  rw [createRepresentationOp_eq]
  show elemAt? (updElem _ _ (updElem _ _ _)) j = _
  rw [elemAt?_updElem_ne _ _ _ _ (by omega), elemAt?_updElem_ne _ _ _ _ (by omega)]
  show ((s.dom.elems ++ [blankElem]) ++ _)[j]? = _
  rw [getElem?_append_lt (by simp; omega), getElem?_append_lt (by omega)]
  rfl

theorem createRepresentationOp_log (p : List Nat) (cnt : Nat) (s : TState) :
    (createRepresentationOp p cnt s).2.log = s.log ++ [Event.createRep p] := by
  rw [createRepresentationOp_eq]

theorem createRepresentationOp_flags (p : List Nat) (cnt : Nat) (s : TState) :
    (createRepresentationOp p cnt s).2.flags = s.flags := by
  rw [createRepresentationOp_eq]

theorem expandChildren_nil (p : List Nat) (i : Nat) (r : Bool) (s : TState) :
    expandChildren [] p i r s = ([], s) := by
  simp [expandChildren]

theorem expandChildren_cons (bcs : List BTree) (rest : List BTree) (p : List Nat) (i : Nat)
    (r : Bool) (s : TState) :
    expandChildren (BTree.mk bcs :: rest) p i r s =
      (let r1 := construct (BTree.mk bcs) (p ++ [i]) s
       let r2 := if r then
           (let q := expandChildren bcs r1.1.path 0 true r1.2
            ((r1.1.setChildren q.1).setExpanded true,
              { q.2 with flags := setFlag r1.1.path true q.2.flags }))
         else r1
       let r3 := expandChildren rest p (i + 1) r r2.2
       (r2.1 :: r3.1, r3.2)) := by
  simp only [expandChildren]

theorem construct_eq (cs : List BTree) (p : List Nat) (s : TState) :
    construct (BTree.mk cs) p s =
      (let r := createRepresentationOp p cs.length { s with log := s.log ++ [Event.getChildren p] }
       let n : DNode := DNode.mk (BTree.mk cs) p cs [] (-1) r.1 cs.isEmpty none none none none none
       if getFlag s.flags p then
         (let e := expandChildren cs p 0 false r.2
          ((n.setChildren e.1).setExpanded true, { e.2 with flags := setFlag p true e.2.flags }))
       else (n, r.2)) := by
  simp only [construct, createRepresentationOp_flags]


@[simp] theorem BTree.children_of_mk (cs : List BTree) : (BTree.mk cs).children = cs := rfl

theorem DNode.fields_setChildren_setExpanded (n : DNode) (cs : List DNode) (v : Bool) :
    ((n.setChildren cs).setExpanded v).innerNode = n.innerNode ∧
    ((n.setChildren cs).setExpanded v).representation = n.representation ∧
    ((n.setChildren cs).setExpanded v).childBar = n.childBar ∧
    ((n.setChildren cs).setExpanded v).horizontalBar = n.horizontalBar ∧
    ((n.setChildren cs).setExpanded v).parentBar = n.parentBar ∧
    ((n.setChildren cs).setExpanded v).children = cs ∧
    ((n.setChildren cs).setExpanded v).isExpanded = v ∧
    ((n.setChildren cs).setExpanded v).nodeChildren = n.nodeChildren ∧
    ((n.setChildren cs).setExpanded v).path = n.path ∧
    ((n.setChildren cs).setExpanded v).requiredWidth = n.requiredWidth := by
  cases n
  simp

theorem leafExpandedB_setChildren_setExpanded_true (n : DNode) (cs : List DNode) :
    leafExpandedB ((n.setChildren cs).setExpanded true) = leafExpandedListB cs := by
  cases n
  simp

theorem expandChildren_cons_false (bcs rest : List BTree) (p : List Nat) (i : Nat) (s : TState) :
    expandChildren (BTree.mk bcs :: rest) p i false s =
      ((construct (BTree.mk bcs) (p ++ [i]) s).1 ::
        (expandChildren rest p (i + 1) false (construct (BTree.mk bcs) (p ++ [i]) s).2).1,
       (expandChildren rest p (i + 1) false (construct (BTree.mk bcs) (p ++ [i]) s).2).2) := by
  simp [expandChildren]

theorem expandChildren_cons_true (bcs rest : List BTree) (p : List Nat) (i : Nat) (s : TState) :
    expandChildren (BTree.mk bcs :: rest) p i true s =
      ((((construct (BTree.mk bcs) (p ++ [i]) s).1.setChildren
          (expandChildren bcs (construct (BTree.mk bcs) (p ++ [i]) s).1.path 0 true
            (construct (BTree.mk bcs) (p ++ [i]) s).2).1).setExpanded true) ::
        (expandChildren rest p (i + 1) true
          { (expandChildren bcs (construct (BTree.mk bcs) (p ++ [i]) s).1.path 0 true
              (construct (BTree.mk bcs) (p ++ [i]) s).2).2 with
            flags := setFlag (construct (BTree.mk bcs) (p ++ [i]) s).1.path true
              (expandChildren bcs (construct (BTree.mk bcs) (p ++ [i]) s).1.path 0 true
                (construct (BTree.mk bcs) (p ++ [i]) s).2).2.flags }).1,
       (expandChildren rest p (i + 1) true
          { (expandChildren bcs (construct (BTree.mk bcs) (p ++ [i]) s).1.path 0 true
              (construct (BTree.mk bcs) (p ++ [i]) s).2).2 with
            flags := setFlag (construct (BTree.mk bcs) (p ++ [i]) s).1.path true
              (expandChildren bcs (construct (BTree.mk bcs) (p ++ [i]) s).1.path 0 true
                (construct (BTree.mk bcs) (p ++ [i]) s).2).2.flags }).2) := by
  simp [expandChildren]

theorem construct_expand_pack :
    (∀ (b : BTree) (p : List Nat) (s : TState),
      (construct b p s).1.innerNode = b ∧
      (construct b p s).1.path = p ∧
      (construct b p s).1.nodeChildren = b.children ∧
      (construct b p s).1.requiredWidth = -1 ∧
      (construct b p s).1.representation = s.dom.elems.length ∧
      (construct b p s).1.childBar = none ∧
      (construct b p s).1.horizontalBar = none ∧
      (construct b p s).1.parentBar = none ∧
      s.dom.elems.length < (construct b p s).2.dom.elems.length ∧
      (∀ j, j < s.dom.elems.length →
        elemAt? (construct b p s).2.dom j = elemAt? s.dom j) ∧
      (∃ tail, (construct b p s).2.log = s.log ++ tail ∧
        ∀ e ∈ tail, p.length ≤ eventDepth e) ∧
      leafExpandedB (construct b p s).1 = true) ∧
    (∀ (bs : List BTree) (p : List Nat) (i : Nat) (r : Bool) (s : TState),
      (expandChildren bs p i r s).1.map DNode.innerNode = bs ∧
      (∀ c ∈ (expandChildren bs p i r s).1,
        s.dom.elems.length ≤ c.representation ∧
        c.representation < (expandChildren bs p i r s).2.dom.elems.length ∧
        c.childBar = none ∧ c.horizontalBar = none ∧ c.parentBar = none) ∧
      s.dom.elems.length ≤ (expandChildren bs p i r s).2.dom.elems.length ∧
      (∀ j, j < s.dom.elems.length →
        elemAt? (expandChildren bs p i r s).2.dom j = elemAt? s.dom j) ∧
      (∃ tail, (expandChildren bs p i r s).2.log = s.log ++ tail ∧
        ∀ e ∈ tail, p.length + 1 ≤ eventDepth e) ∧
      leafExpandedListB (expandChildren bs p i r s).1 = true) := by
  refine construct.mutual_induct _ _ ?hflag ?hnoflag ?hnil ?hcons
  case hnil =>
    intro p i r s
    rw [expandChildren_nil]
    refine ⟨rfl, ?_, le_refl _, fun j _ => rfl, ⟨[], by simp⟩, rfl⟩
    intro c hc
    simp at hc
  case hnoflag =>
    intro cs p s s1 r hflag
    rw [Bool.not_eq_true] at hflag
    have hf : getFlag s.flags p = false := hflag
    rw [construct_eq]
    simp only [hf, Bool.false_eq_true, if_false]
    have hrepfst : (createRepresentationOp p cs.length
        { s with log := s.log ++ [Event.getChildren p] }).1 = s.dom.elems.length :=
      createRepresentationOp_fst p cs.length { s with log := s.log ++ [Event.getChildren p] }
    have hlen : (createRepresentationOp p cs.length
        { s with log := s.log ++ [Event.getChildren p] }).2.dom.elems.length =
        s.dom.elems.length + 2 :=
      createRepresentationOp_length p cs.length { s with log := s.log ++ [Event.getChildren p] }
    refine ⟨rfl, rfl, rfl, rfl, by simp [hrepfst], rfl, rfl, rfl, by rw [hlen]; omega,
      ?_, ?_, ?_⟩
    · intro j hj
      exact createRepresentationOp_preserve _ _ _ hj
    · refine ⟨[Event.getChildren p, Event.createRep p], ?_, ?_⟩
      · rw [createRepresentationOp_log]
        simp
      · intro e he
        simp only [List.mem_cons, List.mem_singleton] at he
        rcases he with h | h | h
        · subst h; simp [eventDepth]
        · subst h; simp [eventDepth]
        · simp at h
    · simp only [leafExpandedB_mk, leafExpandedListB_nil, Bool.and_true]
      cases cs <;> simp
  case hflag =>
    intro cs p s s1 r hflag ih
    have hf : getFlag s.flags p = true := hflag
    obtain ⟨ih1, ih2, ih3, ih4, ih5, ih6⟩ := ih
    rw [construct_eq]
    simp only [hf, eq_self_iff_true, if_true]
    have hrepfst : (createRepresentationOp p cs.length
        { s with log := s.log ++ [Event.getChildren p] }).1 = s.dom.elems.length :=
      createRepresentationOp_fst p cs.length { s with log := s.log ++ [Event.getChildren p] }
    have hlen : (createRepresentationOp p cs.length
        { s with log := s.log ++ [Event.getChildren p] }).2.dom.elems.length =
        s.dom.elems.length + 2 :=
      createRepresentationOp_length p cs.length { s with log := s.log ++ [Event.getChildren p] }
    have ih3e : (createRepresentationOp p cs.length
        { s with log := s.log ++ [Event.getChildren p] }).2.dom.elems.length ≤
        (expandChildren cs p 0 false (createRepresentationOp p cs.length
          { s with log := s.log ++ [Event.getChildren p] }).2).2.dom.elems.length := ih3
    have ih6e : leafExpandedListB (expandChildren cs p 0 false
        (createRepresentationOp p cs.length
          { s with log := s.log ++ [Event.getChildren p] }).2).1 = true := ih6
    refine ⟨by simp, by simp, by simp, by simp, by simp [hrepfst], by simp, by simp, by simp,
        by omega, ?_, ?_, ?_⟩
    · intro j hj
      have hj2 : j < (createRepresentationOp p cs.length
          { s with log := s.log ++ [Event.getChildren p] }).2.dom.elems.length := by omega
      have step1 := ih4 j hj2
      have step2 := createRepresentationOp_preserve p cs.length
        { s with log := s.log ++ [Event.getChildren p] } hj
      calc elemAt? (expandChildren cs p 0 false (createRepresentationOp p cs.length
            { s with log := s.log ++ [Event.getChildren p] }).2).2.dom j
          = elemAt? (createRepresentationOp p cs.length
            { s with log := s.log ++ [Event.getChildren p] }).2.dom j := step1
        _ = elemAt? s.dom j := step2
    · obtain ⟨tl, htl, hdep⟩ := ih5
      have htle : (expandChildren cs p 0 false (createRepresentationOp p cs.length
          { s with log := s.log ++ [Event.getChildren p] }).2).2.log =
          (createRepresentationOp p cs.length
            { s with log := s.log ++ [Event.getChildren p] }).2.log ++ tl := htl
      refine ⟨[Event.getChildren p, Event.createRep p] ++ tl, ?_, ?_⟩
      · show (expandChildren cs p 0 false (createRepresentationOp p cs.length
          { s with log := s.log ++ [Event.getChildren p] }).2).2.log = _
        rw [htle, createRepresentationOp_log]
        simp
      · intro e he
        simp only [List.mem_append, List.mem_cons, List.mem_singleton] at he
        rcases he with (h | h | h) | h
        · subst h; simp [eventDepth]
        · subst h; simp [eventDepth]
        · simp at h
        · have := hdep e h
          omega
    · rw [leafExpandedB_setChildren_setExpanded_true]
      exact ih6e
  case hcons =>
    intro bcs rest p i recurse s r1 r2 ihc ihq ihr
    obtain ⟨c1, c2, c3, c4, c5, c6, c7, c8, c9, c10, c11, c12⟩ := ihc
    cases recurse with
    | false =>
      rw [expandChildren_cons_false]
      dsimp only
      obtain ⟨e1, e2, e3, e4, e5, e6⟩ := ihr
      have e1x : (expandChildren rest p (i + 1) false
          (construct (BTree.mk bcs) (p ++ [i]) s).2).1.map DNode.innerNode = rest := e1
      have e2x : ∀ c ∈ (expandChildren rest p (i + 1) false
            (construct (BTree.mk bcs) (p ++ [i]) s).2).1,
          (construct (BTree.mk bcs) (p ++ [i]) s).2.dom.elems.length ≤ c.representation ∧
          c.representation < (expandChildren rest p (i + 1) false
            (construct (BTree.mk bcs) (p ++ [i]) s).2).2.dom.elems.length ∧
          c.childBar = none ∧ c.horizontalBar = none ∧ c.parentBar = none := e2
      have e3x : (construct (BTree.mk bcs) (p ++ [i]) s).2.dom.elems.length ≤
          (expandChildren rest p (i + 1) false
            (construct (BTree.mk bcs) (p ++ [i]) s).2).2.dom.elems.length := e3
      have e4x : ∀ j, j < (construct (BTree.mk bcs) (p ++ [i]) s).2.dom.elems.length →
          elemAt? (expandChildren rest p (i + 1) false
            (construct (BTree.mk bcs) (p ++ [i]) s).2).2.dom j =
          elemAt? (construct (BTree.mk bcs) (p ++ [i]) s).2.dom j := e4
      have e5x : ∃ tail, (expandChildren rest p (i + 1) false
            (construct (BTree.mk bcs) (p ++ [i]) s).2).2.log =
            (construct (BTree.mk bcs) (p ++ [i]) s).2.log ++ tail ∧
          ∀ e ∈ tail, p.length + 1 ≤ eventDepth e := e5
      have e6x : leafExpandedListB (expandChildren rest p (i + 1) false
          (construct (BTree.mk bcs) (p ++ [i]) s).2).1 = true := e6
      refine ⟨by simp [c1, e1x], ?_, by omega, ?_, ?_, by simp [c12, e6x]⟩
      · intro c hc
        rcases List.mem_cons.mp hc with h | h
        · subst h
          refine ⟨by omega, by omega, c6, c7, c8⟩
        · obtain ⟨hh1, hh2, hh3, hh4, hh5⟩ := e2x c h
          exact ⟨by omega, hh2, hh3, hh4, hh5⟩
      · intro j hj
        have hj2 : j < (construct (BTree.mk bcs) (p ++ [i]) s).2.dom.elems.length := by omega
        rw [e4x j hj2, c10 j hj]
      · obtain ⟨tl1, htl1, hdep1⟩ := c11
        obtain ⟨tl2, htl2, hdep2⟩ := e5x
        refine ⟨tl1 ++ tl2, by rw [htl2, htl1, List.append_assoc], ?_⟩
        intro e he
        rcases List.mem_append.mp he with h | h
        · have := hdep1 e h
          simp only [List.length_append, List.length_singleton] at this
          omega
        · exact hdep2 e h
    | true =>
      rw [expandChildren_cons_true]
      dsimp only
      obtain ⟨q1, q2, q3, q4, q5, q6⟩ := ihq
      obtain ⟨f1, f2, f3, f4, f5, f6, f7, f8, f9, f10⟩ :=
        DNode.fields_setChildren_setExpanded (construct (BTree.mk bcs) (p ++ [i]) s).1
          (expandChildren bcs (construct (BTree.mk bcs) (p ++ [i]) s).1.path 0 true
            (construct (BTree.mk bcs) (p ++ [i]) s).2).1 true
      obtain ⟨e1, e2, e3, e4, e5, e6⟩ := ihr
      have q3x : (construct (BTree.mk bcs) (p ++ [i]) s).2.dom.elems.length ≤
          (expandChildren bcs (construct (BTree.mk bcs) (p ++ [i]) s).1.path 0 true
            (construct (BTree.mk bcs) (p ++ [i]) s).2).2.dom.elems.length := q3
      have q4x : ∀ j, j < (construct (BTree.mk bcs) (p ++ [i]) s).2.dom.elems.length →
          elemAt? (expandChildren bcs (construct (BTree.mk bcs) (p ++ [i]) s).1.path 0 true
            (construct (BTree.mk bcs) (p ++ [i]) s).2).2.dom j =
          elemAt? (construct (BTree.mk bcs) (p ++ [i]) s).2.dom j := q4
      have q5x : ∃ tail, (expandChildren bcs (construct (BTree.mk bcs) (p ++ [i]) s).1.path 0 true
            (construct (BTree.mk bcs) (p ++ [i]) s).2).2.log =
            (construct (BTree.mk bcs) (p ++ [i]) s).2.log ++ tail ∧
          ∀ e ∈ tail, (construct (BTree.mk bcs) (p ++ [i]) s).1.path.length + 1 ≤ eventDepth e := q5
      have q6x : leafExpandedListB (expandChildren bcs (construct (BTree.mk bcs) (p ++ [i]) s).1.path 0 true
            (construct (BTree.mk bcs) (p ++ [i]) s).2).1 = true := q6
      have e1x : (expandChildren rest p (i + 1) true
            { (expandChildren bcs (construct (BTree.mk bcs) (p ++ [i]) s).1.path 0 true
            (construct (BTree.mk bcs) (p ++ [i]) s).2).2 with
              flags := setFlag (construct (BTree.mk bcs) (p ++ [i]) s).1.path true (expandChildren bcs (construct (BTree.mk bcs) (p ++ [i]) s).1.path 0 true
            (construct (BTree.mk bcs) (p ++ [i]) s).2).2.flags }).1.map DNode.innerNode = rest := e1
      have e2x : ∀ c ∈ (expandChildren rest p (i + 1) true
            { (expandChildren bcs (construct (BTree.mk bcs) (p ++ [i]) s).1.path 0 true
            (construct (BTree.mk bcs) (p ++ [i]) s).2).2 with
              flags := setFlag (construct (BTree.mk bcs) (p ++ [i]) s).1.path true (expandChildren bcs (construct (BTree.mk bcs) (p ++ [i]) s).1.path 0 true
            (construct (BTree.mk bcs) (p ++ [i]) s).2).2.flags }).1,
          (expandChildren bcs (construct (BTree.mk bcs) (p ++ [i]) s).1.path 0 true
            (construct (BTree.mk bcs) (p ++ [i]) s).2).2.dom.elems.length ≤ c.representation ∧
          c.representation < (expandChildren rest p (i + 1) true
            { (expandChildren bcs (construct (BTree.mk bcs) (p ++ [i]) s).1.path 0 true
            (construct (BTree.mk bcs) (p ++ [i]) s).2).2 with
              flags := setFlag (construct (BTree.mk bcs) (p ++ [i]) s).1.path true (expandChildren bcs (construct (BTree.mk bcs) (p ++ [i]) s).1.path 0 true
            (construct (BTree.mk bcs) (p ++ [i]) s).2).2.flags }).2.dom.elems.length ∧
          c.childBar = none ∧ c.horizontalBar = none ∧ c.parentBar = none := e2
      have e3x : (expandChildren bcs (construct (BTree.mk bcs) (p ++ [i]) s).1.path 0 true
            (construct (BTree.mk bcs) (p ++ [i]) s).2).2.dom.elems.length ≤
          (expandChildren rest p (i + 1) true
            { (expandChildren bcs (construct (BTree.mk bcs) (p ++ [i]) s).1.path 0 true
            (construct (BTree.mk bcs) (p ++ [i]) s).2).2 with
              flags := setFlag (construct (BTree.mk bcs) (p ++ [i]) s).1.path true (expandChildren bcs (construct (BTree.mk bcs) (p ++ [i]) s).1.path 0 true
            (construct (BTree.mk bcs) (p ++ [i]) s).2).2.flags }).2.dom.elems.length := e3
      have e4x : ∀ j, j < (expandChildren bcs (construct (BTree.mk bcs) (p ++ [i]) s).1.path 0 true
            (construct (BTree.mk bcs) (p ++ [i]) s).2).2.dom.elems.length →
          elemAt? (expandChildren rest p (i + 1) true
            { (expandChildren bcs (construct (BTree.mk bcs) (p ++ [i]) s).1.path 0 true
            (construct (BTree.mk bcs) (p ++ [i]) s).2).2 with
              flags := setFlag (construct (BTree.mk bcs) (p ++ [i]) s).1.path true (expandChildren bcs (construct (BTree.mk bcs) (p ++ [i]) s).1.path 0 true
            (construct (BTree.mk bcs) (p ++ [i]) s).2).2.flags }).2.dom j =
          elemAt? (expandChildren bcs (construct (BTree.mk bcs) (p ++ [i]) s).1.path 0 true
            (construct (BTree.mk bcs) (p ++ [i]) s).2).2.dom j := e4
      have e5x : ∃ tail, (expandChildren rest p (i + 1) true
            { (expandChildren bcs (construct (BTree.mk bcs) (p ++ [i]) s).1.path 0 true
            (construct (BTree.mk bcs) (p ++ [i]) s).2).2 with
              flags := setFlag (construct (BTree.mk bcs) (p ++ [i]) s).1.path true (expandChildren bcs (construct (BTree.mk bcs) (p ++ [i]) s).1.path 0 true
            (construct (BTree.mk bcs) (p ++ [i]) s).2).2.flags }).2.log =
            (expandChildren bcs (construct (BTree.mk bcs) (p ++ [i]) s).1.path 0 true
            (construct (BTree.mk bcs) (p ++ [i]) s).2).2.log ++ tail ∧
          ∀ e ∈ tail, p.length + 1 ≤ eventDepth e := e5
      have e6x : leafExpandedListB (expandChildren rest p (i + 1) true
            { (expandChildren bcs (construct (BTree.mk bcs) (p ++ [i]) s).1.path 0 true
            (construct (BTree.mk bcs) (p ++ [i]) s).2).2 with
              flags := setFlag (construct (BTree.mk bcs) (p ++ [i]) s).1.path true (expandChildren bcs (construct (BTree.mk bcs) (p ++ [i]) s).1.path 0 true
            (construct (BTree.mk bcs) (p ++ [i]) s).2).2.flags }).1 = true := e6
      refine ⟨by simp [f1, c1, e1x], ?_,
        le_trans (le_of_lt (lt_of_lt_of_le c9 q3x)) e3x, ?_, ?_, ?_⟩
      · intro c hc
        rcases List.mem_cons.mp hc with h | h
        · subst h
          rw [f2, f3, f4, f5]
          refine ⟨by rw [c5], by rw [c5]; exact lt_of_lt_of_le (lt_of_lt_of_le c9 q3x) e3x,
            c6, c7, c8⟩
        · obtain ⟨hh1, hh2, hh3, hh4, hh5⟩ := e2x c h
          exact ⟨le_trans (le_trans (le_of_lt c9) q3x) hh1, hh2, hh3, hh4, hh5⟩
      · intro j hj
        have hj1 : j < (construct (BTree.mk bcs) (p ++ [i]) s).2.dom.elems.length :=
          lt_trans hj c9
        have hj2 : j < (expandChildren bcs (construct (BTree.mk bcs) (p ++ [i]) s).1.path 0 true
            (construct (BTree.mk bcs) (p ++ [i]) s).2).2.dom.elems.length :=
          lt_of_lt_of_le hj1 q3x
        rw [e4x j hj2, q4x j hj1, c10 j hj]
      · obtain ⟨tl1, htl1, hdep1⟩ := c11
        obtain ⟨tl2, htl2, hdep2⟩ := q5x
        obtain ⟨tl3, htl3, hdep3⟩ := e5x
        rw [c2] at hdep2
        refine ⟨tl1 ++ (tl2 ++ tl3), ?_, ?_⟩
        · rw [htl3, htl2, htl1]
          simp [List.append_assoc]
        · intro e he
          simp only [List.mem_append] at he
          simp only [List.length_append, List.length_singleton] at hdep1 hdep2
          rcases he with h | h | h
          · have := hdep1 e h
            omega
          · have := hdep2 e h
            omega
          · exact hdep3 e h
      · simp only [leafExpandedListB_cons, leafExpandedB_setChildren_setExpanded_true,
          q6x, e6x, Bool.and_self]

theorem expandWith_eq (bs : List BTree) (r : Bool) (n : DNode) (s : TState) :
    expandWith bs r n s =
      ((n.setChildren (expandChildren bs n.path 0 r s).1).setExpanded true,
        { (expandChildren bs n.path 0 r s).2 with
          flags := setFlag n.path true (expandChildren bs n.path 0 r s).2.flags }) := by
  simp [expandWith]

theorem length_removeIfAttached (i : Nat) (d : Dom) :
    (removeIfAttached i d).elems.length = d.elems.length := by
  unfold removeIfAttached removeChild
  cases parentOf d i <;> simp

theorem length_ensureBar (cur : Option Nat) (cls : String) (d : Dom) :
    d.elems.length ≤ (ensureBar cur cls d).2.2.elems.length := by
  cases cur <;> simp [ensureBar, allocElem]

theorem collapse_state_pack :
    (∀ (rs : Bool) (n : DNode) (s : TState),
      (collapseNode rs n s).2.log = s.log ∧
      (collapseNode rs n s).2.pending = s.pending ∧
      s.dom.elems.length ≤ (collapseNode rs n s).2.dom.elems.length) ∧
    (∀ (cs : List DNode) (s : TState),
      (collapseList cs s).log = s.log ∧
      (collapseList cs s).pending = s.pending ∧
      s.dom.elems.length ≤ (collapseList cs s).dom.elems.length) := by
  refine collapseNode.mutual_induct _ _ ?hnode ?hnil ?hcons
  case hnil =>
    intro s
    exact ⟨rfl, rfl, le_refl _⟩
  case hcons =>
    intro c rest s ih1 ih2
    obtain ⟨g1, g2, g3⟩ := ih1
    obtain ⟨h1, h2, h3⟩ := ih2
    show (collapseList (c :: rest) s).log = s.log ∧ _ ∧ _
    have hstep : collapseList (c :: rest) s = collapseList rest (collapseNode true c s).2 := by
      simp [collapseList]
    rw [hstep]
    exact ⟨by rw [h1, g1], by rw [h2, g2], le_trans g3 h3⟩
  case hnode =>
    intro rs b p ncs cs rw rep exp cb hb pb lc lv s r1 r2 s2 r3 s3 ih
    obtain ⟨i1, i2, i3⟩ := ih
    have hr1log : r1.2.log = s.log ∧ r1.2.pending = s.pending ∧
        s.dom.elems.length ≤ r1.2.dom.elems.length := by
      cases rs with
      | false => exact ⟨rfl, rfl, le_refl _⟩
      | true =>
        refine ⟨rfl, rfl, ?_⟩
        show s.dom.elems.length ≤ (removeIfAttached
            (ensureBar pb "vertical" (removeIfAttached rep s.dom)).1
            (ensureBar pb "vertical" (removeIfAttached rep s.dom)).2.2).elems.length
        rw [length_removeIfAttached]
        have h1 := length_ensureBar pb "vertical" (removeIfAttached rep s.dom)
        rw [length_removeIfAttached] at h1
        exact h1
    obtain ⟨l1, l2, l3⟩ := hr1log
    have hs2 : s2.log = s.log ∧ s2.pending = s.pending ∧
        s.dom.elems.length ≤ s2.dom.elems.length := by
      refine ⟨l1, l2, ?_⟩
      show s.dom.elems.length ≤ (removeIfAttached (ensureBar cb "vertical" r1.2.dom).1
          (ensureBar cb "vertical" r1.2.dom).2.2).elems.length
      rw [length_removeIfAttached]
      have h1 := length_ensureBar cb "vertical" r1.2.dom
      omega
    obtain ⟨m1, m2, m3⟩ := hs2
    have hs3 : s3.log = s.log ∧ s3.pending = s.pending ∧
        s.dom.elems.length ≤ s3.dom.elems.length := by
      refine ⟨m1, m2, ?_⟩
      show s.dom.elems.length ≤ (removeIfAttached (ensureBar hb "horizontal" s2.dom).1
          (ensureBar hb "horizontal" s2.dom).2.2).elems.length
      rw [length_removeIfAttached]
      have h1 := length_ensureBar hb "horizontal" s2.dom
      omega
    obtain ⟨p1, p2, p3⟩ := hs3
    refine ⟨?_, ?_, ?_⟩
    · show (collapseList cs s3).log = s.log
      rw [i1, p1]
    · show (collapseList cs s3).pending = s.pending
      rw [i2, p2]
    · show s.dom.elems.length ≤ (collapseList cs s3).dom.elems.length
      exact le_trans p3 i3

theorem collapseNode_fst_fields (rs : Bool) (n : DNode) (s : TState) :
    (collapseNode rs n s).1.innerNode = n.innerNode ∧
    (collapseNode rs n s).1.path = n.path ∧
    (collapseNode rs n s).1.nodeChildren = n.nodeChildren ∧
    (collapseNode rs n s).1.representation = n.representation ∧
    (collapseNode rs n s).1.isExpanded = n.nodeChildren.isEmpty ∧
    (collapseNode rs n s).1.lastContainer = n.lastContainer ∧
    (collapseNode rs n s).1.lastViewport = n.lastViewport := by
  cases n
  simp [collapseNode]

/-- C6: collapsing a node and then expanding it again rebuilds the child
list from the stored construction-time snapshot: one freshly constructed
child per snapshot entry, backed by the same backing nodes in the same
order, each with a representation allocated only after the collapse (hence
fresh) and with no connector handles yet; and the only `getChildren`
queries in the log beyond the pre-existing ones concern strictly deeper
paths — the node's own backing snapshot is not re-queried. -/
theorem c6_collapse_expand (n : DNode) (s : TState) :
    (expandWith (collapseNode false n s).1.nodeChildren false (collapseNode false n s).1
        (collapseNode false n s).2).1.children.map DNode.innerNode = n.nodeChildren ∧
    (expandWith (collapseNode false n s).1.nodeChildren false (collapseNode false n s).1
        (collapseNode false n s).2).1.children.length = n.nodeChildren.length ∧
    (expandWith (collapseNode false n s).1.nodeChildren false (collapseNode false n s).1
        (collapseNode false n s).2).1.nodeChildren = n.nodeChildren ∧
    (∀ c ∈ (expandWith (collapseNode false n s).1.nodeChildren false (collapseNode false n s).1
        (collapseNode false n s).2).1.children,
      (collapseNode false n s).2.dom.elems.length ≤ c.representation ∧
      c.representation < (expandWith (collapseNode false n s).1.nodeChildren false
        (collapseNode false n s).1 (collapseNode false n s).2).2.dom.elems.length ∧
      c.childBar = none ∧ c.horizontalBar = none ∧ c.parentBar = none) ∧
    (∀ q, Event.getChildren q ∈ (expandWith (collapseNode false n s).1.nodeChildren false
        (collapseNode false n s).1 (collapseNode false n s).2).2.log →
      Event.getChildren q ∈ s.log ∨ n.path.length < q.length) := by
  obtain ⟨k1, k2, k3, k4, k5, k6, k7⟩ := collapseNode_fst_fields false n s
  obtain ⟨x1, x2, x3, x4, x5, x6⟩ := construct_expand_pack.2
    (collapseNode false n s).1.nodeChildren (collapseNode false n s).1.path 0 false
    (collapseNode false n s).2
  obtain ⟨clog, cpending, cmono⟩ := collapse_state_pack.1 false n s
  obtain ⟨ff1, ff2, ff3, ff4, ff5, ff6, ff7, ff8, ff9, ff10⟩ :=
    DNode.fields_setChildren_setExpanded (collapseNode false n s).1
      (expandChildren (collapseNode false n s).1.nodeChildren (collapseNode false n s).1.path
        0 false (collapseNode false n s).2).1 true
  rw [expandWith_eq]
  dsimp only
  rw [ff6, ff8]
  have hlen : (expandChildren (collapseNode false n s).1.nodeChildren
      (collapseNode false n s).1.path 0 false (collapseNode false n s).2).1.length =
      (collapseNode false n s).1.nodeChildren.length := by
    have h := congrArg List.length x1
    rw [List.length_map] at h
    exact h
  refine ⟨by rw [x1, k3], by rw [hlen, k3], k3, x2, ?_⟩
  intro q hq
  obtain ⟨tl, htl, hdep⟩ := x5
  rw [htl, clog] at hq
  rcases List.mem_append.mp hq with h | h
  · exact Or.inl h
  · right
    have hd := hdep _ h
    rw [k2] at hd
    simp only [eventDepth] at hd
    omega

/-- C8 counterexample: expanding an already-expanded node does NOT
duplicate its children.  The one-child root is already expanded
(`isExpanded = true`), and after a second expand without an intervening
collapse it still has exactly one materialised child per snapshot entry —
not "more than one" as the claim asserts.  (The source's `expand`
overwrites `this.children` with a fresh `nodeChildren.map`, replacing the
old child list rather than appending to it.) -/
theorem c8_counterexample :
    exExpandOne.1.isExpanded = true ∧
    exExpandOneTwice.1.children.length = 1 ∧
    exExpandOneTwice.1.nodeChildren.length = 1 ∧
    ¬ exExpandOneTwice.1.nodeChildren.length < exExpandOneTwice.1.children.length := by
  decide

/-- C8 amended: calling expand on a node (in particular an
already-expanded one, with no intervening collapse) REPLACES the child
list: the result has exactly one child per snapshot entry, in snapshot
order, each freshly constructed with a representation allocated at or
beyond the current end of the DOM; the pre-existing DOM entries — among
them the previous children's representations, which are thereby leaked,
not re-attached — are left unchanged; and the node ends up expanded. -/
theorem c8_amended (n : DNode) (s : TState) :
    (expandWith n.nodeChildren false n s).1.children.map DNode.innerNode = n.nodeChildren ∧
    (expandWith n.nodeChildren false n s).1.children.length = n.nodeChildren.length ∧
    (∀ c ∈ (expandWith n.nodeChildren false n s).1.children,
      s.dom.elems.length ≤ c.representation) ∧
    (∀ j, j < s.dom.elems.length →
      elemAt? (expandWith n.nodeChildren false n s).2.dom j = elemAt? s.dom j) ∧
    (expandWith n.nodeChildren false n s).1.isExpanded = true := by
  obtain ⟨x1, x2, x3, x4, x5, x6⟩ :=
    construct_expand_pack.2 n.nodeChildren n.path 0 false s
  obtain ⟨ff1, ff2, ff3, ff4, ff5, ff6, ff7, ff8, ff9, ff10⟩ :=
    DNode.fields_setChildren_setExpanded n (expandChildren n.nodeChildren n.path 0 false s).1 true
  rw [expandWith_eq]
  dsimp only
  rw [ff6, ff7]
  have hlen : (expandChildren n.nodeChildren n.path 0 false s).1.length =
      n.nodeChildren.length := by
    have h := congrArg List.length x1
    rw [List.length_map] at h
    exact h
  exact ⟨x1, hlen, fun c hc => (x2 c hc).1, x4, rfl⟩

theorem leafExpandedB_collapseNode (rs : Bool) (n : DNode) (s : TState) :
    leafExpandedB (collapseNode rs n s).1 = true := by
  cases n
  simp [collapseNode]

theorem leafExpandedB_expandWith (bs : List BTree) (r : Bool) (n : DNode) (s : TState) :
    leafExpandedB (expandWith bs r n s).1 = true := by
  rw [expandWith_eq]
  dsimp only
  rw [leafExpandedB_setChildren_setExpanded_true]
  obtain ⟨-, -, -, -, -, h6⟩ := construct_expand_pack.2 bs n.path 0 r s
  exact h6

theorem leafExpandedListB_set (cs : List DNode) (i : Nat) (c : DNode)
    (h : leafExpandedListB cs = true) (hc : leafExpandedB c = true) :
    leafExpandedListB (cs.set i c) = true := by
  induction cs generalizing i with
  | nil => simp
  | cons a rest ih =>
    cases i with
    | zero =>
      simp only [List.set_cons_zero, leafExpandedListB_cons, Bool.and_eq_true] at h ⊢
      exact ⟨hc, h.2⟩
    | succ j =>
      simp only [List.set_cons_succ, leafExpandedListB_cons, Bool.and_eq_true] at h ⊢
      exact ⟨h.1, ih j h.2⟩

theorem leafExpandedListB_getElem? (cs : List DNode) (i : Nat) (c : DNode)
    (h : leafExpandedListB cs = true) (hc : cs[i]? = some c) :
    leafExpandedB c = true := by
  induction cs generalizing i with
  | nil => simp at hc
  | cons a rest ih =>
    simp only [leafExpandedListB_cons, Bool.and_eq_true] at h
    cases i with
    | zero =>
      simp only [List.getElem?_cons_zero, Option.some.injEq] at hc
      exact hc ▸ h.1
    | succ j =>
      simp only [List.getElem?_cons_succ] at hc
      exact ih j h.2 hc

theorem leafExpandedB_setChildren (n : DNode) (cs : List DNode) :
    leafExpandedB (n.setChildren cs) =
      ((!n.nodeChildren.isEmpty || n.isExpanded) && leafExpandedListB cs) := by
  cases n
  simp

theorem leafExpandedB_opAt (f : DNode → TState → DNode × TState)
    (hf : ∀ n s, leafExpandedB (f n s).1 = true) :
    ∀ (p : List Nat) (root : DNode) (s : TState), leafExpandedB root = true →
      leafExpandedB (opAt f p root s).1 = true := by
  intro p
  induction p with
  | nil => intro root s _; exact hf root s
  | cons i rest ih =>
    intro root s h
    cases hc : root.children[i]? with
    | none =>
      simpa [opAt, hc] using h
    | some c =>
      simp only [opAt, hc]
      rw [leafExpandedB_setChildren]
      have hnode : (!root.nodeChildren.isEmpty || root.isExpanded) = true ∧
          leafExpandedListB root.children = true := by
        cases root
        simp only [leafExpandedB_mk, Bool.and_eq_true] at h
        simpa using h
      have hcleaf : leafExpandedB c = true := leafExpandedListB_getElem? _ i c hnode.2 hc
      rw [hnode.1, leafExpandedListB_set _ i _ hnode.2 (ih c s hcleaf)]
      rfl

/-- C5: in every state reachable by constructing a visual tree over a
backing tree and applying any sequence of user expand and collapse
operations, every node whose construction-time snapshot of backing
children is empty has its expanded flag set; equivalently, `isExpanded`
can be false only at a node with a non-empty snapshot. -/
theorem c5_leaf_expanded (B : BTree) (st : DNode × TState) (h : Reachable B st) :
    leafExpandedB st.1 = true := by
  induction h with
  | init =>
    obtain ⟨-, -, -, -, -, -, -, -, -, -, -, h12⟩ := construct_expand_pack.1 B [] initState
    exact h12
  | expandStep st p r _ ih =>
    exact leafExpandedB_opAt _ (fun n s => leafExpandedB_expandWith n.nodeChildren r n s)
      p st.1 st.2 ih
  | collapseStep st p rs _ ih =>
    exact leafExpandedB_opAt _ (fun n s => leafExpandedB_collapseNode rs n s) p st.1 st.2 ih

/-- C5 witness: the invariant holds at the concrete reachable state given
by constructing the one-child root, expanding it, and collapsing it. -/
theorem c5_witness :
    leafExpandedB (collapseAtPath
      (expandAtPath (construct exOne [] initState).1 [] false
        (construct exOne [] initState).2).1 [0] false
      (expandAtPath (construct exOne [] initState).1 [] false
        (construct exOne [] initState).2).2).1 = true :=
  c5_leaf_expanded exOne _
    (Reachable.collapseStep _ [0] false (Reachable.expandStep _ [] false Reachable.init))

theorem getRequiredWidth_snd_fields (n : DNode) :
    (getRequiredWidth n).2.innerNode = n.innerNode ∧
    (getRequiredWidth n).2.path = n.path ∧
    (getRequiredWidth n).2.nodeChildren = n.nodeChildren ∧
    (getRequiredWidth n).2.representation = n.representation ∧
    (getRequiredWidth n).2.isExpanded = n.isExpanded ∧
    (getRequiredWidth n).2.childBar = n.childBar ∧
    (getRequiredWidth n).2.horizontalBar = n.horizontalBar ∧
    (getRequiredWidth n).2.parentBar = n.parentBar ∧
    (getRequiredWidth n).2.lastContainer = n.lastContainer ∧
    (getRequiredWidth n).2.lastViewport = n.lastViewport := by
  cases n with
  | mk b p ncs cs rw rep exp cb hb pb lc lv =>
    by_cases h : rw = (-1 : Int)
    · subst h
      simp [getRequiredWidth]
    · simp [getRequiredWidth, h]

theorem DNode.rw_setParentBar (n : DNode) (v : Option Nat) :
    (n.setParentBar v).requiredWidth = n.requiredWidth := by
  cases n
  simp

theorem DNode.fields_setBars_setChildren (n : DNode) (a b : Option Nat) (cs' : List DNode) :
    (((n.setChildBar a).setHorizontalBar b).setChildren cs').requiredWidth = n.requiredWidth ∧
    (((n.setChildBar a).setHorizontalBar b).setChildren cs').lastContainer = n.lastContainer ∧
    (((n.setChildBar a).setHorizontalBar b).setChildren cs').lastViewport = n.lastViewport ∧
    (((n.setChildBar a).setHorizontalBar b).setChildren cs').children = cs' := by
  cases n
  simp

@[simp] theorem sumAdvance_nil : sumAdvance [] = 0 := rfl

@[simp] theorem sumAdvance_cons (c : DNode) (rest : List DNode) :
    sumAdvance (c :: rest) = c.requiredWidth + NODE_MARGIN_X + sumAdvance rest := by
  simp [sumAdvance]

theorem draw_fst_rw (fuel : Nat) (m : DNode) (container : Nat) (vp : Int × Int) (s : TState)
    (h : m.requiredWidth ≠ -1) :
    (draw fuel m container vp s).1.requiredWidth = m.requiredWidth := by
  cases fuel with
  | zero => rfl
  | succ f =>
    cases m with
    | mk b p ncs cs rw rep exp cb hb pb lc lv =>
      simp only [DNode.requiredWidth_mk] at h ⊢
      cases cs with
      | nil => rfl
      | cons c0 rest =>
        simp only [draw]
        rw [(DNode.fields_setBars_setChildren _ _ _ _).1, getRequiredWidth_snd_rw,
          getRequiredWidth_clean]
        · simp
        · simp only [DNode.requiredWidth_mk]
          exact h

theorem draw_fst_last (fuel : Nat) (m : DNode) (container : Nat) (vp : Int × Int) (s : TState)
    (h : 1 ≤ fuel) :
    (draw fuel m container vp s).1.lastContainer = some container ∧
    (draw fuel m container vp s).1.lastViewport = some vp := by
  cases fuel with
  | zero => exact absurd h (by decide)
  | succ f =>
    cases m with
    | mk b p ncs cs rw rep exp cb hb pb lc lv =>
      cases cs with
      | nil => exact ⟨rfl, rfl⟩
      | cons c0 rest =>
        simp only [draw]
        constructor
        · rw [(DNode.fields_setBars_setChildren _ _ _ _).2.1,
            (getRequiredWidth_snd_fields _).2.2.2.2.2.2.2.2.1]
          simp
        · rw [(DNode.fields_setBars_setChildren _ _ _ _).2.2.1,
            (getRequiredWidth_snd_fields _).2.2.2.2.2.2.2.2.2]
          simp

theorem drawKids_cursor (drawFn : DNode → Int × Int → TState → DNode × (Int × Int) × TState)
    (container : Nat) (cs : List DNode) (vx vy : Int) (s : TState)
    (hf : ∀ m vv t, m.requiredWidth ≠ -1 → (drawFn m vv t).1.requiredWidth = m.requiredWidth) :
    (drawKids drawFn container cs vx vy s).2.1 =
      vx + sumAdvance (drawKids drawFn container cs vx vy s).1 := by
  induction cs generalizing vx s with
  | nil => simp [drawKids]
  | cons c rest ih =>
    simp only [drawKids]
    rw [ih, sumAdvance_cons, hf, DNode.rw_setParentBar, getRequiredWidth_snd_rw]
    · ring
    · rw [DNode.rw_setParentBar, getRequiredWidth_snd_rw]
      exact getRequiredWidth_fst_ne c

theorem redrawNode_eq (fuel : Nat) (n : DNode) (t : TState) (c : Nat) (v : Int × Int)
    (hc : n.lastContainer = some c) (hv : n.lastViewport = some v) :
    redrawNode fuel n t = ((draw fuel n c v t).1, (draw fuel n c v t).2.2) := by
  unfold redrawNode
  rw [hc, hv]

/-- C10: `draw` snapshots the origin it was called with into the node's
`lastContainer` / `lastViewport` before mutating the viewport cursor; the
returned cursor is unchanged for a childless node and, for a node with
children, has its y advanced once by a row height plus the vertical margin
and its x advanced once per child by that child's required width plus the
horizontal margin; consequently `redraw` replays `draw` at exactly the
original origin of the previous call, not at the mutated cursor values. -/
theorem c10_redraw_origin (fuel : Nat) (n : DNode) (container : Nat) (vp : Int × Int)
    (s : TState) (h : 1 ≤ fuel) :
    (draw fuel n container vp s).1.lastContainer = some container ∧
    (draw fuel n container vp s).1.lastViewport = some vp ∧
    (n.children = [] → (draw fuel n container vp s).2.1 = vp) ∧
    (n.children ≠ [] →
      (draw fuel n container vp s).2.1 =
        (vp.1 + sumAdvance (draw fuel n container vp s).1.children,
         vp.2 + NODE_HEIGHT + NODE_MARGIN_Y)) ∧
    (∀ t : TState, redrawNode fuel (draw fuel n container vp s).1 t =
      ((draw fuel (draw fuel n container vp s).1 container vp t).1,
       (draw fuel (draw fuel n container vp s).1 container vp t).2.2)) := by
  obtain ⟨hlc, hlv⟩ := draw_fst_last fuel n container vp s h
  refine ⟨hlc, hlv, ?_, ?_, fun t => redrawNode_eq fuel _ t container vp hlc hlv⟩
  · intro hcs
    cases fuel with
    | zero => exact absurd h (by decide)
    | succ f =>
      cases n with
      | mk b p ncs cs rw rep exp cb hb pb lc lv =>
        simp only [DNode.children_mk] at hcs
        subst hcs
        rfl
  · intro hcs
    cases fuel with
    | zero => exact absurd h (by decide)
    | succ f =>
      cases n with
      | mk b p ncs cs rw rep exp cb hb pb lc lv =>
        simp only [DNode.children_mk] at hcs
        cases cs with
        | nil => exact absurd rfl hcs
        | cons c0 rest =>
          simp only [draw]
          rw [drawKids_cursor _ _ _ _ _ _
            (fun m vv t hm => draw_fst_rw f m container vv t hm)]
          rw [(DNode.fields_setBars_setChildren _ _ _ _).2.2.2]

/-- C10 witness: the snapshot/cursor/replay facts at a concrete drawn
tree — the expanded two-leaf root drawn at the origin. -/
theorem c10_witness :
    (draw 2 exExpandPair.1 0 (0, 0) exExpandPair.2).1.lastContainer = some 0 ∧
    (draw 2 exExpandPair.1 0 (0, 0) exExpandPair.2).1.lastViewport = some (0, 0) ∧
    (exExpandPair.1.children = [] →
      (draw 2 exExpandPair.1 0 (0, 0) exExpandPair.2).2.1 = (0, 0)) ∧
    (exExpandPair.1.children ≠ [] →
      (draw 2 exExpandPair.1 0 (0, 0) exExpandPair.2).2.1 =
        ((0 : Int) + sumAdvance (draw 2 exExpandPair.1 0 (0, 0) exExpandPair.2).1.children,
         (0 : Int) + NODE_HEIGHT + NODE_MARGIN_Y)) ∧
    (∀ t : TState, redrawNode 2 (draw 2 exExpandPair.1 0 (0, 0) exExpandPair.2).1 t =
      ((draw 2 (draw 2 exExpandPair.1 0 (0, 0) exExpandPair.2).1 0 (0, 0) t).1,
       (draw 2 (draw 2 exExpandPair.1 0 (0, 0) exExpandPair.2).1 0 (0, 0) t).2.2)) :=
  c10_redraw_origin 2 exExpandPair.1 0 (0, 0) exExpandPair.2 (by decide)

theorem length_removeChild (p i : Nat) (d : Dom) :
    (removeChild p i d).elems.length = d.elems.length := by
  simp [removeChild]

theorem length_appendChild (c i : Nat) (d : Dom) :
    (appendChild c i d).elems.length = d.elems.length := by
  simp only [appendChild]
  cases parentOf d i <;> simp

theorem elemAt?_exists {d : Dom} {j : Nat} (hj : j < d.elems.length) :
    ∃ e, elemAt? d j = some e :=
  ⟨d.elems[j], by simp [elemAt?, List.getElem?_eq_getElem hj]⟩

theorem parentOf_updElem_keep {f : ElemData → ElemData} (hf : ∀ e, (f e).parent = e.parent)
    (i j : Nat) (d : Dom) : parentOf (updElem i f d) j = parentOf d j := by
  unfold parentOf
  by_cases hij : j = i
  · subst hij
    rw [elemAt?_updElem_self]
    cases elemAt? d j <;> simp [hf]
  · rw [elemAt?_updElem_ne _ _ _ _ hij]

theorem classOf_updElem_keep {f : ElemData → ElemData}
    (hf : ∀ e, (f e).className = e.className) (i j : Nat) (d : Dom) :
    classOf (updElem i f d) j = classOf d j := by
  unfold classOf
  by_cases hij : j = i
  · subst hij
    rw [elemAt?_updElem_self]
    cases elemAt? d j <;> simp [hf]
  · rw [elemAt?_updElem_ne _ _ _ _ hij]

theorem leftOf_updElem_keep {f : ElemData → ElemData} (hf : ∀ e, (f e).left = e.left)
    (i j : Nat) (d : Dom) : leftOf (updElem i f d) j = leftOf d j := by
  unfold leftOf
  by_cases hij : j = i
  · subst hij
    rw [elemAt?_updElem_self]
    cases elemAt? d j <;> simp [hf]
  · rw [elemAt?_updElem_ne _ _ _ _ hij]

theorem topOf_updElem_keep {f : ElemData → ElemData} (hf : ∀ e, (f e).top = e.top)
    (i j : Nat) (d : Dom) : topOf (updElem i f d) j = topOf d j := by
  unfold topOf
  by_cases hij : j = i
  · subst hij
    rw [elemAt?_updElem_self]
    cases elemAt? d j <;> simp [hf]
  · rw [elemAt?_updElem_ne _ _ _ _ hij]

theorem parentOf_updElem_ne (i j : Nat) (f : ElemData → ElemData) (d : Dom) (hij : j ≠ i) :
    parentOf (updElem i f d) j = parentOf d j := by
  unfold parentOf
  rw [elemAt?_updElem_ne _ _ _ _ hij]

theorem parentOf_setTop (i : Nat) (v : Option Int) (d : Dom) (j : Nat) :
    parentOf (setTop i v d) j = parentOf d j := by
  simp only [setTop]
  apply parentOf_updElem_keep
  intro e
  rfl

theorem parentOf_setLeft (i : Nat) (v : Option Int) (d : Dom) (j : Nat) :
    parentOf (setLeft i v d) j = parentOf d j := by
  simp only [setLeft]
  apply parentOf_updElem_keep
  intro e
  rfl

theorem parentOf_setClassName (i : Nat) (v : String) (d : Dom) (j : Nat) :
    parentOf (setClassName i v d) j = parentOf d j := by
  simp only [setClassName]
  apply parentOf_updElem_keep
  intro e
  rfl

theorem classOf_setTop (i : Nat) (v : Option Int) (d : Dom) (j : Nat) :
    classOf (setTop i v d) j = classOf d j := by
  simp only [setTop]
  apply classOf_updElem_keep
  intro e
  rfl

theorem classOf_setLeft (i : Nat) (v : Option Int) (d : Dom) (j : Nat) :
    classOf (setLeft i v d) j = classOf d j := by
  simp only [setLeft]
  apply classOf_updElem_keep
  intro e
  rfl

theorem leftOf_setTop (i : Nat) (v : Option Int) (d : Dom) (j : Nat) :
    leftOf (setTop i v d) j = leftOf d j := by
  simp only [setTop]
  apply leftOf_updElem_keep
  intro e
  rfl

theorem classOf_setClassName_self (j : Nat) (v : String) (d : Dom)
    (hj : j < d.elems.length) : classOf (setClassName j v d) j = v := by
  obtain ⟨e, he⟩ := elemAt?_exists hj
  simp only [classOf, setClassName]
  rw [elemAt?_updElem_self, he]
  simp

theorem leftOf_setLeft_self (j : Nat) (v : Option Int) (d : Dom)
    (hj : j < d.elems.length) : leftOf (setLeft j v d) j = v := by
  obtain ⟨e, he⟩ := elemAt?_exists hj
  simp only [leftOf, setLeft]
  rw [elemAt?_updElem_self, he]
  simp

theorem topOf_setTop_self (j : Nat) (v : Option Int) (d : Dom)
    (hj : j < d.elems.length) : topOf (setTop j v d) j = v := by
  obtain ⟨e, he⟩ := elemAt?_exists hj
  simp only [topOf, setTop]
  rw [elemAt?_updElem_self, he]
  simp

theorem parentOf_appendChild_self (c j : Nat) (d : Dom) (hj : j < d.elems.length) :
    parentOf (appendChild c j d) j = some c := by
  cases hp : parentOf d j with
  | none =>
    simp only [appendChild, hp]
    have h2 : j < (updElem c (fun e => { e with kids := e.kids ++ [j] }) d).elems.length := by
      rw [length_updElem]
      exact hj
    obtain ⟨e, he⟩ := elemAt?_exists h2
    unfold parentOf
    rw [elemAt?_updElem_self, he]
    simp
  | some p =>
    simp only [appendChild, hp]
    have h2 : j < (updElem c (fun e => { e with kids := e.kids ++ [j] })
        (updElem p (fun e => { e with kids := e.kids.erase j }) d)).elems.length := by
      rw [length_updElem, length_updElem]
      exact hj
    obtain ⟨e, he⟩ := elemAt?_exists h2
    unfold parentOf
    rw [elemAt?_updElem_self, he]
    simp

theorem parentOf_appendChild_other (c i j : Nat) (d : Dom) (hij : j ≠ i) :
    parentOf (appendChild c i d) j = parentOf d j := by
  have step1 : ∀ dd : Dom, parentOf (updElem c (fun e => { e with kids := e.kids ++ [i] }) dd) j =
      parentOf dd j := by
    intro dd
    apply parentOf_updElem_keep
    intro e
    rfl
  cases hp : parentOf d i with
  | none =>
    simp only [appendChild, hp]
    rw [parentOf_updElem_ne _ _ _ _ hij, step1]
  | some p =>
    simp only [appendChild, hp]
    rw [parentOf_updElem_ne _ _ _ _ hij, step1]
    apply parentOf_updElem_keep
    intro e
    rfl

theorem parentOf_removeChild_self (p j : Nat) (d : Dom) (hj : j < d.elems.length) :
    parentOf (removeChild p j d) j = none := by
  simp only [removeChild]
  have h1 : j < (updElem p (fun e => { e with kids := e.kids.erase j }) d).elems.length := by
    rw [length_updElem]
    exact hj
  obtain ⟨e, he⟩ := elemAt?_exists h1
  unfold parentOf
  rw [elemAt?_updElem_self, he]
  simp

theorem parentOf_eq_of_elemAt? {d d' : Dom} {j : Nat} (h : elemAt? d j = elemAt? d' j) :
    parentOf d j = parentOf d' j := by
  unfold parentOf
  rw [h]

theorem createRepresentationOp_pending (p : List Nat) (cnt : Nat) (s : TState) :
    (createRepresentationOp p cnt s).2.pending = s.pending := by
  rw [createRepresentationOp_eq]

theorem DNode.fields_setRepresentation (n : DNode) (v : Nat) :
    (n.setRepresentation v).representation = v ∧
    (n.setRepresentation v).path = n.path ∧
    (n.setRepresentation v).children = n.children ∧
    (n.setRepresentation v).nodeChildren = n.nodeChildren := by
  cases n
  simp

/-- C9: for a node whose representation is attached, `updateRepresentation`
removes and discards the old representation, creates a fresh one through
the backing node's content factory (exactly one factory call, logged for
this node's backing), attaches the new representation to the old parent,
and restores the old class, left and top onto it; the children are not
refreshed within the call — their refresh is queued for a later event-loop
turn — and the DOM has grown by exactly the two elements the factory call
creates. -/
theorem c9_updateRepresentation (n : DNode) (s : TState) (par : Nat)
    (h : parentOf s.dom n.representation = some par)
    (hrep : n.representation < s.dom.elems.length) :
    (updateRepresentationNode n s).1.representation = s.dom.elems.length ∧
    (updateRepresentationNode n s).2.log = s.log ++ [Event.createRep n.path] ∧
    parentOf (updateRepresentationNode n s).2.dom n.representation = none ∧
    parentOf (updateRepresentationNode n s).2.dom s.dom.elems.length = some par ∧
    classOf (updateRepresentationNode n s).2.dom s.dom.elems.length =
      classOf s.dom n.representation ∧
    leftOf (updateRepresentationNode n s).2.dom s.dom.elems.length =
      leftOf s.dom n.representation ∧
    topOf (updateRepresentationNode n s).2.dom s.dom.elems.length =
      topOf s.dom n.representation ∧
    (updateRepresentationNode n s).1.children = n.children ∧
    (updateRepresentationNode n s).2.pending = s.pending ++ [n.path] ∧
    (updateRepresentationNode n s).2.dom.elems.length = s.dom.elems.length + 2 := by
  have hidx : (createRepresentationOp n.path n.nodeChildren.length
      { s with dom := removeChild par n.representation s.dom }).1 = s.dom.elems.length := by
    rw [createRepresentationOp_fst]
    exact length_removeChild par n.representation s.dom
  have hd1 : n.representation <
      ({ s with dom := removeChild par n.representation s.dom } : TState).dom.elems.length := by
    show n.representation < (removeChild par n.representation s.dom).elems.length
    rw [length_removeChild]
    exact hrep
  have hrlt : s.dom.elems.length < (createRepresentationOp n.path n.nodeChildren.length
      { s with dom := removeChild par n.representation s.dom }).2.dom.elems.length := by
    rw [createRepresentationOp_length]
    show s.dom.elems.length < (removeChild par n.representation s.dom).elems.length + 2
    rw [length_removeChild]
    omega
  have halt : s.dom.elems.length < (appendChild par s.dom.elems.length
      (createRepresentationOp n.path n.nodeChildren.length
        { s with dom := removeChild par n.representation s.dom }).2.dom).elems.length := by
    rw [length_appendChild]
    exact hrlt
  simp only [updateRepresentationNode, h]
  rw [hidx]
  refine ⟨?_, ?_, ?_, ?_, ?_, ?_, ?_, ?_, ?_, ?_⟩
  · rw [(DNode.fields_setRepresentation _ _).1]
  · rw [createRepresentationOp_log]
  · rw [parentOf_setTop, parentOf_setLeft, parentOf_setClassName,
      parentOf_appendChild_other _ _ _ _ (by omega),
      parentOf_eq_of_elemAt? (createRepresentationOp_preserve _ _ _ hd1)]
    exact parentOf_removeChild_self par n.representation s.dom hrep
  · rw [parentOf_setTop, parentOf_setLeft, parentOf_setClassName]
    exact parentOf_appendChild_self par s.dom.elems.length _ hrlt
  · rw [classOf_setTop, classOf_setLeft]
    exact classOf_setClassName_self s.dom.elems.length _ _ halt
  · rw [leftOf_setTop]
    apply leftOf_setLeft_self
    simp only [setClassName, length_updElem]
    exact halt
  · apply topOf_setTop_self
    simp only [setLeft, setClassName, length_updElem]
    exact halt
  · rw [(DNode.fields_setRepresentation _ _).2.2.1]
  · rw [createRepresentationOp_pending, (DNode.fields_setRepresentation _ _).2.1]
  · simp only [setTop, setLeft, setClassName, length_updElem, length_appendChild,
      createRepresentationOp_length]
    show (removeChild par n.representation s.dom).elems.length + 2 = s.dom.elems.length + 2
    rw [length_removeChild]

/-- C9 witness: updating the representation of the drawn leaf root, whose
representation is attached to container 0. -/
theorem c9_witness :
    (updateRepresentationNode exDrawLeaf.1 exDrawLeaf.2.2).1.representation =
      exDrawLeaf.2.2.dom.elems.length ∧
    (updateRepresentationNode exDrawLeaf.1 exDrawLeaf.2.2).2.log =
      exDrawLeaf.2.2.log ++ [Event.createRep exDrawLeaf.1.path] ∧
    parentOf (updateRepresentationNode exDrawLeaf.1 exDrawLeaf.2.2).2.dom
      exDrawLeaf.1.representation = none ∧
    parentOf (updateRepresentationNode exDrawLeaf.1 exDrawLeaf.2.2).2.dom
      exDrawLeaf.2.2.dom.elems.length = some 0 ∧
    classOf (updateRepresentationNode exDrawLeaf.1 exDrawLeaf.2.2).2.dom
      exDrawLeaf.2.2.dom.elems.length = classOf exDrawLeaf.2.2.dom exDrawLeaf.1.representation ∧
    leftOf (updateRepresentationNode exDrawLeaf.1 exDrawLeaf.2.2).2.dom
      exDrawLeaf.2.2.dom.elems.length = leftOf exDrawLeaf.2.2.dom exDrawLeaf.1.representation ∧
    topOf (updateRepresentationNode exDrawLeaf.1 exDrawLeaf.2.2).2.dom
      exDrawLeaf.2.2.dom.elems.length = topOf exDrawLeaf.2.2.dom exDrawLeaf.1.representation ∧
    (updateRepresentationNode exDrawLeaf.1 exDrawLeaf.2.2).1.children = exDrawLeaf.1.children ∧
    (updateRepresentationNode exDrawLeaf.1 exDrawLeaf.2.2).2.pending =
      exDrawLeaf.2.2.pending ++ [exDrawLeaf.1.path] ∧
    (updateRepresentationNode exDrawLeaf.1 exDrawLeaf.2.2).2.dom.elems.length =
      exDrawLeaf.2.2.dom.elems.length + 2 :=
  c9_updateRepresentation exDrawLeaf.1 exDrawLeaf.2.2 0 (by decide) (by decide)

@[simp] theorem depthD_mk {b p ncs cs rw rep exp cb hb pb lc lv} :
    depthD (DNode.mk b p ncs cs rw rep exp cb hb pb lc lv) = 1 + depthList cs := by
  simp [depthD]

@[simp] theorem depthList_nil : depthList [] = 0 := by
  simp [depthList]

@[simp] theorem depthList_cons {c : DNode} {rest : List DNode} :
    depthList (c :: rest) = max (depthD c) (depthList rest) := by
  simp [depthList]

theorem depthD_pos (n : DNode) : 1 ≤ depthD n := by
  cases n
  simp

@[simp] theorem idsOf_mk {b p ncs cs rw rep exp cb hb pb lc lv} :
    idsOf (DNode.mk b p ncs cs rw rep exp cb hb pb lc lv) =
      rep :: (([cb, hb, pb].filterMap id) ++ idsOfList cs) := by
  simp [idsOf]

@[simp] theorem idsOfList_nil : idsOfList [] = [] := by
  simp [idsOfList]

@[simp] theorem idsOfList_cons {c : DNode} {rest : List DNode} :
    idsOfList (c :: rest) = idsOf c ++ idsOfList rest := by
  simp [idsOfList]

theorem drawKids_length (drawFn : DNode → Int × Int → TState → DNode × (Int × Int) × TState)
    (container : Nat) (cs : List DNode) (vx vy : Int) (s : TState) :
    (drawKids drawFn container cs vx vy s).1.length = cs.length := by
  induction cs generalizing vx s with
  | nil => rfl
  | cons c rest ih => simp [drawKids, ih]

theorem elemAgree_refl (d : Dom) (j : Nat) : elemAgree d d j := rfl

theorem elemAgree_trans {d1 d2 d3 : Dom} {j : Nat} (h1 : elemAgree d1 d2 j)
    (h2 : elemAgree d2 d3 j) : elemAgree d1 d3 j := by
  unfold elemAgree at h1 h2 ⊢
  rw [h2, h1]

theorem elemAgree_of_eq {d d' : Dom} {j : Nat} (h : elemAt? d' j = elemAt? d j) :
    elemAgree d d' j := by
  unfold elemAgree
  rw [h]

theorem elemAgree_updElem_ne {i j : Nat} (f : ElemData → ElemData) (d : Dom) (h : j ≠ i) :
    elemAgree d (updElem i f d) j :=
  elemAgree_of_eq (elemAt?_updElem_ne _ _ _ _ h)

theorem elemAgree_updElem_kids {f : ElemData → ElemData}
    (hf : ∀ e, dropKids (f e) = dropKids e) (i : Nat) (d : Dom) (j : Nat) :
    elemAgree d (updElem i f d) j := by
  by_cases hij : j = i
  · subst hij
    unfold elemAgree
    rw [elemAt?_updElem_self]
    cases elemAt? d j <;> simp [hf]
  · exact elemAgree_updElem_ne f d hij

theorem elemAgree_append (d : Dom) (l : List ElemData) (j : Nat) (hj : j < d.elems.length) :
    elemAgree d { elems := d.elems ++ l } j := by
  apply elemAgree_of_eq
  show (d.elems ++ l)[j]? = d.elems[j]?
  exact getElem?_append_lt hj

theorem elemAgree_appendChild {c i j : Nat} (d : Dom) (h : j ≠ i) :
    elemAgree d (appendChild c i d) j := by
  cases hp : parentOf d i with
  | none =>
    simp only [appendChild, hp]
    refine elemAgree_trans ?_ (elemAgree_updElem_ne _ _ h)
    apply elemAgree_updElem_kids
    intro e
    rfl
  | some p =>
    simp only [appendChild, hp]
    have h1 : elemAgree d (updElem p (fun e => { e with kids := e.kids.erase i }) d) j := by
      apply elemAgree_updElem_kids
      intro e
      rfl
    refine elemAgree_trans (elemAgree_trans h1 ?_) (elemAgree_updElem_ne _ _ h)
    apply elemAgree_updElem_kids
    intro e
    rfl

theorem elemAgree_appendIfAbsent {c i j : Nat} (d : Dom) (h : j ≠ i) :
    elemAgree d (appendIfAbsent c i d) j := by
  unfold appendIfAbsent
  split
  · exact elemAgree_refl d j
  · exact elemAgree_appendChild d h

theorem dropKids_fields {e e' : ElemData} (h : dropKids e' = dropKids e) :
    e'.className = e.className ∧ e'.left = e.left ∧ e'.top = e.top ∧
    e'.width = e.width ∧ e'.parent = e.parent :=
  ⟨by have := congrArg ElemData.className h; exact this,
    by have := congrArg ElemData.left h; exact this,
    by have := congrArg ElemData.top h; exact this,
    by have := congrArg ElemData.width h; exact this,
    by have := congrArg ElemData.parent h; exact this⟩

theorem ElemIs_agree {d d' : Dom} {j : Nat} {P : ElemData → Prop}
    (hP : ∀ e e', dropKids e' = dropKids e → P e → P e')
    (hag : elemAgree d d' j) (h : ElemIs d j P) : ElemIs d' j P := by
  obtain ⟨e, he, hp⟩ := h
  unfold elemAgree at hag
  rw [he] at hag
  obtain ⟨e', he', hde⟩ := Option.map_eq_some'.mp hag
  exact ⟨e', he', hP e e' hde hp⟩

theorem grw_shape_pack :
    (∀ n : DNode, idsOf (getRequiredWidth n).2 = idsOf n ∧
      depthD (getRequiredWidth n).2 = depthD n) ∧
    (∀ cs : List DNode, idsOfList (getRequiredWidthList cs).2 = idsOfList cs ∧
      depthList (getRequiredWidthList cs).2 = depthList cs) := by
  refine getRequiredWidth.mutual_induct _ _ ?h1 ?h2 ?h3 ?h4
  case h1 =>
    intro b p ncs cs rep exp cb hb pb lc lv ih
    simp [getRequiredWidth, ih.1, ih.2]
  case h2 =>
    intro b p ncs cs rw rep exp cb hb pb lc lv h
    simp [getRequiredWidth, h]
  case h3 =>
    simp [getRequiredWidthList]
  case h4 =>
    intro c rest ih1 ih2
    simp [getRequiredWidthList, ih1.1, ih1.2, ih2.1, ih2.2]

theorem Drawn_nil {b p ncs rw rep exp cb hb pb lc lv} (container : Nat) (vp : Int × Int)
    (d : Dom) :
    Drawn (DNode.mk b p ncs [] rw rep exp cb hb pb lc lv) container vp d ↔
      (lc = some container ∧ lv = some vp ∧
       ElemIs d rep (fun e =>
         e.className = String.append "node" (if exp then "" else " collapsed") ∧
         e.left = some vp.1 ∧ e.top = some vp.2 ∧ e.parent = some container)) := by
  rw [Drawn]
  simp

theorem Drawn_cons {b p ncs rw rep exp cb hb pb lc lv} {c0 : DNode} {rest : List DNode}
    (container : Nat) (vp : Int × Int) (d : Dom) :
    Drawn (DNode.mk b p ncs (c0 :: rest) rw rep exp cb hb pb lc lv) container vp d ↔
      (lc = some container ∧ lv = some vp ∧
       ElemIs d rep (fun e =>
         e.className = String.append "node" (if exp then "" else " collapsed") ∧
         e.left = some vp.1 ∧ e.top = some vp.2 ∧ e.parent = some container) ∧
       rw ≠ -1 ∧
       (∃ cbi, cb = some cbi ∧ ElemIs d cbi (fun e =>
         e.left = some (vp.1 + NODE_WIDTH / 2) ∧
         e.top = some (vp.2 + NODE_HEIGHT) ∧ e.parent = some container)) ∧
       (∃ hbi, hb = some hbi ∧ ElemIs d hbi (fun e =>
         e.width = some (rw - lastRW (c0 :: rest)) ∧
         e.left = some (vp.1 + NODE_WIDTH / 2) ∧
         e.top = some (vp.2 + NODE_HEIGHT + NODE_MARGIN_Y / 2) ∧
         e.parent = some container)) ∧
       DrawnKids (c0 :: rest) container vp.1 (vp.2 + NODE_HEIGHT + NODE_MARGIN_Y) d) := by
  rw [Drawn]

theorem DrawnKids_nil (container : Nat) (vx vy : Int) (d : Dom) :
    DrawnKids [] container vx vy d := by
  rw [DrawnKids]
  trivial

theorem DrawnKids_cons {c : DNode} {rest : List DNode} (container : Nat) (vx vy : Int)
    (d : Dom) :
    DrawnKids (c :: rest) container vx vy d ↔
      (c.requiredWidth ≠ -1 ∧
       (∃ pbi, c.parentBar = some pbi ∧ ElemIs d pbi (fun e =>
         e.left = some (vx + NODE_WIDTH / 2) ∧
         e.top = some (vy - NODE_MARGIN_Y / 2) ∧ e.parent = some container)) ∧
       Drawn c container (vx, vy) d ∧
       DrawnKids rest container (vx + c.requiredWidth + NODE_MARGIN_X) vy d) := by
  rw [DrawnKids]

theorem mem_idsOf_rep {b p ncs cs rw rep exp cb hb pb lc lv} :
    rep ∈ idsOf (DNode.mk b p ncs cs rw rep exp cb hb pb lc lv) := by
  simp

theorem mem_idsOf_cb {b p ncs cs rw rep exp cb hb pb lc lv i} (h : cb = some i) :
    i ∈ idsOf (DNode.mk b p ncs cs rw rep exp cb hb pb lc lv) := by
  simp [h]

theorem mem_idsOf_hb {b p ncs cs rw rep exp cb hb pb lc lv i} (h : hb = some i) :
    i ∈ idsOf (DNode.mk b p ncs cs rw rep exp cb hb pb lc lv) := by
  simp [h]

theorem mem_idsOf_kids {b p ncs cs rw rep exp cb hb pb lc lv j} (h : j ∈ idsOfList cs) :
    j ∈ idsOf (DNode.mk b p ncs cs rw rep exp cb hb pb lc lv) := by
  simp [h]

theorem mem_idsOf_parentBar {c : DNode} {i : Nat} (h : c.parentBar = some i) : i ∈ idsOf c := by
  cases c with
  | mk b p ncs cs rw rep exp cb hb pb lc lv =>
    simp only [DNode.parentBar_mk] at h
    simp [h]

theorem mem_idsOfList_head {c : DNode} {rest : List DNode} {j : Nat} (h : j ∈ idsOf c) :
    j ∈ idsOfList (c :: rest) := by
  simp [h]

theorem mem_idsOfList_tail {c : DNode} {rest : List DNode} {j : Nat} (h : j ∈ idsOfList rest) :
    j ∈ idsOfList (c :: rest) := by
  simp [h]

theorem hP_rep (v : String) (x y : Option Int) (pc : Option Nat) :
    ∀ e e' : ElemData, dropKids e' = dropKids e →
      (e.className = v ∧ e.left = x ∧ e.top = y ∧ e.parent = pc) →
      (e'.className = v ∧ e'.left = x ∧ e'.top = y ∧ e'.parent = pc) := by
  intro e e' hde hp
  obtain ⟨q1, q2, q3, q4, q5⟩ := dropKids_fields hde
  exact ⟨q1 ▸ hp.1, q2 ▸ hp.2.1, q3 ▸ hp.2.2.1, q5 ▸ hp.2.2.2⟩

theorem hP_bar (x y : Option Int) (pc : Option Nat) :
    ∀ e e' : ElemData, dropKids e' = dropKids e →
      (e.left = x ∧ e.top = y ∧ e.parent = pc) →
      (e'.left = x ∧ e'.top = y ∧ e'.parent = pc) := by
  intro e e' hde hp
  obtain ⟨q1, q2, q3, q4, q5⟩ := dropKids_fields hde
  exact ⟨q2 ▸ hp.1, q3 ▸ hp.2.1, q5 ▸ hp.2.2⟩

theorem hP_hbar (w x y : Option Int) (pc : Option Nat) :
    ∀ e e' : ElemData, dropKids e' = dropKids e →
      (e.width = w ∧ e.left = x ∧ e.top = y ∧ e.parent = pc) →
      (e'.width = w ∧ e'.left = x ∧ e'.top = y ∧ e'.parent = pc) := by
  intro e e' hde hp
  obtain ⟨q1, q2, q3, q4, q5⟩ := dropKids_fields hde
  exact ⟨q4 ▸ hp.1, q2 ▸ hp.2.1, q3 ▸ hp.2.2.1, q5 ▸ hp.2.2.2⟩

theorem Drawn_agree_pack :
    (∀ n : DNode, ∀ container vp d d',
      (∀ j ∈ idsOf n, elemAgree d d' j) → Drawn n container vp d → Drawn n container vp d') ∧
    (∀ cs : List DNode, ∀ container vx vy d d',
      (∀ j ∈ idsOfList cs, elemAgree d d' j) → DrawnKids cs container vx vy d →
        DrawnKids cs container vx vy d') := by
  refine idsOf.mutual_induct _ _ ?hnode ?hnil ?hcons
  case hnode =>
    intro b p ncs cs rw rep exp cb hb pb lc lv ih container vp d d' hag hD
    cases cs with
    | nil =>
      rw [Drawn_nil] at hD ⊢
      exact ⟨hD.1, hD.2.1,
        ElemIs_agree (hP_rep _ _ _ _) (hag rep mem_idsOf_rep) hD.2.2⟩
    | cons c0 rest =>
      rw [Drawn_cons] at hD ⊢
      obtain ⟨h1, h2, h3, h4, ⟨cbi, hcb, hcbE⟩, ⟨hbi, hhb, hhbE⟩, h7⟩ := hD
      refine ⟨h1, h2,
        ElemIs_agree (hP_rep _ _ _ _) (hag rep mem_idsOf_rep) h3, h4,
        ⟨cbi, hcb, ElemIs_agree (hP_bar _ _ _) (hag cbi (mem_idsOf_cb hcb)) hcbE⟩,
        ⟨hbi, hhb, ElemIs_agree (hP_hbar _ _ _ _) (hag hbi (mem_idsOf_hb hhb)) hhbE⟩,
        ih container vp.1 (vp.2 + NODE_HEIGHT + NODE_MARGIN_Y) d d'
          (fun j hj => hag j (mem_idsOf_kids hj)) h7⟩
  case hnil =>
    intro container vx vy d d' hag hD
    exact DrawnKids_nil container vx vy d'
  case hcons =>
    intro c rest ih1 ih2 container vx vy d d' hag hD
    rw [DrawnKids_cons] at hD ⊢
    obtain ⟨h1, ⟨pbi, hpb, hpbE⟩, h3, h4⟩ := hD
    refine ⟨h1,
      ⟨pbi, hpb, ElemIs_agree (hP_bar _ _ _)
        (hag pbi (mem_idsOfList_head (mem_idsOf_parentBar hpb))) hpbE⟩,
      ih1 container (vx, vy) d d' (fun j hj => hag j (mem_idsOfList_head hj)) h3,
      ih2 container (vx + c.requiredWidth + NODE_MARGIN_X) vy d d'
        (fun j hj => hag j (mem_idsOfList_tail hj)) h4⟩

theorem DrawnKids_rw_ne {cs : List DNode} {container : Nat} {vx vy : Int} {d : Dom}
    (h : DrawnKids cs container vx vy d) : ∀ x ∈ cs, x.requiredWidth ≠ -1 := by
  induction cs generalizing vx with
  | nil => intro x hx; simp at hx
  | cons c rest ih =>
    rw [DrawnKids_cons] at h
    intro x hx
    rcases List.mem_cons.mp hx with hx | hx
    · exact hx ▸ h.1
    · exact ih h.2.2.2 x hx

theorem lastRW_eq {l : List DNode} {x : DNode} (h : l.getLast? = some x) :
    lastRW l = x.requiredWidth := by
  simp [lastRW, h]

theorem drawn_draw_id : ∀ (fuel : Nat) (n : DNode) (container : Nat) (vp : Int × Int)
    (s : TState), Drawn n container vp s.dom → depthD n ≤ fuel →
    draw fuel n container vp s = (n, outVp n vp, s) := by
  intro fuel
  induction fuel with
  | zero =>
    intro n container vp s hD hdep
    have := depthD_pos n
    omega
  | succ f ih =>
    have ihList : ∀ (cs : List DNode) (container : Nat) (vx vy : Int) (s : TState),
        DrawnKids cs container vx vy s.dom → depthList cs ≤ f →
        drawKids (fun m vv t => draw f m container vv t) container cs vx vy s =
          (cs, vx + sumAdvance cs, s) := by
      intro cs
      induction cs with
      | nil =>
        intro container vx vy s _ _
        simp [drawKids]
      | cons c rest ihcs =>
        intro container vx vy s hK hdep
        rw [DrawnKids_cons] at hK
        obtain ⟨h1, ⟨pbi, hpb, ⟨pe, hpeAt, hpeL, hpeT, hpeP⟩⟩, hDc, hKrest⟩ := hK
        simp only [drawKids]
        rw [getRequiredWidth_clean h1]
        simp only [hpb, ensureBar]
        have e1 : setLeft pbi (some (vx + NODE_WIDTH / 2)) s.dom = s.dom := by
          apply updElem_eq_self hpeAt
          rw [← hpeL]
        rw [e1]
        have e2 : setTop pbi (some (vy - NODE_MARGIN_Y / 2)) s.dom = s.dom := by
          apply updElem_eq_self hpeAt
          rw [← hpeT]
        rw [e2]
        have e3 : appendIfAbsent container pbi s.dom = s.dom := by
          simp [appendIfAbsent, parentOf, hpeAt, hpeP]
        rw [e3]
        have hse : { s with dom := s.dom } = s := rfl
        rw [hse]
        have hcpb : c.setParentBar (some pbi) = c := by
          rw [← hpb]
          cases c
          simp
        rw [hcpb]
        have hdc : depthD c ≤ f := le_trans (le_max_left _ _) hdep
        have hdr : depthList rest ≤ f := le_trans (le_max_right _ _) hdep
        rw [ih c container (vx, vy) s hDc hdc]
        rw [ihcs container (vx + c.requiredWidth + NODE_MARGIN_X) vy s hKrest hdr]
        simp only [sumAdvance_cons, Prod.mk.injEq]
        refine ⟨trivial, by ring, trivial⟩
    intro n container vp s hD hdep
    cases n with
    | mk b p ncs cs rw rep exp cb hb pb lc lv =>
      cases cs with
      | nil =>
        rw [Drawn_nil] at hD
        obtain ⟨hlc, hlv, ⟨re, hreAt, hreC, hreL, hreT, hreP⟩⟩ := hD
        simp only [draw]
        have e0 : setClassName rep (String.append "node" (if exp then "" else " collapsed"))
            s.dom = s.dom := by
          apply updElem_eq_self hreAt
          rw [← hreC]
        rw [e0]
        have e1 : setLeft rep (some vp.1) s.dom = s.dom := by
          apply updElem_eq_self hreAt
          rw [← hreL]
        rw [e1]
        have e2 : setTop rep (some vp.2) s.dom = s.dom := by
          apply updElem_eq_self hreAt
          rw [← hreT]
        rw [e2]
        have e3 : appendIfAbsent container rep s.dom = s.dom := by
          simp [appendIfAbsent, parentOf, hreAt, hreP]
        rw [e3]
        have hse : { s with dom := s.dom } = s := rfl
        rw [hse, hlc, hlv]
        simp [outVp]
      | cons c0 rest =>
        rw [Drawn_cons] at hD
        obtain ⟨hlc, hlv, ⟨re, hreAt, hreC, hreL, hreT, hreP⟩, hrw,
          ⟨cbi, hcb, ⟨ce, hceAt, hceL, hceT, hceP⟩⟩,
          ⟨hbi, hhb, ⟨hhe, hheAt, hheW, hheL, hheT, hheP⟩⟩, hK⟩ := hD
        have hc0 : c0.requiredWidth ≠ -1 := by
          rw [DrawnKids_cons] at hK
          exact hK.1
        have hne : (c0 :: rest) ≠ ([] : List DNode) := by simp
        have hL : (c0 :: rest).getLast? = some ((c0 :: rest).getLast hne) :=
          List.getLast?_eq_getLast _ hne
        have hlastrw : ((c0 :: rest).getLast hne).requiredWidth ≠ -1 :=
          DrawnKids_rw_ne hK _ (List.getLast_mem hne)
        simp only [draw]
        have e0 : setClassName rep (String.append "node" (if exp then "" else " collapsed"))
            s.dom = s.dom := by
          apply updElem_eq_self hreAt
          rw [← hreC]
        rw [e0]
        have e1 : setLeft rep (some vp.1) s.dom = s.dom := by
          apply updElem_eq_self hreAt
          rw [← hreL]
        rw [e1]
        have e2 : setTop rep (some vp.2) s.dom = s.dom := by
          apply updElem_eq_self hreAt
          rw [← hreT]
        rw [e2]
        have e3 : appendIfAbsent container rep s.dom = s.dom := by
          simp [appendIfAbsent, parentOf, hreAt, hreP]
        rw [e3]
        rw [getRequiredWidth_clean hc0]
        simp only [lastD, hL]
        rw [getRequiredWidth_clean hlastrw]
        simp only []
        rw [set_of_getElem? (by
          rw [← List.getLast?_eq_getElem?]
          exact hL)]
        rw [getRequiredWidth_clean (by simp; exact hrw)]
        simp only [hcb, hhb, ensureBar]
        have f1 : setLeft cbi (some (vp.1 + NODE_WIDTH / 2)) s.dom = s.dom := by
          apply updElem_eq_self hceAt
          rw [← hceL]
        rw [f1]
        have f2 : setTop cbi (some (vp.2 + NODE_HEIGHT)) s.dom = s.dom := by
          apply updElem_eq_self hceAt
          rw [← hceT]
        rw [f2]
        have f3 : appendIfAbsent container cbi s.dom = s.dom := by
          simp [appendIfAbsent, parentOf, hceAt, hceP]
        rw [f3]
        have g0 : setWidth hbi (some ((DNode.mk b p ncs (c0 :: rest) rw rep exp (some cbi)
            (some hbi) pb (some container) (some vp)).requiredWidth -
              ((c0 :: rest).getLast hne).requiredWidth)) s.dom = s.dom := by
          apply updElem_eq_self hheAt
          rw [show (DNode.mk b p ncs (c0 :: rest) rw rep exp (some cbi) (some hbi) pb
            (some container) (some vp)).requiredWidth = rw from rfl]
          rw [← lastRW_eq hL, ← hheW]
        rw [g0]
        have g1 : setLeft hbi (some (vp.1 + NODE_WIDTH / 2)) s.dom = s.dom := by
          apply updElem_eq_self hheAt
          rw [← hheL]
        rw [g1]
        have g2 : setTop hbi (some (vp.2 + NODE_HEIGHT + NODE_MARGIN_Y / 2)) s.dom = s.dom := by
          apply updElem_eq_self hheAt
          rw [← hheT]
        rw [g2]
        have g3 : appendIfAbsent container hbi s.dom = s.dom := by
          simp [appendIfAbsent, parentOf, hheAt, hheP]
        rw [g3]
        have hse : { s with dom := s.dom } = s := rfl
        rw [hse]
        have hdl : depthList (c0 :: rest) ≤ f := by
          simp only [depthD_mk] at hdep
          omega
        rw [show (DNode.mk b p ncs (c0 :: rest) rw rep exp (some cbi) (some hbi) pb
            (some container) (some vp)).children = c0 :: rest from rfl]
        rw [ihList (c0 :: rest) container vp.1 (vp.2 + NODE_HEIGHT + NODE_MARGIN_Y) s hK hdl]
        simp only [DNode.setChildBar_mk, DNode.setHorizontalBar_mk, DNode.setChildren_mk]
        rw [hlc, hlv]
        simp [outVp, Prod.mk.injEq]

@[simp] theorem wIds_mk {b p ncs cs rw rep exp cb hb pb lc lv} :
    wIds (DNode.mk b p ncs cs rw rep exp cb hb pb lc lv) =
      rep :: (([cb, hb].filterMap id) ++ wIdsList cs) := by
  simp [wIds]

@[simp] theorem wIdsList_nil : wIdsList [] = [] := by
  simp [wIdsList]

@[simp] theorem wIdsList_cons {c : DNode} {rest : List DNode} :
    wIdsList (c :: rest) = ([c.parentBar].filterMap id) ++ wIds c ++ wIdsList rest := by
  simp [wIdsList]

theorem wIds_subset_pack :
    (∀ n : DNode, ∀ j ∈ wIds n, j ∈ idsOf n) ∧
    (∀ cs : List DNode, ∀ j ∈ wIdsList cs, j ∈ idsOfList cs) := by
  refine wIds.mutual_induct _ _ ?hnode ?hnil ?hcons
  case hnode =>
    intro b p ncs cs rw rep exp cb hb pb lc lv ih j hj
    simp only [wIds_mk, List.mem_cons, List.mem_append] at hj
    rcases hj with hj | hj | hj
    · simp [hj]
    · cases cb with
      | none =>
        cases hb with
        | none => simp at hj
        | some hbv => simp at hj; simp [hj]
      | some cbv =>
        cases hb with
        | none => simp at hj; simp [hj]
        | some hbv => simp at hj; rcases hj with hj | hj <;> simp [hj]
    · exact mem_idsOf_kids (ih j hj)
  case hnil =>
    intro j hj
    simp at hj
  case hcons =>
    intro c rest ih1 ih2 j hj
    simp only [wIdsList_cons, List.mem_append] at hj
    rcases hj with (hj | hj) | hj
    · cases hc : c.parentBar with
      | none => rw [hc] at hj; simp at hj
      | some pbv =>
        rw [hc] at hj
        simp at hj
        exact mem_idsOfList_head (hj ▸ mem_idsOf_parentBar hc)
    · exact mem_idsOfList_head (ih1 j hj)
    · exact mem_idsOfList_tail (ih2 j hj)

theorem length_appendIfAbsent (c i : Nat) (d : Dom) :
    (appendIfAbsent c i d).elems.length = d.elems.length := by
  unfold appendIfAbsent
  split
  · rfl
  · exact length_appendChild c i d

theorem ensureBar_some (i : Nat) (cls : String) (d : Dom) :
    ensureBar (some i) cls d = (i, some i, d) := rfl

theorem ensureBar_none (cls : String) (d : Dom) :
    ensureBar none cls d =
      (d.elems.length, some d.elems.length, { elems := d.elems ++ [barElem cls] }) := rfl

theorem elemAt?_append_self (d : Dom) (e : ElemData) :
    elemAt? { elems := d.elems ++ [e] } d.elems.length = some e := by
  show (d.elems ++ e :: [])[d.elems.length]? = some e
  exact getElem?_append_cons d.elems e []

theorem elemAt?_setLeft_self {i : Nat} {d : Dom} {e : ElemData} (v : Option Int)
    (he : elemAt? d i = some e) :
    elemAt? (setLeft i v d) i = some { e with left := v } := by
  simp [setLeft, elemAt?_updElem_self, he]

theorem elemAt?_setTop_self {i : Nat} {d : Dom} {e : ElemData} (v : Option Int)
    (he : elemAt? d i = some e) :
    elemAt? (setTop i v d) i = some { e with top := v } := by
  simp [setTop, elemAt?_updElem_self, he]

theorem elemAt?_setWidth_self {i : Nat} {d : Dom} {e : ElemData} (v : Option Int)
    (he : elemAt? d i = some e) :
    elemAt? (setWidth i v d) i = some { e with width := v } := by
  simp [setWidth, elemAt?_updElem_self, he]

theorem elemAt?_setClassName_self {i : Nat} {d : Dom} {e : ElemData} (v : String)
    (he : elemAt? d i = some e) :
    elemAt? (setClassName i v d) i = some { e with className := v } := by
  simp [setClassName, elemAt?_updElem_self, he]

theorem elemAgree_some {d d' : Dom} {j : Nat} {e : ElemData} (hag : elemAgree d d' j)
    (he : elemAt? d j = some e) :
    ∃ e', elemAt? d' j = some e' ∧ dropKids e' = dropKids e := by
  unfold elemAgree at hag
  rw [he] at hag
  exact Option.map_eq_some'.mp hag

theorem elemAt?_appendIfAbsent_self {c i : Nat} {d : Dom} {e : ElemData}
    (he : elemAt? d i = some e) :
    ∃ e', elemAt? (appendIfAbsent c i d) i = some e' ∧
      e'.className = e.className ∧ e'.left = e.left ∧ e'.top = e.top ∧
      e'.width = e.width ∧ e'.parent = some c := by
  unfold appendIfAbsent
  split
  · rename_i hguard
    refine ⟨e, he, rfl, rfl, rfl, rfl, ?_⟩
    unfold parentOf at hguard
    rw [he] at hguard
    exact hguard
  · cases hp : parentOf d i with
    | none =>
      simp only [appendChild, hp]
      have hag : elemAgree d (updElem c (fun x => { x with kids := x.kids ++ [i] }) d) i := by
        apply elemAgree_updElem_kids
        intro x
        rfl
      obtain ⟨e2, he2, hde⟩ := elemAgree_some hag he
      obtain ⟨q1, q2, q3, q4, q5⟩ := dropKids_fields hde
      refine ⟨{ e2 with parent := some c }, ?_, q1, q2, q3, q4, rfl⟩
      rw [elemAt?_updElem_self, he2]
      rfl
    | some p =>
      simp only [appendChild, hp]
      have h1 : elemAgree d (updElem p (fun x => { x with kids := x.kids.erase i }) d) i := by
        apply elemAgree_updElem_kids
        intro x
        rfl
      have hag : elemAgree d (updElem c (fun x => { x with kids := x.kids ++ [i] })
          (updElem p (fun x => { x with kids := x.kids.erase i }) d)) i := by
        refine elemAgree_trans h1 ?_
        apply elemAgree_updElem_kids
        intro x
        rfl
      obtain ⟨e2, he2, hde⟩ := elemAgree_some hag he
      obtain ⟨q1, q2, q3, q4, q5⟩ := dropKids_fields hde
      refine ⟨{ e2 with parent := some c }, ?_, q1, q2, q3, q4, rfl⟩
      rw [elemAt?_updElem_self, he2]
      rfl

theorem DNode.setParentBar_self (n : DNode) : n.setParentBar n.parentBar = n := by
  cases n
  simp

theorem depthD_setParentBar (n : DNode) (v : Option Nat) :
    depthD (n.setParentBar v) = depthD n := by
  cases n
  simp

theorem elemAgree_barWrites {c i j : Nat} {v1 v2 : Option Int} {d : Dom} (h : j ≠ i) :
    elemAgree d (appendIfAbsent c i (setTop i v1 (setLeft i v2 d))) j := by
  have h1 : elemAgree d (setLeft i v2 d) j := elemAgree_updElem_ne _ _ h
  have h2 : elemAgree d (setTop i v1 (setLeft i v2 d)) j :=
    elemAgree_trans h1 (elemAgree_updElem_ne _ _ h)
  exact elemAgree_trans h2 (elemAgree_appendIfAbsent _ h)

theorem elemAgree_repWrites {c i j : Nat} {v1 v2 : Option Int} {v3 : String} {d : Dom}
    (h : j ≠ i) :
    elemAgree d (appendIfAbsent c i (setTop i v1 (setLeft i v2 (setClassName i v3 d)))) j := by
  have h0 : elemAgree d (setClassName i v3 d) j := elemAgree_updElem_ne _ _ h
  have h1 : elemAgree d (setLeft i v2 (setClassName i v3 d)) j :=
    elemAgree_trans h0 (elemAgree_updElem_ne _ _ h)
  have h2 : elemAgree d (setTop i v1 (setLeft i v2 (setClassName i v3 d))) j :=
    elemAgree_trans h1 (elemAgree_updElem_ne _ _ h)
  exact elemAgree_trans h2 (elemAgree_appendIfAbsent _ h)

theorem elemAgree_hbWrites {c i j : Nat} {v1 v2 w : Option Int} {d : Dom} (h : j ≠ i) :
    elemAgree d (appendIfAbsent c i (setTop i v1 (setLeft i v2 (setWidth i w d)))) j := by
  have h0 : elemAgree d (setWidth i w d) j := elemAgree_updElem_ne _ _ h
  have h1 : elemAgree d (setLeft i v2 (setWidth i w d)) j :=
    elemAgree_trans h0 (elemAgree_updElem_ne _ _ h)
  have h2 : elemAgree d (setTop i v1 (setLeft i v2 (setWidth i w d))) j :=
    elemAgree_trans h1 (elemAgree_updElem_ne _ _ h)
  exact elemAgree_trans h2 (elemAgree_appendIfAbsent _ h)

theorem ElemIs_barWrites {c i : Nat} {v1 v2 : Option Int} {d : Dom} {e : ElemData}
    (he : elemAt? d i = some e) :
    ElemIs (appendIfAbsent c i (setTop i v1 (setLeft i v2 d))) i
      (fun x => x.left = v2 ∧ x.top = v1 ∧ x.parent = some c) := by
  have h1 := elemAt?_setLeft_self v2 he
  have h2 := elemAt?_setTop_self v1 h1
  obtain ⟨e', he', hcl, hl, ht, hw, hp⟩ := elemAt?_appendIfAbsent_self h2
  exact ⟨e', he', by rw [hl], by rw [ht], hp⟩

theorem ElemIs_repWrites {c i : Nat} {v1 v2 : Option Int} {v3 : String} {d : Dom} {e : ElemData}
    (he : elemAt? d i = some e) :
    ElemIs (appendIfAbsent c i (setTop i v1 (setLeft i v2 (setClassName i v3 d)))) i
      (fun x => x.className = v3 ∧ x.left = v2 ∧ x.top = v1 ∧ x.parent = some c) := by
  have h0 := elemAt?_setClassName_self v3 he
  have h1 := elemAt?_setLeft_self v2 h0
  have h2 := elemAt?_setTop_self v1 h1
  obtain ⟨e', he', hcl, hl, ht, hw, hp⟩ := elemAt?_appendIfAbsent_self h2
  exact ⟨e', he', by rw [hcl], by rw [hl], by rw [ht], hp⟩

theorem ElemIs_hbWrites {c i : Nat} {v1 v2 w : Option Int} {d : Dom} {e : ElemData}
    (he : elemAt? d i = some e) :
    ElemIs (appendIfAbsent c i (setTop i v1 (setLeft i v2 (setWidth i w d)))) i
      (fun x => x.width = w ∧ x.left = v2 ∧ x.top = v1 ∧ x.parent = some c) := by
  have h0 := elemAt?_setWidth_self w he
  have h1 := elemAt?_setLeft_self v2 h0
  have h2 := elemAt?_setTop_self v1 h1
  obtain ⟨e', he', hcl, hl, ht, hw, hp⟩ := elemAt?_appendIfAbsent_self h2
  exact ⟨e', he', by rw [hw], by rw [hl], by rw [ht], hp⟩

theorem pb_setBars_setChildren (n : DNode) (a b : Option Nat) (cs' : List DNode) :
    (((n.setChildBar a).setHorizontalBar b).setChildren cs').parentBar = n.parentBar := by
  cases n
  simp

theorem draw_fst_pb (fuel : Nat) (m : DNode) (container : Nat) (vp : Int × Int) (s : TState) :
    (draw fuel m container vp s).1.parentBar = m.parentBar := by
  cases fuel with
  | zero => rfl
  | succ f =>
    cases m with
    | mk b p ncs cs rw rep exp cb hb pb lc lv =>
      cases cs with
      | nil => rfl
      | cons c0 rest =>
        simp only [draw]
        rw [pb_setBars_setChildren, (getRequiredWidth_snd_fields _).2.2.2.2.2.2.2.1]
        simp

theorem filterMap_id_three (cb hb : Option Nat) (i : Nat) :
    [cb, hb, some i].filterMap id = [cb, hb].filterMap id ++ [i] := by
  cases cb <;> cases hb <;> rfl

theorem filterMap_id_three_none (cb hb : Option Nat) :
    [cb, hb, (none : Option Nat)].filterMap id = [cb, hb].filterMap id := by
  cases cb <;> cases hb <;> rfl

theorem wIds_setParentBar (n : DNode) (v : Option Nat) :
    wIds (n.setParentBar v) = wIds n := by
  cases n
  simp

theorem idsOf_setParentBar_perm (n : DNode) (i : Nat) (h : n.parentBar = none) :
    (idsOf (n.setParentBar (some i))).Perm (i :: idsOf n) := by
  cases n with
  | mk b p ncs cs rw rep exp cb hb pb lc lv =>
    simp only [DNode.parentBar_mk] at h
    subst h
    simp only [DNode.setParentBar_mk, idsOf_mk, filterMap_id_three, filterMap_id_three_none]
    refine List.Perm.trans (List.Perm.cons rep ?_) (List.Perm.swap i rep _)
    rw [List.append_assoc]
    exact List.perm_middle

theorem grw_wIds_pack :
    (∀ n : DNode, wIds (getRequiredWidth n).2 = wIds n) ∧
    (∀ cs : List DNode, wIdsList (getRequiredWidthList cs).2 = wIdsList cs) := by
  refine getRequiredWidth.mutual_induct _ _ ?h1 ?h2 ?h3 ?h4
  case h1 =>
    intro b p ncs cs rep exp cb hb pb lc lv ih
    simp [getRequiredWidth, ih]
  case h2 =>
    intro b p ncs cs rw rep exp cb hb pb lc lv h
    simp [getRequiredWidth, h]
  case h3 =>
    simp [getRequiredWidthList]
  case h4 =>
    intro c rest ih1 ih2
    simp [getRequiredWidthList, ih1, ih2,
      (getRequiredWidth_snd_fields c).2.2.2.2.2.2.2.1]

theorem pb_not_mem_wIds {c : DNode} {pbi : Nat} (hnd : (idsOf c).Nodup)
    (hpb : c.parentBar = some pbi) : pbi ∉ wIds c := by
  cases c with
  | mk b p ncs cs rw rep exp cb hb pb lc lv =>
    simp only [DNode.parentBar_mk] at hpb
    subst hpb
    simp only [idsOf_mk, filterMap_id_three] at hnd
    rw [List.nodup_cons] at hnd
    intro hmem
    simp only [wIds_mk, List.mem_cons, List.mem_append] at hmem
    have hrep : rep ∉ ([cb, hb].filterMap id ++ [pbi]) ++ idsOfList cs := hnd.1
    have htail : (([cb, hb].filterMap id ++ [pbi]) ++ idsOfList cs).Nodup := hnd.2
    rcases hmem with hmem | hmem | hmem
    · subst hmem
      exact hrep (by simp)
    · have : (([cb, hb].filterMap id ++ [pbi])).Nodup := htail.of_append_left
      rw [List.nodup_append] at this
      exact this.2.2 hmem (by simp)
    · have hdj := List.disjoint_of_nodup_append htail
      exact hdj (by simp) (wIds_subset_pack.2 cs pbi hmem)

theorem idsOfList_eq_of_map {l1 l2 : List DNode} (h : l1.map idsOf = l2.map idsOf) :
    idsOfList l1 = idsOfList l2 := by
  induction l1 generalizing l2 with
  | nil =>
    cases l2 with
    | nil => rfl
    | cons x t => simp at h
  | cons c rest ih =>
    cases l2 with
    | nil => simp at h
    | cons x t =>
      simp only [List.map_cons, List.cons.injEq] at h
      simp [h.1, ih h.2]

theorem depthList_eq_of_map {l1 l2 : List DNode} (h : l1.map depthD = l2.map depthD) :
    depthList l1 = depthList l2 := by
  induction l1 generalizing l2 with
  | nil =>
    cases l2 with
    | nil => rfl
    | cons x t => simp at h
  | cons c rest ih =>
    cases l2 with
    | nil => simp at h
    | cons x t =>
      simp only [List.map_cons, List.cons.injEq] at h
      simp [h.1, ih h.2]

theorem wIdsList_eq_of_map {l1 l2 : List DNode}
    (h : l1.map (fun c => ([c.parentBar].filterMap id) ++ wIds c) =
      l2.map (fun c => ([c.parentBar].filterMap id) ++ wIds c)) :
    wIdsList l1 = wIdsList l2 := by
  induction l1 generalizing l2 with
  | nil =>
    cases l2 with
    | nil => rfl
    | cons x t => simp at h
  | cons c rest ih =>
    cases l2 with
    | nil => simp at h
    | cons x t =>
      simp only [List.map_cons, List.cons.injEq] at h
      simp only [wIdsList_cons, ih h.2, List.append_assoc]
      rw [show ([c.parentBar].filterMap id) ++ (wIds c ++ wIdsList t) =
        (([c.parentBar].filterMap id) ++ wIds c) ++ wIdsList t by rw [List.append_assoc],
        h.1, List.append_assoc]

theorem map_set_last_grw {α : Type} (g : DNode → α)
    (hg : ∀ y : DNode, g (getRequiredWidth y).2 = g y) (l : List DNode) (dflt : DNode)
    (hne : l ≠ []) :
    (l.set (l.length - 1) (getRequiredWidth (lastD l dflt)).2).map g = l.map g := by
  have hL : l.getLast? = some (l.getLast hne) := List.getLast?_eq_getLast _ hne
  have hlastD : lastD l dflt = l.getLast hne := by
    simp [lastD, hL]
  rw [hlastD, List.map_set]
  apply set_of_getElem?
  rw [List.getElem?_map, hg, ← List.getLast?_eq_getElem?, hL]
  rfl

theorem pb_setParentBar (n : DNode) (v : Option Nat) : (n.setParentBar v).parentBar = v := by
  cases n
  simp

theorem setParentBar_eq_self {n : DNode} {i : Nat} (h : n.parentBar = some i) :
    n.setParentBar (some i) = n := by
  rw [← h]
  exact DNode.setParentBar_self n

theorem idsOf_setParentBar_sub (n : DNode) (i : Nat) :
    ∀ j ∈ idsOf (n.setParentBar (some i)), j = i ∨ j ∈ idsOf n := by
  cases n with
  | mk b p ncs cs rw rep exp cb hb pb lc lv =>
    intro j hj
    cases pb with
    | none =>
      simp only [DNode.setParentBar_mk, idsOf_mk, filterMap_id_three,
        filterMap_id_three_none, List.mem_cons, List.mem_append,
        List.mem_singleton] at hj ⊢
      tauto
    | some x =>
      simp only [DNode.setParentBar_mk, idsOf_mk, filterMap_id_three, List.mem_cons,
        List.mem_append, List.mem_singleton] at hj ⊢
      tauto

theorem ensureBar_facts (cur : Option Nat) (cls : String) (d : Dom)
    (hin : ∀ i, cur = some i → i < d.elems.length) :
    (ensureBar cur cls d).2.1 = some (ensureBar cur cls d).1 ∧
    d.elems.length ≤ (ensureBar cur cls d).2.2.elems.length ∧
    (ensureBar cur cls d).2.2.elems.length ≤ d.elems.length + 1 ∧
    (∀ j, j < d.elems.length → elemAgree d (ensureBar cur cls d).2.2 j) ∧
    (∃ e, elemAt? (ensureBar cur cls d).2.2 (ensureBar cur cls d).1 = some e) ∧
    ((∃ i, cur = some i ∧ (ensureBar cur cls d).1 = i ∧ (ensureBar cur cls d).2.2 = d) ∨
      (cur = none ∧ (ensureBar cur cls d).1 = d.elems.length ∧
        (ensureBar cur cls d).2.2.elems.length = d.elems.length + 1)) ∧
    (ensureBar cur cls d).1 < (ensureBar cur cls d).2.2.elems.length := by
  cases cur with
  | some i =>
    have hi := hin i rfl
    exact ⟨rfl, le_refl _, Nat.le_succ _, fun j _ => elemAgree_refl d j, elemAt?_exists hi,
      Or.inl ⟨i, rfl, rfl, rfl⟩, hi⟩
  | none =>
    exact ⟨rfl, by simp [ensureBar_none], by simp [ensureBar_none],
      fun j hj => elemAgree_append d _ j hj,
      ⟨barElem cls, elemAt?_append_self d _⟩,
      Or.inr ⟨rfl, rfl, by simp [ensureBar_none]⟩, by simp [ensureBar_none]⟩


theorem drawKids_pack (f : Nat)
    (ihN : ∀ (n : DNode) (container : Nat) (vp : Int × Int) (s : TState),
      (idsOf n).Nodup → (∀ i ∈ idsOf n, i < s.dom.elems.length) → container ∉ idsOf n →
      container < s.dom.elems.length → depthD n ≤ f →
      s.dom.elems.length ≤ (draw f n container vp s).2.2.dom.elems.length ∧
      (∀ j, j < s.dom.elems.length → j ∉ wIds n →
        elemAgree s.dom (draw f n container vp s).2.2.dom j) ∧
      (∀ j ∈ idsOf (draw f n container vp s).1,
        (j ∈ idsOf n ∨ s.dom.elems.length ≤ j) ∧
        j < (draw f n container vp s).2.2.dom.elems.length) ∧
      depthD (draw f n container vp s).1 = depthD n ∧
      Drawn (draw f n container vp s).1 container vp (draw f n container vp s).2.2.dom) :
    ∀ (cs : List DNode) (container : Nat) (vx vy : Int) (s : TState),
      (idsOfList cs).Nodup → (∀ i ∈ idsOfList cs, i < s.dom.elems.length) →
      container ∉ idsOfList cs → container < s.dom.elems.length → depthList cs ≤ f →
      s.dom.elems.length ≤
        (drawKids (fun m vv t => draw f m container vv t) container cs vx vy
          s).2.2.dom.elems.length ∧
      (∀ j, j < s.dom.elems.length → j ∉ wIdsList cs →
        elemAgree s.dom
          (drawKids (fun m vv t => draw f m container vv t) container cs vx vy s).2.2.dom j) ∧
      (∀ j ∈ idsOfList
          (drawKids (fun m vv t => draw f m container vv t) container cs vx vy s).1,
        (j ∈ idsOfList cs ∨ s.dom.elems.length ≤ j) ∧
        j < (drawKids (fun m vv t => draw f m container vv t) container cs vx vy
          s).2.2.dom.elems.length) ∧
      (drawKids (fun m vv t => draw f m container vv t) container cs vx vy s).1.map
          DNode.requiredWidth = cs.map (fun c => (getRequiredWidth c).1) ∧
      (drawKids (fun m vv t => draw f m container vv t) container cs vx vy s).1.map depthD =
        cs.map depthD ∧
      DrawnKids (drawKids (fun m vv t => draw f m container vv t) container cs vx vy s).1
        container vx vy
        (drawKids (fun m vv t => draw f m container vv t) container cs vx vy s).2.2.dom := by
  intro cs
  induction cs with
  | nil =>
    intro container vx vy s hnd hrg hct hcl hdep
    refine ⟨le_refl _, fun j _ _ => elemAgree_refl _ _, ?_, rfl, rfl, ?_⟩
    · intro j hj
      simp [drawKids] at hj
    · exact DrawnKids_nil container vx vy _
  | cons c rest ihcs =>
    intro container vx vy s hnd hrg hct hcl hdep
    have hnd2 : (idsOf c ++ idsOfList rest).Nodup := by simpa using hnd
    have hndc : (idsOf c).Nodup := hnd2.of_append_left
    have hndr : (idsOfList rest).Nodup := hnd2.of_append_right
    have hdisj : List.Disjoint (idsOf c) (idsOfList rest) := List.disjoint_of_nodup_append hnd2
    have hrgc : ∀ i ∈ idsOf c, i < s.dom.elems.length :=
      fun i hi => hrg i (mem_idsOfList_head hi)
    have hrgr : ∀ i ∈ idsOfList rest, i < s.dom.elems.length :=
      fun i hi => hrg i (mem_idsOfList_tail hi)
    have hctc : container ∉ idsOf c := fun hin => hct (mem_idsOfList_head hin)
    have hctr : container ∉ idsOfList rest := fun hin => hct (mem_idsOfList_tail hin)
    simp only [depthList_cons] at hdep
    have hdc : depthD c ≤ f := le_trans (le_max_left _ _) hdep
    have hdr : depthList rest ≤ f := le_trans (le_max_right _ _) hdep
    obtain ⟨hf21, hfg, hfub, hfag, ⟨e0, he0⟩, hfchar, hflt⟩ :=
      ensureBar_facts c.parentBar "vertical" s.dom
        (fun i hi => hrgc i (mem_idsOf_parentBar hi))
    simp only [drawKids]
    rw [(getRequiredWidth_snd_fields c).2.2.2.2.2.2.2.1, hf21]
    have hD1len : (appendIfAbsent container (ensureBar c.parentBar "vertical" s.dom).1 (setTop (ensureBar c.parentBar "vertical" s.dom).1 (some (vy - NODE_MARGIN_Y / 2)) (setLeft (ensureBar c.parentBar "vertical" s.dom).1 (some (vx + NODE_WIDTH / 2)) (ensureBar c.parentBar "vertical" s.dom).2.2))).elems.length = (ensureBar c.parentBar "vertical" s.dom).2.2.elems.length := by
      rw [length_appendIfAbsent]
      simp [setTop, setLeft]
    have hr1OldOrFresh : (ensureBar c.parentBar "vertical" s.dom).1 ∈ idsOf c ∨ (ensureBar c.parentBar "vertical" s.dom).1 = s.dom.elems.length := by
      rcases hfchar with ⟨i, hi, hv, hkeep⟩ | ⟨hn, hv, hfr⟩
      · exact Or.inl (hv ▸ mem_idsOf_parentBar hi)
      · exact Or.inr hv
    have hr1nw : (ensureBar c.parentBar "vertical" s.dom).1 ∉ wIds c := by
      rcases hfchar with ⟨i, hi, hv, hkeep⟩ | ⟨hn, hv, hfr⟩
      · rw [hv]
        exact pb_not_mem_wIds hndc hi
      · rw [hv]
        intro hmem
        exact absurd (hrgc _ (wIds_subset_pack.1 c _ hmem)) (by omega)
    have hr1nwr : (ensureBar c.parentBar "vertical" s.dom).1 ∉ wIdsList rest := by
      rcases hr1OldOrFresh with h3 | h3
      · exact fun hmem => hdisj h3 (wIds_subset_pack.2 rest _ hmem)
      · intro hmem
        have := hrgr _ (wIds_subset_pack.2 rest _ hmem)
        omega
    have hmnd : (idsOf (DNode.setParentBar (some (ensureBar c.parentBar "vertical" s.dom).1) (getRequiredWidth c).2)).Nodup := by
      rcases hfchar with ⟨i, hi, hv, hkeep⟩ | ⟨hn, hv, hfr⟩
      · rw [hv, setParentBar_eq_self (by
          rw [(getRequiredWidth_snd_fields c).2.2.2.2.2.2.2.1]
          exact hi)]
        rw [(grw_shape_pack.1 c).1]
        exact hndc
      · have hperm := idsOf_setParentBar_perm (getRequiredWidth c).2
          (ensureBar c.parentBar "vertical" s.dom).1 (by
            rw [(getRequiredWidth_snd_fields c).2.2.2.2.2.2.2.1]
            exact hn)
        rw [(grw_shape_pack.1 c).1] at hperm
        refine (hperm.nodup_iff).mpr ?_
        rw [List.nodup_cons]
        refine ⟨?_, hndc⟩
        intro hmem
        have := hrgc _ hmem
        omega
    have hmsub : ∀ j ∈ idsOf (DNode.setParentBar (some (ensureBar c.parentBar "vertical" s.dom).1) (getRequiredWidth c).2), j = (ensureBar c.parentBar "vertical" s.dom).1 ∨ j ∈ idsOf c := by
      intro j hj
      rcases idsOf_setParentBar_sub _ _ j hj with h | h
      · exact Or.inl h
      · exact Or.inr ((grw_shape_pack.1 c).1 ▸ h)
    have hrgm : ∀ i ∈ idsOf (DNode.setParentBar (some (ensureBar c.parentBar "vertical" s.dom).1) (getRequiredWidth c).2), i < (appendIfAbsent container (ensureBar c.parentBar "vertical" s.dom).1 (setTop (ensureBar c.parentBar "vertical" s.dom).1 (some (vy - NODE_MARGIN_Y / 2)) (setLeft (ensureBar c.parentBar "vertical" s.dom).1 (some (vx + NODE_WIDTH / 2)) (ensureBar c.parentBar "vertical" s.dom).2.2))).elems.length := by
      intro i hi
      rw [hD1len]
      rcases hmsub i hi with h | h
      · rw [h]
        exact hflt
      · exact lt_of_lt_of_le (hrgc i h) hfg
    have hclm : container < (appendIfAbsent container (ensureBar c.parentBar "vertical" s.dom).1 (setTop (ensureBar c.parentBar "vertical" s.dom).1 (some (vy - NODE_MARGIN_Y / 2)) (setLeft (ensureBar c.parentBar "vertical" s.dom).1 (some (vx + NODE_WIDTH / 2)) (ensureBar c.parentBar "vertical" s.dom).2.2))).elems.length := by
      rw [hD1len]
      exact lt_of_lt_of_le hcl hfg
    have hctm : container ∉ idsOf (DNode.setParentBar (some (ensureBar c.parentBar "vertical" s.dom).1) (getRequiredWidth c).2) := by
      intro hmem
      rcases hmsub _ hmem with h | h
      · rcases hr1OldOrFresh with h2 | h2
        · exact hctc (h ▸ h2)
        · rw [h, h2] at hcl
          exact absurd hcl (lt_irrefl _)
      · exact hctc h
    have hdm : depthD (DNode.setParentBar (some (ensureBar c.parentBar "vertical" s.dom).1) (getRequiredWidth c).2) ≤ f := by
      rw [depthD_setParentBar, (grw_shape_pack.1 c).2]
      exact hdc
    obtain ⟨A1, A2, A3, A4, A7⟩ := ihN (DNode.setParentBar (some (ensureBar c.parentBar "vertical" s.dom).1) (getRequiredWidth c).2) container (vx, vy) { s with dom := appendIfAbsent container (ensureBar c.parentBar "vertical" s.dom).1 (setTop (ensureBar c.parentBar "vertical" s.dom).1 (some (vy - NODE_MARGIN_Y / 2)) (setLeft (ensureBar c.parentBar "vertical" s.dom).1 (some (vx + NODE_WIDTH / 2)) (ensureBar c.parentBar "vertical" s.dom).2.2)) } hmnd hrgm hctm hclm hdm
    have hlen1 : s.dom.elems.length ≤ (appendIfAbsent container (ensureBar c.parentBar "vertical" s.dom).1 (setTop (ensureBar c.parentBar "vertical" s.dom).1 (some (vy - NODE_MARGIN_Y / 2)) (setLeft (ensureBar c.parentBar "vertical" s.dom).1 (some (vx + NODE_WIDTH / 2)) (ensureBar c.parentBar "vertical" s.dom).2.2))).elems.length := by
      rw [hD1len]
      exact hfg
    have A1x : (appendIfAbsent container (ensureBar c.parentBar "vertical" s.dom).1 (setTop (ensureBar c.parentBar "vertical" s.dom).1 (some (vy - NODE_MARGIN_Y / 2)) (setLeft (ensureBar c.parentBar "vertical" s.dom).1 (some (vx + NODE_WIDTH / 2)) (ensureBar c.parentBar "vertical" s.dom).2.2))).elems.length ≤ ((draw f (DNode.setParentBar (some (ensureBar c.parentBar "vertical" s.dom).1) (getRequiredWidth c).2) container (vx, vy) { s with dom := appendIfAbsent container (ensureBar c.parentBar "vertical" s.dom).1 (setTop (ensureBar c.parentBar "vertical" s.dom).1 (some (vy - NODE_MARGIN_Y / 2)) (setLeft (ensureBar c.parentBar "vertical" s.dom).1 (some (vx + NODE_WIDTH / 2)) (ensureBar c.parentBar "vertical" s.dom).2.2)) }).2.2).dom.elems.length := A1
    have hlen2 : s.dom.elems.length ≤ ((draw f (DNode.setParentBar (some (ensureBar c.parentBar "vertical" s.dom).1) (getRequiredWidth c).2) container (vx, vy) { s with dom := appendIfAbsent container (ensureBar c.parentBar "vertical" s.dom).1 (setTop (ensureBar c.parentBar "vertical" s.dom).1 (some (vy - NODE_MARGIN_Y / 2)) (setLeft (ensureBar c.parentBar "vertical" s.dom).1 (some (vx + NODE_WIDTH / 2)) (ensureBar c.parentBar "vertical" s.dom).2.2)) }).2.2).dom.elems.length := le_trans hlen1 A1x
    obtain ⟨B1, B2, B3, B4, B5, B6⟩ := ihcs container
      (vx + (getRequiredWidth c).1 + NODE_MARGIN_X) vy ((draw f (DNode.setParentBar (some (ensureBar c.parentBar "vertical" s.dom).1) (getRequiredWidth c).2) container (vx, vy) { s with dom := appendIfAbsent container (ensureBar c.parentBar "vertical" s.dom).1 (setTop (ensureBar c.parentBar "vertical" s.dom).1 (some (vy - NODE_MARGIN_Y / 2)) (setLeft (ensureBar c.parentBar "vertical" s.dom).1 (some (vx + NODE_WIDTH / 2)) (ensureBar c.parentBar "vertical" s.dom).2.2)) }).2.2) hndr
      (fun i hi => lt_of_lt_of_le (hrgr i hi) hlen2) hctr (lt_of_lt_of_le hcl hlen2) hdr
    have hmrw : (DNode.setParentBar (some (ensureBar c.parentBar "vertical" s.dom).1) (getRequiredWidth c).2).requiredWidth ≠ -1 := by
      rw [DNode.rw_setParentBar, getRequiredWidth_snd_rw]
      exact getRequiredWidth_fst_ne c
    have hhead : (draw f (DNode.setParentBar (some (ensureBar c.parentBar "vertical" s.dom).1) (getRequiredWidth c).2) container (vx, vy) { s with dom := appendIfAbsent container (ensureBar c.parentBar "vertical" s.dom).1 (setTop (ensureBar c.parentBar "vertical" s.dom).1 (some (vy - NODE_MARGIN_Y / 2)) (setLeft (ensureBar c.parentBar "vertical" s.dom).1 (some (vx + NODE_WIDTH / 2)) (ensureBar c.parentBar "vertical" s.dom).2.2)) }).1.requiredWidth =
        (getRequiredWidth c).1 := by
      rw [draw_fst_rw f _ container (vx, vy) _ hmrw, DNode.rw_setParentBar,
        getRequiredWidth_snd_rw]
    have hEB1S2 : (ensureBar c.parentBar "vertical" s.dom).1 < ((draw f (DNode.setParentBar (some (ensureBar c.parentBar "vertical" s.dom).1) (getRequiredWidth c).2) container (vx, vy) { s with dom := appendIfAbsent container (ensureBar c.parentBar "vertical" s.dom).1 (setTop (ensureBar c.parentBar "vertical" s.dom).1 (some (vy - NODE_MARGIN_Y / 2)) (setLeft (ensureBar c.parentBar "vertical" s.dom).1 (some (vx + NODE_WIDTH / 2)) (ensureBar c.parentBar "vertical" s.dom).2.2)) }).2.2).dom.elems.length :=
      lt_of_lt_of_le (by rw [hD1len]; exact hflt) A1x
    refine ⟨le_trans hlen2 B1, ?_, ?_, ?_, ?_, ?_⟩
    · intro j hj hw
      simp only [wIdsList_cons, List.mem_append] at hw
      push_neg at hw
      obtain ⟨⟨hw1, hw2⟩, hw3⟩ := hw
      have hne1 : j ≠ (ensureBar c.parentBar "vertical" s.dom).1 := by
        rcases hfchar with ⟨i, hi, hv, hkeep⟩ | ⟨hn, hv, hfr⟩
        · rw [hv]
          intro hji
          exact hw1 (by simp [hi, hji])
        · omega
      have hag1 : elemAgree s.dom (appendIfAbsent container (ensureBar c.parentBar "vertical" s.dom).1 (setTop (ensureBar c.parentBar "vertical" s.dom).1 (some (vy - NODE_MARGIN_Y / 2)) (setLeft (ensureBar c.parentBar "vertical" s.dom).1 (some (vx + NODE_WIDTH / 2)) (ensureBar c.parentBar "vertical" s.dom).2.2))) j :=
        elemAgree_trans (hfag j hj) (elemAgree_barWrites hne1)
      have hag2 : elemAgree (appendIfAbsent container (ensureBar c.parentBar "vertical" s.dom).1 (setTop (ensureBar c.parentBar "vertical" s.dom).1 (some (vy - NODE_MARGIN_Y / 2)) (setLeft (ensureBar c.parentBar "vertical" s.dom).1 (some (vx + NODE_WIDTH / 2)) (ensureBar c.parentBar "vertical" s.dom).2.2))) (((draw f (DNode.setParentBar (some (ensureBar c.parentBar "vertical" s.dom).1) (getRequiredWidth c).2) container (vx, vy) { s with dom := appendIfAbsent container (ensureBar c.parentBar "vertical" s.dom).1 (setTop (ensureBar c.parentBar "vertical" s.dom).1 (some (vy - NODE_MARGIN_Y / 2)) (setLeft (ensureBar c.parentBar "vertical" s.dom).1 (some (vx + NODE_WIDTH / 2)) (ensureBar c.parentBar "vertical" s.dom).2.2)) }).2.2).dom) j := by
        refine A2 j ?_ ?_
        · rw [hD1len]
          exact lt_of_lt_of_le hj hfg
        · rw [wIds_setParentBar, grw_wIds_pack.1]
          exact hw2
      exact elemAgree_trans (elemAgree_trans hag1 hag2)
        (B2 j (lt_of_lt_of_le hj hlen2) hw3)
    · intro j hj
      simp only [idsOfList_cons, List.mem_append] at hj
      rcases hj with hj | hj
      · obtain ⟨hor, hub⟩ := A3 j hj
        constructor
        · rcases hor with h | h
          · rcases hmsub j h with h2 | h2
            · rcases hr1OldOrFresh with h3 | h3
              · exact Or.inl (mem_idsOfList_head (h2 ▸ h3))
              · exact Or.inr (le_of_eq (by rw [h2, h3]))
            · exact Or.inl (mem_idsOfList_head h2)
          · have h2 : (appendIfAbsent container (ensureBar c.parentBar "vertical" s.dom).1 (setTop (ensureBar c.parentBar "vertical" s.dom).1 (some (vy - NODE_MARGIN_Y / 2)) (setLeft (ensureBar c.parentBar "vertical" s.dom).1 (some (vx + NODE_WIDTH / 2)) (ensureBar c.parentBar "vertical" s.dom).2.2))).elems.length ≤ j := h
            exact Or.inr (le_trans hlen1 h2)
        · exact lt_of_lt_of_le hub B1
      · obtain ⟨hor, hub⟩ := B3 j hj
        refine ⟨?_, hub⟩
        rcases hor with h | h
        · exact Or.inl (mem_idsOfList_tail h)
        · exact Or.inr (le_trans hlen2 h)
    · rw [List.map_cons, List.map_cons, hhead, B4]
    · have hdep1 : depthD (draw f (DNode.setParentBar (some (ensureBar c.parentBar "vertical" s.dom).1) (getRequiredWidth c).2) container (vx, vy) { s with dom := appendIfAbsent container (ensureBar c.parentBar "vertical" s.dom).1 (setTop (ensureBar c.parentBar "vertical" s.dom).1 (some (vy - NODE_MARGIN_Y / 2)) (setLeft (ensureBar c.parentBar "vertical" s.dom).1 (some (vx + NODE_WIDTH / 2)) (ensureBar c.parentBar "vertical" s.dom).2.2)) }).1 = depthD c := by
        rw [A4, depthD_setParentBar, (grw_shape_pack.1 c).2]
      rw [List.map_cons, List.map_cons, hdep1, B5]
    · rw [DrawnKids_cons]
      refine ⟨?_, ⟨(ensureBar c.parentBar "vertical" s.dom).1, ?_, ?_⟩, ?_, ?_⟩
      · rw [hhead]
        exact getRequiredWidth_fst_ne c
      · rw [draw_fst_pb, pb_setParentBar]
      · have base : ElemIs (appendIfAbsent container (ensureBar c.parentBar "vertical" s.dom).1 (setTop (ensureBar c.parentBar "vertical" s.dom).1 (some (vy - NODE_MARGIN_Y / 2)) (setLeft (ensureBar c.parentBar "vertical" s.dom).1 (some (vx + NODE_WIDTH / 2)) (ensureBar c.parentBar "vertical" s.dom).2.2))) (ensureBar c.parentBar "vertical" s.dom).1
            (fun x => x.left = some (vx + NODE_WIDTH / 2) ∧
              x.top = some (vy - NODE_MARGIN_Y / 2) ∧ x.parent = some container) :=
          ElemIs_barWrites he0
        have t1 := ElemIs_agree (hP_bar _ _ _) (A2 (ensureBar c.parentBar "vertical" s.dom).1
          (by rw [hD1len]; exact hflt)
          (by rw [wIds_setParentBar, grw_wIds_pack.1]; exact hr1nw)) base
        exact ElemIs_agree (hP_bar _ _ _) (B2 (ensureBar c.parentBar "vertical" s.dom).1 hEB1S2 hr1nwr) t1
      · refine Drawn_agree_pack.1 _ container (vx, vy) _ _ ?_ A7
        intro j hj
        obtain ⟨hor, hub⟩ := A3 j hj
        apply B2 j hub
        rcases hor with h | h
        · rcases hmsub j h with h2 | h2
          · rw [h2]
            exact hr1nwr
          · exact fun hmem => hdisj h2 (wIds_subset_pack.2 rest _ hmem)
        · intro hmem
          have h1 := hrgr _ (wIds_subset_pack.2 rest _ hmem)
          have h2 : (appendIfAbsent container (ensureBar c.parentBar "vertical" s.dom).1 (setTop (ensureBar c.parentBar "vertical" s.dom).1 (some (vy - NODE_MARGIN_Y / 2)) (setLeft (ensureBar c.parentBar "vertical" s.dom).1 (some (vx + NODE_WIDTH / 2)) (ensureBar c.parentBar "vertical" s.dom).2.2))).elems.length ≤ j := h
          omega
      · rw [hhead]
        exact B6

theorem children_setChildren_setRW (n : DNode) (cs' : List DNode) (w : Int) :
    ((n.setChildren cs').setRW w).children = cs' := by
  cases n
  simp

theorem idsOf_setBars_setChildren (x : DNode) (a b' : Option Nat) (cs' : List DNode) :
    idsOf (((x.setChildBar a).setHorizontalBar b').setChildren cs') =
      x.representation :: ([a, b', x.parentBar].filterMap id ++ idsOfList cs') := by
  cases x
  simp

theorem depthD_setBars_setChildren (x : DNode) (a b' : Option Nat) (cs' : List DNode) :
    depthD (((x.setChildBar a).setHorizontalBar b').setChildren cs') = 1 + depthList cs' := by
  cases x
  simp

theorem tw_children_map {α : Type} (g : DNode → α) (hg : ∀ y, g (getRequiredWidth y).2 = g y)
    (b : BTree) (p : List Nat) (ncs : List BTree) (c0 : DNode) (rest : List DNode) (rw : Int)
    (rep : Nat) (exp : Bool) (cb hb pb lc : Option Nat) (lv : Option (Int × Int)) :
    ((getRequiredWidth (DNode.mk b p ncs
        (((getRequiredWidth c0).2 :: rest).set (((getRequiredWidth c0).2 :: rest).length - 1)
          (getRequiredWidth (lastD ((getRequiredWidth c0).2 :: rest) (getRequiredWidth c0).2)).2)
        rw rep exp cb hb pb lc lv)).2).children.map g = (c0 :: rest).map g := by
  have hch1 : ((getRequiredWidth c0).2 :: rest).map g = (c0 :: rest).map g := by
    simp only [List.map_cons, hg c0]
  have hch2 := map_set_last_grw g hg ((getRequiredWidth c0).2 :: rest) (getRequiredWidth c0).2
    (by simp)
  by_cases hrw : rw = (-1 : Int)
  · subst hrw
    rw [getRequiredWidth_snd_dirty (by simp)]
    rw [children_setChildren_setRW, DNode.children_mk, getRequiredWidthList_snd_map,
      List.map_map]
    simp only [Function.comp_def]
    rw [List.map_congr_left (fun x _ => hg x)]
    rw [hch2, hch1]
  · rw [getRequiredWidth_clean (by simp [hrw])]
    rw [show ((rw, DNode.mk b p ncs
        (((getRequiredWidth c0).2 :: rest).set (((getRequiredWidth c0).2 :: rest).length - 1)
          (getRequiredWidth (lastD ((getRequiredWidth c0).2 :: rest) (getRequiredWidth c0).2)).2)
        rw rep exp cb hb pb lc lv) : Int × DNode).2.children =
      ((getRequiredWidth c0).2 :: rest).set (((getRequiredWidth c0).2 :: rest).length - 1)
        (getRequiredWidth (lastD ((getRequiredWidth c0).2 :: rest)
          (getRequiredWidth c0).2)).2 from rfl]
    rw [hch2, hch1]

theorem lastRW_map_eq {l l2 : List DNode}
    (h : l.map DNode.requiredWidth = l2.map (fun c => (getRequiredWidth c).1))
    (hne : l2 ≠ []) :
    lastRW l = (getRequiredWidth (l2.getLast hne)).1 := by
  have hlne : l ≠ [] := by
    intro h0
    subst h0
    rw [List.map_nil] at h
    exact hne (List.map_eq_nil_iff.mp h.symm)
  have h1 : l.getLast? = some (l.getLast hlne) := List.getLast?_eq_getLast _ hlne
  have h2 : (l.map DNode.requiredWidth).getLast? = some ((l.getLast hlne).requiredWidth) := by
    rw [List.getLast?_map, h1]
    rfl
  have h3 : (l2.map (fun c => (getRequiredWidth c).1)).getLast? =
      some ((getRequiredWidth (l2.getLast hne)).1) := by
    rw [List.getLast?_map, List.getLast?_eq_getLast _ hne]
    rfl
  rw [h] at h2
  rw [h2] at h3
  rw [lastRW_eq h1]
  exact Option.some.inj h3

theorem setBars_setChildren_as_mk (x : DNode) (a b' : Option Nat) (cs' : List DNode) :
    ((x.setChildBar a).setHorizontalBar b').setChildren cs' =
      DNode.mk x.innerNode x.path x.nodeChildren cs' x.requiredWidth x.representation
        x.isExpanded a b' x.parentBar x.lastContainer x.lastViewport := by
  cases x
  simp

theorem draw_pack : ∀ (fuel : Nat) (n : DNode) (container : Nat) (vp : Int × Int) (s : TState),
    (idsOf n).Nodup → (∀ i ∈ idsOf n, i < s.dom.elems.length) → container ∉ idsOf n →
    container < s.dom.elems.length → depthD n ≤ fuel →
    s.dom.elems.length ≤ (draw fuel n container vp s).2.2.dom.elems.length ∧
    (∀ j, j < s.dom.elems.length → j ∉ wIds n →
      elemAgree s.dom (draw fuel n container vp s).2.2.dom j) ∧
    (∀ j ∈ idsOf (draw fuel n container vp s).1,
      (j ∈ idsOf n ∨ s.dom.elems.length ≤ j) ∧
      j < (draw fuel n container vp s).2.2.dom.elems.length) ∧
    depthD (draw fuel n container vp s).1 = depthD n ∧
    Drawn (draw fuel n container vp s).1 container vp (draw fuel n container vp s).2.2.dom := by
  intro fuel
  induction fuel with
  | zero =>
    intro n container vp s _ _ _ _ hdep
    have := depthD_pos n
    omega
  | succ f ih =>
    intro n container vp s hnd hrg hct hcl hdep
    cases n with
    | mk b p ncs cs rw rep exp cb hb pb lc lv =>
      have hreplt : rep < s.dom.elems.length := hrg rep mem_idsOf_rep
      obtain ⟨e0, he0⟩ := elemAt?_exists hreplt
      cases cs with
      | nil =>
        simp only [draw]
        have hD2len : ((appendIfAbsent container rep (setTop rep (some vp.2) (setLeft rep (some vp.1) (setClassName rep (String.append "node" (if exp then "" else " collapsed")) s.dom))))).elems.length = s.dom.elems.length := by
          rw [length_appendIfAbsent]
          simp [setTop, setLeft, setClassName]
        refine ⟨?_, ?_, ?_, rfl, ?_⟩
        · show s.dom.elems.length ≤ ((appendIfAbsent container rep (setTop rep (some vp.2) (setLeft rep (some vp.1) (setClassName rep (String.append "node" (if exp then "" else " collapsed")) s.dom))))).elems.length
          rw [hD2len]
        · intro j hj hw
          simp only [wIds_mk, wIdsList_nil, List.append_nil, List.mem_cons] at hw
          push_neg at hw
          exact elemAgree_repWrites hw.1
        · intro j hj
          refine ⟨Or.inl hj, ?_⟩
          show j < ((appendIfAbsent container rep (setTop rep (some vp.2) (setLeft rep (some vp.1) (setClassName rep (String.append "node" (if exp then "" else " collapsed")) s.dom))))).elems.length
          rw [hD2len]
          exact hrg j hj
        · rw [Drawn_nil]
          exact ⟨rfl, rfl, ElemIs_repWrites he0⟩
      | cons c0 rest =>
        have hndx := hnd
        simp only [idsOf_mk] at hndx
        have hrepnotin : rep ∉ ([cb, hb, pb].filterMap id) ++ idsOfList (c0 :: rest) :=
          (List.nodup_cons.mp hndx).1
        have hndtail : (([cb, hb, pb].filterMap id) ++ idsOfList (c0 :: rest)).Nodup :=
          (List.nodup_cons.mp hndx).2
        have hndkids : (idsOfList (c0 :: rest)).Nodup := hndtail.of_append_right
        have hfmnd : ([cb, hb, pb].filterMap id).Nodup := hndtail.of_append_left
        have hfmdisj : List.Disjoint ([cb, hb, pb].filterMap id) (idsOfList (c0 :: rest)) :=
          List.disjoint_of_nodup_append hndtail
        have hrgkids : ∀ i ∈ idsOfList (c0 :: rest), i < s.dom.elems.length :=
          fun i hi => hrg i (mem_idsOf_kids hi)
        have hctkids : container ∉ idsOfList (c0 :: rest) :=
          fun hin => hct (mem_idsOf_kids hin)
        simp only [draw]
        have hD2len : ((appendIfAbsent container rep (setTop rep (some vp.2) (setLeft rep (some vp.1) (setClassName rep (String.append "node" (if exp then "" else " collapsed")) s.dom))))).elems.length = s.dom.elems.length := by
          rw [length_appendIfAbsent]
          simp [setTop, setLeft, setClassName]
        have hsD2 : s.dom.elems.length ≤ ((appendIfAbsent container rep (setTop rep (some vp.2) (setLeft rep (some vp.1) (setClassName rep (String.append "node" (if exp then "" else " collapsed")) s.dom))))).elems.length := le_of_eq hD2len.symm
        obtain ⟨c21, c2g, c2ub, c2ag, ⟨e2, he2⟩, c2char, c2lt⟩ :=
          ensureBar_facts cb "vertical" ((appendIfAbsent container rep (setTop rep (some vp.2) (setLeft rep (some vp.1) (setClassName rep (String.append "node" (if exp then "" else " collapsed")) s.dom))))) (fun i hi => by
            rw [hD2len]
            exact hrg i (mem_idsOf_cb hi))
        have hsEB2 : s.dom.elems.length ≤ (ensureBar cb "vertical" (appendIfAbsent container rep (setTop rep (some vp.2) (setLeft rep (some vp.1) (setClassName rep (String.append "node" (if exp then "" else " collapsed")) s.dom))))).2.2.elems.length := le_trans hsD2 c2g
        have hD3len : ((appendIfAbsent container (ensureBar cb "vertical" (appendIfAbsent container rep (setTop rep (some vp.2) (setLeft rep (some vp.1) (setClassName rep (String.append "node" (if exp then "" else " collapsed")) s.dom))))).1 (setTop (ensureBar cb "vertical" (appendIfAbsent container rep (setTop rep (some vp.2) (setLeft rep (some vp.1) (setClassName rep (String.append "node" (if exp then "" else " collapsed")) s.dom))))).1 (some (vp.2 + NODE_HEIGHT)) (setLeft (ensureBar cb "vertical" (appendIfAbsent container rep (setTop rep (some vp.2) (setLeft rep (some vp.1) (setClassName rep (String.append "node" (if exp then "" else " collapsed")) s.dom))))).1 (some (vp.1 + NODE_WIDTH / 2)) (ensureBar cb "vertical" (appendIfAbsent container rep (setTop rep (some vp.2) (setLeft rep (some vp.1) (setClassName rep (String.append "node" (if exp then "" else " collapsed")) s.dom))))).2.2)))).elems.length = (ensureBar cb "vertical" (appendIfAbsent container rep (setTop rep (some vp.2) (setLeft rep (some vp.1) (setClassName rep (String.append "node" (if exp then "" else " collapsed")) s.dom))))).2.2.elems.length := by
          rw [length_appendIfAbsent]
          simp [setTop, setLeft]
        have hsD3 : s.dom.elems.length ≤ ((appendIfAbsent container (ensureBar cb "vertical" (appendIfAbsent container rep (setTop rep (some vp.2) (setLeft rep (some vp.1) (setClassName rep (String.append "node" (if exp then "" else " collapsed")) s.dom))))).1 (setTop (ensureBar cb "vertical" (appendIfAbsent container rep (setTop rep (some vp.2) (setLeft rep (some vp.1) (setClassName rep (String.append "node" (if exp then "" else " collapsed")) s.dom))))).1 (some (vp.2 + NODE_HEIGHT)) (setLeft (ensureBar cb "vertical" (appendIfAbsent container rep (setTop rep (some vp.2) (setLeft rep (some vp.1) (setClassName rep (String.append "node" (if exp then "" else " collapsed")) s.dom))))).1 (some (vp.1 + NODE_WIDTH / 2)) (ensureBar cb "vertical" (appendIfAbsent container rep (setTop rep (some vp.2) (setLeft rep (some vp.1) (setClassName rep (String.append "node" (if exp then "" else " collapsed")) s.dom))))).2.2)))).elems.length := by
          rw [hD3len]
          exact hsEB2
        obtain ⟨c31, c3g, c3ub, c3ag, ⟨e3, he3⟩, c3char, c3lt⟩ :=
          ensureBar_facts hb "horizontal" ((appendIfAbsent container (ensureBar cb "vertical" (appendIfAbsent container rep (setTop rep (some vp.2) (setLeft rep (some vp.1) (setClassName rep (String.append "node" (if exp then "" else " collapsed")) s.dom))))).1 (setTop (ensureBar cb "vertical" (appendIfAbsent container rep (setTop rep (some vp.2) (setLeft rep (some vp.1) (setClassName rep (String.append "node" (if exp then "" else " collapsed")) s.dom))))).1 (some (vp.2 + NODE_HEIGHT)) (setLeft (ensureBar cb "vertical" (appendIfAbsent container rep (setTop rep (some vp.2) (setLeft rep (some vp.1) (setClassName rep (String.append "node" (if exp then "" else " collapsed")) s.dom))))).1 (some (vp.1 + NODE_WIDTH / 2)) (ensureBar cb "vertical" (appendIfAbsent container rep (setTop rep (some vp.2) (setLeft rep (some vp.1) (setClassName rep (String.append "node" (if exp then "" else " collapsed")) s.dom))))).2.2)))) (fun i hi =>
            lt_of_lt_of_le (hrg i (mem_idsOf_hb hi)) hsD3)
        have hsEB3 : s.dom.elems.length ≤ (ensureBar hb "horizontal" (appendIfAbsent container (ensureBar cb "vertical" (appendIfAbsent container rep (setTop rep (some vp.2) (setLeft rep (some vp.1) (setClassName rep (String.append "node" (if exp then "" else " collapsed")) s.dom))))).1 (setTop (ensureBar cb "vertical" (appendIfAbsent container rep (setTop rep (some vp.2) (setLeft rep (some vp.1) (setClassName rep (String.append "node" (if exp then "" else " collapsed")) s.dom))))).1 (some (vp.2 + NODE_HEIGHT)) (setLeft (ensureBar cb "vertical" (appendIfAbsent container rep (setTop rep (some vp.2) (setLeft rep (some vp.1) (setClassName rep (String.append "node" (if exp then "" else " collapsed")) s.dom))))).1 (some (vp.1 + NODE_WIDTH / 2)) (ensureBar cb "vertical" (appendIfAbsent container rep (setTop rep (some vp.2) (setLeft rep (some vp.1) (setClassName rep (String.append "node" (if exp then "" else " collapsed")) s.dom))))).2.2)))).2.2.elems.length := le_trans hsD3 c3g
        have hD4len : ((appendIfAbsent container (ensureBar hb "horizontal" (appendIfAbsent container (ensureBar cb "vertical" (appendIfAbsent container rep (setTop rep (some vp.2) (setLeft rep (some vp.1) (setClassName rep (String.append "node" (if exp then "" else " collapsed")) s.dom))))).1 (setTop (ensureBar cb "vertical" (appendIfAbsent container rep (setTop rep (some vp.2) (setLeft rep (some vp.1) (setClassName rep (String.append "node" (if exp then "" else " collapsed")) s.dom))))).1 (some (vp.2 + NODE_HEIGHT)) (setLeft (ensureBar cb "vertical" (appendIfAbsent container rep (setTop rep (some vp.2) (setLeft rep (some vp.1) (setClassName rep (String.append "node" (if exp then "" else " collapsed")) s.dom))))).1 (some (vp.1 + NODE_WIDTH / 2)) (ensureBar cb "vertical" (appendIfAbsent container rep (setTop rep (some vp.2) (setLeft rep (some vp.1) (setClassName rep (String.append "node" (if exp then "" else " collapsed")) s.dom))))).2.2)))).1 (setTop (ensureBar hb "horizontal" (appendIfAbsent container (ensureBar cb "vertical" (appendIfAbsent container rep (setTop rep (some vp.2) (setLeft rep (some vp.1) (setClassName rep (String.append "node" (if exp then "" else " collapsed")) s.dom))))).1 (setTop (ensureBar cb "vertical" (appendIfAbsent container rep (setTop rep (some vp.2) (setLeft rep (some vp.1) (setClassName rep (String.append "node" (if exp then "" else " collapsed")) s.dom))))).1 (some (vp.2 + NODE_HEIGHT)) (setLeft (ensureBar cb "vertical" (appendIfAbsent container rep (setTop rep (some vp.2) (setLeft rep (some vp.1) (setClassName rep (String.append "node" (if exp then "" else " collapsed")) s.dom))))).1 (some (vp.1 + NODE_WIDTH / 2)) (ensureBar cb "vertical" (appendIfAbsent container rep (setTop rep (some vp.2) (setLeft rep (some vp.1) (setClassName rep (String.append "node" (if exp then "" else " collapsed")) s.dom))))).2.2)))).1 (some (vp.2 + NODE_HEIGHT + NODE_MARGIN_Y / 2)) (setLeft (ensureBar hb "horizontal" (appendIfAbsent container (ensureBar cb "vertical" (appendIfAbsent container rep (setTop rep (some vp.2) (setLeft rep (some vp.1) (setClassName rep (String.append "node" (if exp then "" else " collapsed")) s.dom))))).1 (setTop (ensureBar cb "vertical" (appendIfAbsent container rep (setTop rep (some vp.2) (setLeft rep (some vp.1) (setClassName rep (String.append "node" (if exp then "" else " collapsed")) s.dom))))).1 (some (vp.2 + NODE_HEIGHT)) (setLeft (ensureBar cb "vertical" (appendIfAbsent container rep (setTop rep (some vp.2) (setLeft rep (some vp.1) (setClassName rep (String.append "node" (if exp then "" else " collapsed")) s.dom))))).1 (some (vp.1 + NODE_WIDTH / 2)) (ensureBar cb "vertical" (appendIfAbsent container rep (setTop rep (some vp.2) (setLeft rep (some vp.1) (setClassName rep (String.append "node" (if exp then "" else " collapsed")) s.dom))))).2.2)))).1 (some (vp.1 + NODE_WIDTH / 2)) (setWidth (ensureBar hb "horizontal" (appendIfAbsent container (ensureBar cb "vertical" (appendIfAbsent container rep (setTop rep (some vp.2) (setLeft rep (some vp.1) (setClassName rep (String.append "node" (if exp then "" else " collapsed")) s.dom))))).1 (setTop (ensureBar cb "vertical" (appendIfAbsent container rep (setTop rep (some vp.2) (setLeft rep (some vp.1) (setClassName rep (String.append "node" (if exp then "" else " collapsed")) s.dom))))).1 (some (vp.2 + NODE_HEIGHT)) (setLeft (ensureBar cb "vertical" (appendIfAbsent container rep (setTop rep (some vp.2) (setLeft rep (some vp.1) (setClassName rep (String.append "node" (if exp then "" else " collapsed")) s.dom))))).1 (some (vp.1 + NODE_WIDTH / 2)) (ensureBar cb "vertical" (appendIfAbsent container rep (setTop rep (some vp.2) (setLeft rep (some vp.1) (setClassName rep (String.append "node" (if exp then "" else " collapsed")) s.dom))))).2.2)))).1 (some ((getRequiredWidth (DNode.mk b p ncs (((getRequiredWidth c0).2 :: rest).set (((getRequiredWidth c0).2 :: rest).length - 1) (getRequiredWidth (lastD ((getRequiredWidth c0).2 :: rest) (getRequiredWidth c0).2)).2) rw rep exp cb hb pb (some container) (some vp))).1 - (getRequiredWidth (lastD ((getRequiredWidth c0).2 :: rest) (getRequiredWidth c0).2)).1)) (ensureBar hb "horizontal" (appendIfAbsent container (ensureBar cb "vertical" (appendIfAbsent container rep (setTop rep (some vp.2) (setLeft rep (some vp.1) (setClassName rep (String.append "node" (if exp then "" else " collapsed")) s.dom))))).1 (setTop (ensureBar cb "vertical" (appendIfAbsent container rep (setTop rep (some vp.2) (setLeft rep (some vp.1) (setClassName rep (String.append "node" (if exp then "" else " collapsed")) s.dom))))).1 (some (vp.2 + NODE_HEIGHT)) (setLeft (ensureBar cb "vertical" (appendIfAbsent container rep (setTop rep (some vp.2) (setLeft rep (some vp.1) (setClassName rep (String.append "node" (if exp then "" else " collapsed")) s.dom))))).1 (some (vp.1 + NODE_WIDTH / 2)) (ensureBar cb "vertical" (appendIfAbsent container rep (setTop rep (some vp.2) (setLeft rep (some vp.1) (setClassName rep (String.append "node" (if exp then "" else " collapsed")) s.dom))))).2.2)))).2.2))))).elems.length = (ensureBar hb "horizontal" (appendIfAbsent container (ensureBar cb "vertical" (appendIfAbsent container rep (setTop rep (some vp.2) (setLeft rep (some vp.1) (setClassName rep (String.append "node" (if exp then "" else " collapsed")) s.dom))))).1 (setTop (ensureBar cb "vertical" (appendIfAbsent container rep (setTop rep (some vp.2) (setLeft rep (some vp.1) (setClassName rep (String.append "node" (if exp then "" else " collapsed")) s.dom))))).1 (some (vp.2 + NODE_HEIGHT)) (setLeft (ensureBar cb "vertical" (appendIfAbsent container rep (setTop rep (some vp.2) (setLeft rep (some vp.1) (setClassName rep (String.append "node" (if exp then "" else " collapsed")) s.dom))))).1 (some (vp.1 + NODE_WIDTH / 2)) (ensureBar cb "vertical" (appendIfAbsent container rep (setTop rep (some vp.2) (setLeft rep (some vp.1) (setClassName rep (String.append "node" (if exp then "" else " collapsed")) s.dom))))).2.2)))).2.2.elems.length := by
          rw [length_appendIfAbsent]
          simp [setTop, setLeft, setWidth]
        have hsD4 : s.dom.elems.length ≤ ((appendIfAbsent container (ensureBar hb "horizontal" (appendIfAbsent container (ensureBar cb "vertical" (appendIfAbsent container rep (setTop rep (some vp.2) (setLeft rep (some vp.1) (setClassName rep (String.append "node" (if exp then "" else " collapsed")) s.dom))))).1 (setTop (ensureBar cb "vertical" (appendIfAbsent container rep (setTop rep (some vp.2) (setLeft rep (some vp.1) (setClassName rep (String.append "node" (if exp then "" else " collapsed")) s.dom))))).1 (some (vp.2 + NODE_HEIGHT)) (setLeft (ensureBar cb "vertical" (appendIfAbsent container rep (setTop rep (some vp.2) (setLeft rep (some vp.1) (setClassName rep (String.append "node" (if exp then "" else " collapsed")) s.dom))))).1 (some (vp.1 + NODE_WIDTH / 2)) (ensureBar cb "vertical" (appendIfAbsent container rep (setTop rep (some vp.2) (setLeft rep (some vp.1) (setClassName rep (String.append "node" (if exp then "" else " collapsed")) s.dom))))).2.2)))).1 (setTop (ensureBar hb "horizontal" (appendIfAbsent container (ensureBar cb "vertical" (appendIfAbsent container rep (setTop rep (some vp.2) (setLeft rep (some vp.1) (setClassName rep (String.append "node" (if exp then "" else " collapsed")) s.dom))))).1 (setTop (ensureBar cb "vertical" (appendIfAbsent container rep (setTop rep (some vp.2) (setLeft rep (some vp.1) (setClassName rep (String.append "node" (if exp then "" else " collapsed")) s.dom))))).1 (some (vp.2 + NODE_HEIGHT)) (setLeft (ensureBar cb "vertical" (appendIfAbsent container rep (setTop rep (some vp.2) (setLeft rep (some vp.1) (setClassName rep (String.append "node" (if exp then "" else " collapsed")) s.dom))))).1 (some (vp.1 + NODE_WIDTH / 2)) (ensureBar cb "vertical" (appendIfAbsent container rep (setTop rep (some vp.2) (setLeft rep (some vp.1) (setClassName rep (String.append "node" (if exp then "" else " collapsed")) s.dom))))).2.2)))).1 (some (vp.2 + NODE_HEIGHT + NODE_MARGIN_Y / 2)) (setLeft (ensureBar hb "horizontal" (appendIfAbsent container (ensureBar cb "vertical" (appendIfAbsent container rep (setTop rep (some vp.2) (setLeft rep (some vp.1) (setClassName rep (String.append "node" (if exp then "" else " collapsed")) s.dom))))).1 (setTop (ensureBar cb "vertical" (appendIfAbsent container rep (setTop rep (some vp.2) (setLeft rep (some vp.1) (setClassName rep (String.append "node" (if exp then "" else " collapsed")) s.dom))))).1 (some (vp.2 + NODE_HEIGHT)) (setLeft (ensureBar cb "vertical" (appendIfAbsent container rep (setTop rep (some vp.2) (setLeft rep (some vp.1) (setClassName rep (String.append "node" (if exp then "" else " collapsed")) s.dom))))).1 (some (vp.1 + NODE_WIDTH / 2)) (ensureBar cb "vertical" (appendIfAbsent container rep (setTop rep (some vp.2) (setLeft rep (some vp.1) (setClassName rep (String.append "node" (if exp then "" else " collapsed")) s.dom))))).2.2)))).1 (some (vp.1 + NODE_WIDTH / 2)) (setWidth (ensureBar hb "horizontal" (appendIfAbsent container (ensureBar cb "vertical" (appendIfAbsent container rep (setTop rep (some vp.2) (setLeft rep (some vp.1) (setClassName rep (String.append "node" (if exp then "" else " collapsed")) s.dom))))).1 (setTop (ensureBar cb "vertical" (appendIfAbsent container rep (setTop rep (some vp.2) (setLeft rep (some vp.1) (setClassName rep (String.append "node" (if exp then "" else " collapsed")) s.dom))))).1 (some (vp.2 + NODE_HEIGHT)) (setLeft (ensureBar cb "vertical" (appendIfAbsent container rep (setTop rep (some vp.2) (setLeft rep (some vp.1) (setClassName rep (String.append "node" (if exp then "" else " collapsed")) s.dom))))).1 (some (vp.1 + NODE_WIDTH / 2)) (ensureBar cb "vertical" (appendIfAbsent container rep (setTop rep (some vp.2) (setLeft rep (some vp.1) (setClassName rep (String.append "node" (if exp then "" else " collapsed")) s.dom))))).2.2)))).1 (some ((getRequiredWidth (DNode.mk b p ncs (((getRequiredWidth c0).2 :: rest).set (((getRequiredWidth c0).2 :: rest).length - 1) (getRequiredWidth (lastD ((getRequiredWidth c0).2 :: rest) (getRequiredWidth c0).2)).2) rw rep exp cb hb pb (some container) (some vp))).1 - (getRequiredWidth (lastD ((getRequiredWidth c0).2 :: rest) (getRequiredWidth c0).2)).1)) (ensureBar hb "horizontal" (appendIfAbsent container (ensureBar cb "vertical" (appendIfAbsent container rep (setTop rep (some vp.2) (setLeft rep (some vp.1) (setClassName rep (String.append "node" (if exp then "" else " collapsed")) s.dom))))).1 (setTop (ensureBar cb "vertical" (appendIfAbsent container rep (setTop rep (some vp.2) (setLeft rep (some vp.1) (setClassName rep (String.append "node" (if exp then "" else " collapsed")) s.dom))))).1 (some (vp.2 + NODE_HEIGHT)) (setLeft (ensureBar cb "vertical" (appendIfAbsent container rep (setTop rep (some vp.2) (setLeft rep (some vp.1) (setClassName rep (String.append "node" (if exp then "" else " collapsed")) s.dom))))).1 (some (vp.1 + NODE_WIDTH / 2)) (ensureBar cb "vertical" (appendIfAbsent container rep (setTop rep (some vp.2) (setLeft rep (some vp.1) (setClassName rep (String.append "node" (if exp then "" else " collapsed")) s.dom))))).2.2)))).2.2))))).elems.length := by
          rw [hD4len]
          exact hsEB3
        have F1m : ((getRequiredWidth (DNode.mk b p ncs (((getRequiredWidth c0).2 :: rest).set (((getRequiredWidth c0).2 :: rest).length - 1) (getRequiredWidth (lastD ((getRequiredWidth c0).2 :: rest) (getRequiredWidth c0).2)).2) rw rep exp cb hb pb (some container) (some vp)))).2.children.map idsOf = (c0 :: rest).map idsOf :=
          tw_children_map idsOf (fun y => (grw_shape_pack.1 y).1) b p ncs c0 rest rw rep exp
            cb hb pb (some container) (some vp)
        have F1 : idsOfList (((getRequiredWidth (DNode.mk b p ncs (((getRequiredWidth c0).2 :: rest).set (((getRequiredWidth c0).2 :: rest).length - 1) (getRequiredWidth (lastD ((getRequiredWidth c0).2 :: rest) (getRequiredWidth c0).2)).2) rw rep exp cb hb pb (some container) (some vp)))).2.children) = idsOfList (c0 :: rest) :=
          idsOfList_eq_of_map F1m
        have F2m : ((getRequiredWidth (DNode.mk b p ncs (((getRequiredWidth c0).2 :: rest).set (((getRequiredWidth c0).2 :: rest).length - 1) (getRequiredWidth (lastD ((getRequiredWidth c0).2 :: rest) (getRequiredWidth c0).2)).2) rw rep exp cb hb pb (some container) (some vp)))).2.children.map depthD = (c0 :: rest).map depthD :=
          tw_children_map depthD (fun y => (grw_shape_pack.1 y).2) b p ncs c0 rest rw rep exp
            cb hb pb (some container) (some vp)
        have F2 : depthList (((getRequiredWidth (DNode.mk b p ncs (((getRequiredWidth c0).2 :: rest).set (((getRequiredWidth c0).2 :: rest).length - 1) (getRequiredWidth (lastD ((getRequiredWidth c0).2 :: rest) (getRequiredWidth c0).2)).2) rw rep exp cb hb pb (some container) (some vp)))).2.children) = depthList (c0 :: rest) :=
          depthList_eq_of_map F2m
        have F3m : ((getRequiredWidth (DNode.mk b p ncs (((getRequiredWidth c0).2 :: rest).set (((getRequiredWidth c0).2 :: rest).length - 1) (getRequiredWidth (lastD ((getRequiredWidth c0).2 :: rest) (getRequiredWidth c0).2)).2) rw rep exp cb hb pb (some container) (some vp)))).2.children.map (fun c => ([c.parentBar].filterMap id) ++ wIds c) =
            (c0 :: rest).map (fun c => ([c.parentBar].filterMap id) ++ wIds c) :=
          tw_children_map _ (fun y => by
            rw [(getRequiredWidth_snd_fields y).2.2.2.2.2.2.2.1, grw_wIds_pack.1]) b p ncs c0
            rest rw rep exp cb hb pb (some container) (some vp)
        have F3 : wIdsList (((getRequiredWidth (DNode.mk b p ncs (((getRequiredWidth c0).2 :: rest).set (((getRequiredWidth c0).2 :: rest).length - 1) (getRequiredWidth (lastD ((getRequiredWidth c0).2 :: rest) (getRequiredWidth c0).2)).2) rw rep exp cb hb pb (some container) (some vp)))).2.children) = wIdsList (c0 :: rest) :=
          wIdsList_eq_of_map F3m
        have F4m : ((getRequiredWidth (DNode.mk b p ncs (((getRequiredWidth c0).2 :: rest).set (((getRequiredWidth c0).2 :: rest).length - 1) (getRequiredWidth (lastD ((getRequiredWidth c0).2 :: rest) (getRequiredWidth c0).2)).2) rw rep exp cb hb pb (some container) (some vp)))).2.children.map (fun c => (getRequiredWidth c).1) =
            (c0 :: rest).map (fun c => (getRequiredWidth c).1) :=
          tw_children_map _ (fun y => by rw [getRequiredWidth_idem]) b p ncs c0 rest rw rep
            exp cb hb pb (some container) (some vp)
        have F5 : ((getRequiredWidth (DNode.mk b p ncs (((getRequiredWidth c0).2 :: rest).set (((getRequiredWidth c0).2 :: rest).length - 1) (getRequiredWidth (lastD ((getRequiredWidth c0).2 :: rest) (getRequiredWidth c0).2)).2) rw rep exp cb hb pb (some container) (some vp)))).2.children.length = rest.length + 1 := by
          have := congrArg List.length F2m
          simpa using this
        have hKnd : (idsOfList (((getRequiredWidth (DNode.mk b p ncs (((getRequiredWidth c0).2 :: rest).set (((getRequiredWidth c0).2 :: rest).length - 1) (getRequiredWidth (lastD ((getRequiredWidth c0).2 :: rest) (getRequiredWidth c0).2)).2) rw rep exp cb hb pb (some container) (some vp)))).2.children)).Nodup := by
          rw [F1]
          exact hndkids
        have hKrg : ∀ i ∈ idsOfList (((getRequiredWidth (DNode.mk b p ncs (((getRequiredWidth c0).2 :: rest).set (((getRequiredWidth c0).2 :: rest).length - 1) (getRequiredWidth (lastD ((getRequiredWidth c0).2 :: rest) (getRequiredWidth c0).2)).2) rw rep exp cb hb pb (some container) (some vp)))).2.children), i < ((appendIfAbsent container (ensureBar hb "horizontal" (appendIfAbsent container (ensureBar cb "vertical" (appendIfAbsent container rep (setTop rep (some vp.2) (setLeft rep (some vp.1) (setClassName rep (String.append "node" (if exp then "" else " collapsed")) s.dom))))).1 (setTop (ensureBar cb "vertical" (appendIfAbsent container rep (setTop rep (some vp.2) (setLeft rep (some vp.1) (setClassName rep (String.append "node" (if exp then "" else " collapsed")) s.dom))))).1 (some (vp.2 + NODE_HEIGHT)) (setLeft (ensureBar cb "vertical" (appendIfAbsent container rep (setTop rep (some vp.2) (setLeft rep (some vp.1) (setClassName rep (String.append "node" (if exp then "" else " collapsed")) s.dom))))).1 (some (vp.1 + NODE_WIDTH / 2)) (ensureBar cb "vertical" (appendIfAbsent container rep (setTop rep (some vp.2) (setLeft rep (some vp.1) (setClassName rep (String.append "node" (if exp then "" else " collapsed")) s.dom))))).2.2)))).1 (setTop (ensureBar hb "horizontal" (appendIfAbsent container (ensureBar cb "vertical" (appendIfAbsent container rep (setTop rep (some vp.2) (setLeft rep (some vp.1) (setClassName rep (String.append "node" (if exp then "" else " collapsed")) s.dom))))).1 (setTop (ensureBar cb "vertical" (appendIfAbsent container rep (setTop rep (some vp.2) (setLeft rep (some vp.1) (setClassName rep (String.append "node" (if exp then "" else " collapsed")) s.dom))))).1 (some (vp.2 + NODE_HEIGHT)) (setLeft (ensureBar cb "vertical" (appendIfAbsent container rep (setTop rep (some vp.2) (setLeft rep (some vp.1) (setClassName rep (String.append "node" (if exp then "" else " collapsed")) s.dom))))).1 (some (vp.1 + NODE_WIDTH / 2)) (ensureBar cb "vertical" (appendIfAbsent container rep (setTop rep (some vp.2) (setLeft rep (some vp.1) (setClassName rep (String.append "node" (if exp then "" else " collapsed")) s.dom))))).2.2)))).1 (some (vp.2 + NODE_HEIGHT + NODE_MARGIN_Y / 2)) (setLeft (ensureBar hb "horizontal" (appendIfAbsent container (ensureBar cb "vertical" (appendIfAbsent container rep (setTop rep (some vp.2) (setLeft rep (some vp.1) (setClassName rep (String.append "node" (if exp then "" else " collapsed")) s.dom))))).1 (setTop (ensureBar cb "vertical" (appendIfAbsent container rep (setTop rep (some vp.2) (setLeft rep (some vp.1) (setClassName rep (String.append "node" (if exp then "" else " collapsed")) s.dom))))).1 (some (vp.2 + NODE_HEIGHT)) (setLeft (ensureBar cb "vertical" (appendIfAbsent container rep (setTop rep (some vp.2) (setLeft rep (some vp.1) (setClassName rep (String.append "node" (if exp then "" else " collapsed")) s.dom))))).1 (some (vp.1 + NODE_WIDTH / 2)) (ensureBar cb "vertical" (appendIfAbsent container rep (setTop rep (some vp.2) (setLeft rep (some vp.1) (setClassName rep (String.append "node" (if exp then "" else " collapsed")) s.dom))))).2.2)))).1 (some (vp.1 + NODE_WIDTH / 2)) (setWidth (ensureBar hb "horizontal" (appendIfAbsent container (ensureBar cb "vertical" (appendIfAbsent container rep (setTop rep (some vp.2) (setLeft rep (some vp.1) (setClassName rep (String.append "node" (if exp then "" else " collapsed")) s.dom))))).1 (setTop (ensureBar cb "vertical" (appendIfAbsent container rep (setTop rep (some vp.2) (setLeft rep (some vp.1) (setClassName rep (String.append "node" (if exp then "" else " collapsed")) s.dom))))).1 (some (vp.2 + NODE_HEIGHT)) (setLeft (ensureBar cb "vertical" (appendIfAbsent container rep (setTop rep (some vp.2) (setLeft rep (some vp.1) (setClassName rep (String.append "node" (if exp then "" else " collapsed")) s.dom))))).1 (some (vp.1 + NODE_WIDTH / 2)) (ensureBar cb "vertical" (appendIfAbsent container rep (setTop rep (some vp.2) (setLeft rep (some vp.1) (setClassName rep (String.append "node" (if exp then "" else " collapsed")) s.dom))))).2.2)))).1 (some ((getRequiredWidth (DNode.mk b p ncs (((getRequiredWidth c0).2 :: rest).set (((getRequiredWidth c0).2 :: rest).length - 1) (getRequiredWidth (lastD ((getRequiredWidth c0).2 :: rest) (getRequiredWidth c0).2)).2) rw rep exp cb hb pb (some container) (some vp))).1 - (getRequiredWidth (lastD ((getRequiredWidth c0).2 :: rest) (getRequiredWidth c0).2)).1)) (ensureBar hb "horizontal" (appendIfAbsent container (ensureBar cb "vertical" (appendIfAbsent container rep (setTop rep (some vp.2) (setLeft rep (some vp.1) (setClassName rep (String.append "node" (if exp then "" else " collapsed")) s.dom))))).1 (setTop (ensureBar cb "vertical" (appendIfAbsent container rep (setTop rep (some vp.2) (setLeft rep (some vp.1) (setClassName rep (String.append "node" (if exp then "" else " collapsed")) s.dom))))).1 (some (vp.2 + NODE_HEIGHT)) (setLeft (ensureBar cb "vertical" (appendIfAbsent container rep (setTop rep (some vp.2) (setLeft rep (some vp.1) (setClassName rep (String.append "node" (if exp then "" else " collapsed")) s.dom))))).1 (some (vp.1 + NODE_WIDTH / 2)) (ensureBar cb "vertical" (appendIfAbsent container rep (setTop rep (some vp.2) (setLeft rep (some vp.1) (setClassName rep (String.append "node" (if exp then "" else " collapsed")) s.dom))))).2.2)))).2.2))))).elems.length := by
          intro i hi
          rw [F1] at hi
          exact lt_of_lt_of_le (hrgkids i hi) hsD4
        have hKct : container ∉ idsOfList (((getRequiredWidth (DNode.mk b p ncs (((getRequiredWidth c0).2 :: rest).set (((getRequiredWidth c0).2 :: rest).length - 1) (getRequiredWidth (lastD ((getRequiredWidth c0).2 :: rest) (getRequiredWidth c0).2)).2) rw rep exp cb hb pb (some container) (some vp)))).2.children) := by
          rw [F1]
          exact hctkids
        have hKcl : container < ((appendIfAbsent container (ensureBar hb "horizontal" (appendIfAbsent container (ensureBar cb "vertical" (appendIfAbsent container rep (setTop rep (some vp.2) (setLeft rep (some vp.1) (setClassName rep (String.append "node" (if exp then "" else " collapsed")) s.dom))))).1 (setTop (ensureBar cb "vertical" (appendIfAbsent container rep (setTop rep (some vp.2) (setLeft rep (some vp.1) (setClassName rep (String.append "node" (if exp then "" else " collapsed")) s.dom))))).1 (some (vp.2 + NODE_HEIGHT)) (setLeft (ensureBar cb "vertical" (appendIfAbsent container rep (setTop rep (some vp.2) (setLeft rep (some vp.1) (setClassName rep (String.append "node" (if exp then "" else " collapsed")) s.dom))))).1 (some (vp.1 + NODE_WIDTH / 2)) (ensureBar cb "vertical" (appendIfAbsent container rep (setTop rep (some vp.2) (setLeft rep (some vp.1) (setClassName rep (String.append "node" (if exp then "" else " collapsed")) s.dom))))).2.2)))).1 (setTop (ensureBar hb "horizontal" (appendIfAbsent container (ensureBar cb "vertical" (appendIfAbsent container rep (setTop rep (some vp.2) (setLeft rep (some vp.1) (setClassName rep (String.append "node" (if exp then "" else " collapsed")) s.dom))))).1 (setTop (ensureBar cb "vertical" (appendIfAbsent container rep (setTop rep (some vp.2) (setLeft rep (some vp.1) (setClassName rep (String.append "node" (if exp then "" else " collapsed")) s.dom))))).1 (some (vp.2 + NODE_HEIGHT)) (setLeft (ensureBar cb "vertical" (appendIfAbsent container rep (setTop rep (some vp.2) (setLeft rep (some vp.1) (setClassName rep (String.append "node" (if exp then "" else " collapsed")) s.dom))))).1 (some (vp.1 + NODE_WIDTH / 2)) (ensureBar cb "vertical" (appendIfAbsent container rep (setTop rep (some vp.2) (setLeft rep (some vp.1) (setClassName rep (String.append "node" (if exp then "" else " collapsed")) s.dom))))).2.2)))).1 (some (vp.2 + NODE_HEIGHT + NODE_MARGIN_Y / 2)) (setLeft (ensureBar hb "horizontal" (appendIfAbsent container (ensureBar cb "vertical" (appendIfAbsent container rep (setTop rep (some vp.2) (setLeft rep (some vp.1) (setClassName rep (String.append "node" (if exp then "" else " collapsed")) s.dom))))).1 (setTop (ensureBar cb "vertical" (appendIfAbsent container rep (setTop rep (some vp.2) (setLeft rep (some vp.1) (setClassName rep (String.append "node" (if exp then "" else " collapsed")) s.dom))))).1 (some (vp.2 + NODE_HEIGHT)) (setLeft (ensureBar cb "vertical" (appendIfAbsent container rep (setTop rep (some vp.2) (setLeft rep (some vp.1) (setClassName rep (String.append "node" (if exp then "" else " collapsed")) s.dom))))).1 (some (vp.1 + NODE_WIDTH / 2)) (ensureBar cb "vertical" (appendIfAbsent container rep (setTop rep (some vp.2) (setLeft rep (some vp.1) (setClassName rep (String.append "node" (if exp then "" else " collapsed")) s.dom))))).2.2)))).1 (some (vp.1 + NODE_WIDTH / 2)) (setWidth (ensureBar hb "horizontal" (appendIfAbsent container (ensureBar cb "vertical" (appendIfAbsent container rep (setTop rep (some vp.2) (setLeft rep (some vp.1) (setClassName rep (String.append "node" (if exp then "" else " collapsed")) s.dom))))).1 (setTop (ensureBar cb "vertical" (appendIfAbsent container rep (setTop rep (some vp.2) (setLeft rep (some vp.1) (setClassName rep (String.append "node" (if exp then "" else " collapsed")) s.dom))))).1 (some (vp.2 + NODE_HEIGHT)) (setLeft (ensureBar cb "vertical" (appendIfAbsent container rep (setTop rep (some vp.2) (setLeft rep (some vp.1) (setClassName rep (String.append "node" (if exp then "" else " collapsed")) s.dom))))).1 (some (vp.1 + NODE_WIDTH / 2)) (ensureBar cb "vertical" (appendIfAbsent container rep (setTop rep (some vp.2) (setLeft rep (some vp.1) (setClassName rep (String.append "node" (if exp then "" else " collapsed")) s.dom))))).2.2)))).1 (some ((getRequiredWidth (DNode.mk b p ncs (((getRequiredWidth c0).2 :: rest).set (((getRequiredWidth c0).2 :: rest).length - 1) (getRequiredWidth (lastD ((getRequiredWidth c0).2 :: rest) (getRequiredWidth c0).2)).2) rw rep exp cb hb pb (some container) (some vp))).1 - (getRequiredWidth (lastD ((getRequiredWidth c0).2 :: rest) (getRequiredWidth c0).2)).1)) (ensureBar hb "horizontal" (appendIfAbsent container (ensureBar cb "vertical" (appendIfAbsent container rep (setTop rep (some vp.2) (setLeft rep (some vp.1) (setClassName rep (String.append "node" (if exp then "" else " collapsed")) s.dom))))).1 (setTop (ensureBar cb "vertical" (appendIfAbsent container rep (setTop rep (some vp.2) (setLeft rep (some vp.1) (setClassName rep (String.append "node" (if exp then "" else " collapsed")) s.dom))))).1 (some (vp.2 + NODE_HEIGHT)) (setLeft (ensureBar cb "vertical" (appendIfAbsent container rep (setTop rep (some vp.2) (setLeft rep (some vp.1) (setClassName rep (String.append "node" (if exp then "" else " collapsed")) s.dom))))).1 (some (vp.1 + NODE_WIDTH / 2)) (ensureBar cb "vertical" (appendIfAbsent container rep (setTop rep (some vp.2) (setLeft rep (some vp.1) (setClassName rep (String.append "node" (if exp then "" else " collapsed")) s.dom))))).2.2)))).2.2))))).elems.length := lt_of_lt_of_le hcl hsD4
        have hKdep : depthList (((getRequiredWidth (DNode.mk b p ncs (((getRequiredWidth c0).2 :: rest).set (((getRequiredWidth c0).2 :: rest).length - 1) (getRequiredWidth (lastD ((getRequiredWidth c0).2 :: rest) (getRequiredWidth c0).2)).2) rw rep exp cb hb pb (some container) (some vp)))).2.children) ≤ f := by
          rw [F2]
          have hx : depthD (DNode.mk b p ncs (c0 :: rest) rw rep exp cb hb pb lc lv) ≤
              f + 1 := hdep
          simp only [depthD_mk] at hx
          omega
        obtain ⟨K1, K2, K3, K4, K5, K6⟩ := drawKids_pack f ih (((getRequiredWidth (DNode.mk b p ncs (((getRequiredWidth c0).2 :: rest).set (((getRequiredWidth c0).2 :: rest).length - 1) (getRequiredWidth (lastD ((getRequiredWidth c0).2 :: rest) (getRequiredWidth c0).2)).2) rw rep exp cb hb pb (some container) (some vp)))).2.children) container
          vp.1 (vp.2 + NODE_HEIGHT + NODE_MARGIN_Y) { s with dom := (appendIfAbsent container (ensureBar hb "horizontal" (appendIfAbsent container (ensureBar cb "vertical" (appendIfAbsent container rep (setTop rep (some vp.2) (setLeft rep (some vp.1) (setClassName rep (String.append "node" (if exp then "" else " collapsed")) s.dom))))).1 (setTop (ensureBar cb "vertical" (appendIfAbsent container rep (setTop rep (some vp.2) (setLeft rep (some vp.1) (setClassName rep (String.append "node" (if exp then "" else " collapsed")) s.dom))))).1 (some (vp.2 + NODE_HEIGHT)) (setLeft (ensureBar cb "vertical" (appendIfAbsent container rep (setTop rep (some vp.2) (setLeft rep (some vp.1) (setClassName rep (String.append "node" (if exp then "" else " collapsed")) s.dom))))).1 (some (vp.1 + NODE_WIDTH / 2)) (ensureBar cb "vertical" (appendIfAbsent container rep (setTop rep (some vp.2) (setLeft rep (some vp.1) (setClassName rep (String.append "node" (if exp then "" else " collapsed")) s.dom))))).2.2)))).1 (setTop (ensureBar hb "horizontal" (appendIfAbsent container (ensureBar cb "vertical" (appendIfAbsent container rep (setTop rep (some vp.2) (setLeft rep (some vp.1) (setClassName rep (String.append "node" (if exp then "" else " collapsed")) s.dom))))).1 (setTop (ensureBar cb "vertical" (appendIfAbsent container rep (setTop rep (some vp.2) (setLeft rep (some vp.1) (setClassName rep (String.append "node" (if exp then "" else " collapsed")) s.dom))))).1 (some (vp.2 + NODE_HEIGHT)) (setLeft (ensureBar cb "vertical" (appendIfAbsent container rep (setTop rep (some vp.2) (setLeft rep (some vp.1) (setClassName rep (String.append "node" (if exp then "" else " collapsed")) s.dom))))).1 (some (vp.1 + NODE_WIDTH / 2)) (ensureBar cb "vertical" (appendIfAbsent container rep (setTop rep (some vp.2) (setLeft rep (some vp.1) (setClassName rep (String.append "node" (if exp then "" else " collapsed")) s.dom))))).2.2)))).1 (some (vp.2 + NODE_HEIGHT + NODE_MARGIN_Y / 2)) (setLeft (ensureBar hb "horizontal" (appendIfAbsent container (ensureBar cb "vertical" (appendIfAbsent container rep (setTop rep (some vp.2) (setLeft rep (some vp.1) (setClassName rep (String.append "node" (if exp then "" else " collapsed")) s.dom))))).1 (setTop (ensureBar cb "vertical" (appendIfAbsent container rep (setTop rep (some vp.2) (setLeft rep (some vp.1) (setClassName rep (String.append "node" (if exp then "" else " collapsed")) s.dom))))).1 (some (vp.2 + NODE_HEIGHT)) (setLeft (ensureBar cb "vertical" (appendIfAbsent container rep (setTop rep (some vp.2) (setLeft rep (some vp.1) (setClassName rep (String.append "node" (if exp then "" else " collapsed")) s.dom))))).1 (some (vp.1 + NODE_WIDTH / 2)) (ensureBar cb "vertical" (appendIfAbsent container rep (setTop rep (some vp.2) (setLeft rep (some vp.1) (setClassName rep (String.append "node" (if exp then "" else " collapsed")) s.dom))))).2.2)))).1 (some (vp.1 + NODE_WIDTH / 2)) (setWidth (ensureBar hb "horizontal" (appendIfAbsent container (ensureBar cb "vertical" (appendIfAbsent container rep (setTop rep (some vp.2) (setLeft rep (some vp.1) (setClassName rep (String.append "node" (if exp then "" else " collapsed")) s.dom))))).1 (setTop (ensureBar cb "vertical" (appendIfAbsent container rep (setTop rep (some vp.2) (setLeft rep (some vp.1) (setClassName rep (String.append "node" (if exp then "" else " collapsed")) s.dom))))).1 (some (vp.2 + NODE_HEIGHT)) (setLeft (ensureBar cb "vertical" (appendIfAbsent container rep (setTop rep (some vp.2) (setLeft rep (some vp.1) (setClassName rep (String.append "node" (if exp then "" else " collapsed")) s.dom))))).1 (some (vp.1 + NODE_WIDTH / 2)) (ensureBar cb "vertical" (appendIfAbsent container rep (setTop rep (some vp.2) (setLeft rep (some vp.1) (setClassName rep (String.append "node" (if exp then "" else " collapsed")) s.dom))))).2.2)))).1 (some ((getRequiredWidth (DNode.mk b p ncs (((getRequiredWidth c0).2 :: rest).set (((getRequiredWidth c0).2 :: rest).length - 1) (getRequiredWidth (lastD ((getRequiredWidth c0).2 :: rest) (getRequiredWidth c0).2)).2) rw rep exp cb hb pb (some container) (some vp))).1 - (getRequiredWidth (lastD ((getRequiredWidth c0).2 :: rest) (getRequiredWidth c0).2)).1)) (ensureBar hb "horizontal" (appendIfAbsent container (ensureBar cb "vertical" (appendIfAbsent container rep (setTop rep (some vp.2) (setLeft rep (some vp.1) (setClassName rep (String.append "node" (if exp then "" else " collapsed")) s.dom))))).1 (setTop (ensureBar cb "vertical" (appendIfAbsent container rep (setTop rep (some vp.2) (setLeft rep (some vp.1) (setClassName rep (String.append "node" (if exp then "" else " collapsed")) s.dom))))).1 (some (vp.2 + NODE_HEIGHT)) (setLeft (ensureBar cb "vertical" (appendIfAbsent container rep (setTop rep (some vp.2) (setLeft rep (some vp.1) (setClassName rep (String.append "node" (if exp then "" else " collapsed")) s.dom))))).1 (some (vp.1 + NODE_WIDTH / 2)) (ensureBar cb "vertical" (appendIfAbsent container rep (setTop rep (some vp.2) (setLeft rep (some vp.1) (setClassName rep (String.append "node" (if exp then "" else " collapsed")) s.dom))))).2.2)))).2.2)))) } hKnd hKrg hKct hKcl hKdep
        have K1x : ((appendIfAbsent container (ensureBar hb "horizontal" (appendIfAbsent container (ensureBar cb "vertical" (appendIfAbsent container rep (setTop rep (some vp.2) (setLeft rep (some vp.1) (setClassName rep (String.append "node" (if exp then "" else " collapsed")) s.dom))))).1 (setTop (ensureBar cb "vertical" (appendIfAbsent container rep (setTop rep (some vp.2) (setLeft rep (some vp.1) (setClassName rep (String.append "node" (if exp then "" else " collapsed")) s.dom))))).1 (some (vp.2 + NODE_HEIGHT)) (setLeft (ensureBar cb "vertical" (appendIfAbsent container rep (setTop rep (some vp.2) (setLeft rep (some vp.1) (setClassName rep (String.append "node" (if exp then "" else " collapsed")) s.dom))))).1 (some (vp.1 + NODE_WIDTH / 2)) (ensureBar cb "vertical" (appendIfAbsent container rep (setTop rep (some vp.2) (setLeft rep (some vp.1) (setClassName rep (String.append "node" (if exp then "" else " collapsed")) s.dom))))).2.2)))).1 (setTop (ensureBar hb "horizontal" (appendIfAbsent container (ensureBar cb "vertical" (appendIfAbsent container rep (setTop rep (some vp.2) (setLeft rep (some vp.1) (setClassName rep (String.append "node" (if exp then "" else " collapsed")) s.dom))))).1 (setTop (ensureBar cb "vertical" (appendIfAbsent container rep (setTop rep (some vp.2) (setLeft rep (some vp.1) (setClassName rep (String.append "node" (if exp then "" else " collapsed")) s.dom))))).1 (some (vp.2 + NODE_HEIGHT)) (setLeft (ensureBar cb "vertical" (appendIfAbsent container rep (setTop rep (some vp.2) (setLeft rep (some vp.1) (setClassName rep (String.append "node" (if exp then "" else " collapsed")) s.dom))))).1 (some (vp.1 + NODE_WIDTH / 2)) (ensureBar cb "vertical" (appendIfAbsent container rep (setTop rep (some vp.2) (setLeft rep (some vp.1) (setClassName rep (String.append "node" (if exp then "" else " collapsed")) s.dom))))).2.2)))).1 (some (vp.2 + NODE_HEIGHT + NODE_MARGIN_Y / 2)) (setLeft (ensureBar hb "horizontal" (appendIfAbsent container (ensureBar cb "vertical" (appendIfAbsent container rep (setTop rep (some vp.2) (setLeft rep (some vp.1) (setClassName rep (String.append "node" (if exp then "" else " collapsed")) s.dom))))).1 (setTop (ensureBar cb "vertical" (appendIfAbsent container rep (setTop rep (some vp.2) (setLeft rep (some vp.1) (setClassName rep (String.append "node" (if exp then "" else " collapsed")) s.dom))))).1 (some (vp.2 + NODE_HEIGHT)) (setLeft (ensureBar cb "vertical" (appendIfAbsent container rep (setTop rep (some vp.2) (setLeft rep (some vp.1) (setClassName rep (String.append "node" (if exp then "" else " collapsed")) s.dom))))).1 (some (vp.1 + NODE_WIDTH / 2)) (ensureBar cb "vertical" (appendIfAbsent container rep (setTop rep (some vp.2) (setLeft rep (some vp.1) (setClassName rep (String.append "node" (if exp then "" else " collapsed")) s.dom))))).2.2)))).1 (some (vp.1 + NODE_WIDTH / 2)) (setWidth (ensureBar hb "horizontal" (appendIfAbsent container (ensureBar cb "vertical" (appendIfAbsent container rep (setTop rep (some vp.2) (setLeft rep (some vp.1) (setClassName rep (String.append "node" (if exp then "" else " collapsed")) s.dom))))).1 (setTop (ensureBar cb "vertical" (appendIfAbsent container rep (setTop rep (some vp.2) (setLeft rep (some vp.1) (setClassName rep (String.append "node" (if exp then "" else " collapsed")) s.dom))))).1 (some (vp.2 + NODE_HEIGHT)) (setLeft (ensureBar cb "vertical" (appendIfAbsent container rep (setTop rep (some vp.2) (setLeft rep (some vp.1) (setClassName rep (String.append "node" (if exp then "" else " collapsed")) s.dom))))).1 (some (vp.1 + NODE_WIDTH / 2)) (ensureBar cb "vertical" (appendIfAbsent container rep (setTop rep (some vp.2) (setLeft rep (some vp.1) (setClassName rep (String.append "node" (if exp then "" else " collapsed")) s.dom))))).2.2)))).1 (some ((getRequiredWidth (DNode.mk b p ncs (((getRequiredWidth c0).2 :: rest).set (((getRequiredWidth c0).2 :: rest).length - 1) (getRequiredWidth (lastD ((getRequiredWidth c0).2 :: rest) (getRequiredWidth c0).2)).2) rw rep exp cb hb pb (some container) (some vp))).1 - (getRequiredWidth (lastD ((getRequiredWidth c0).2 :: rest) (getRequiredWidth c0).2)).1)) (ensureBar hb "horizontal" (appendIfAbsent container (ensureBar cb "vertical" (appendIfAbsent container rep (setTop rep (some vp.2) (setLeft rep (some vp.1) (setClassName rep (String.append "node" (if exp then "" else " collapsed")) s.dom))))).1 (setTop (ensureBar cb "vertical" (appendIfAbsent container rep (setTop rep (some vp.2) (setLeft rep (some vp.1) (setClassName rep (String.append "node" (if exp then "" else " collapsed")) s.dom))))).1 (some (vp.2 + NODE_HEIGHT)) (setLeft (ensureBar cb "vertical" (appendIfAbsent container rep (setTop rep (some vp.2) (setLeft rep (some vp.1) (setClassName rep (String.append "node" (if exp then "" else " collapsed")) s.dom))))).1 (some (vp.1 + NODE_WIDTH / 2)) (ensureBar cb "vertical" (appendIfAbsent container rep (setTop rep (some vp.2) (setLeft rep (some vp.1) (setClassName rep (String.append "node" (if exp then "" else " collapsed")) s.dom))))).2.2)))).2.2))))).elems.length ≤ ((drawKids (fun m vv t => draw f m container vv t) container (getRequiredWidth (DNode.mk b p ncs (((getRequiredWidth c0).2 :: rest).set (((getRequiredWidth c0).2 :: rest).length - 1) (getRequiredWidth (lastD ((getRequiredWidth c0).2 :: rest) (getRequiredWidth c0).2)).2) rw rep exp cb hb pb (some container) (some vp))).2.children vp.1 (vp.2 + NODE_HEIGHT + NODE_MARGIN_Y) { s with dom := (appendIfAbsent container (ensureBar hb "horizontal" (appendIfAbsent container (ensureBar cb "vertical" (appendIfAbsent container rep (setTop rep (some vp.2) (setLeft rep (some vp.1) (setClassName rep (String.append "node" (if exp then "" else " collapsed")) s.dom))))).1 (setTop (ensureBar cb "vertical" (appendIfAbsent container rep (setTop rep (some vp.2) (setLeft rep (some vp.1) (setClassName rep (String.append "node" (if exp then "" else " collapsed")) s.dom))))).1 (some (vp.2 + NODE_HEIGHT)) (setLeft (ensureBar cb "vertical" (appendIfAbsent container rep (setTop rep (some vp.2) (setLeft rep (some vp.1) (setClassName rep (String.append "node" (if exp then "" else " collapsed")) s.dom))))).1 (some (vp.1 + NODE_WIDTH / 2)) (ensureBar cb "vertical" (appendIfAbsent container rep (setTop rep (some vp.2) (setLeft rep (some vp.1) (setClassName rep (String.append "node" (if exp then "" else " collapsed")) s.dom))))).2.2)))).1 (setTop (ensureBar hb "horizontal" (appendIfAbsent container (ensureBar cb "vertical" (appendIfAbsent container rep (setTop rep (some vp.2) (setLeft rep (some vp.1) (setClassName rep (String.append "node" (if exp then "" else " collapsed")) s.dom))))).1 (setTop (ensureBar cb "vertical" (appendIfAbsent container rep (setTop rep (some vp.2) (setLeft rep (some vp.1) (setClassName rep (String.append "node" (if exp then "" else " collapsed")) s.dom))))).1 (some (vp.2 + NODE_HEIGHT)) (setLeft (ensureBar cb "vertical" (appendIfAbsent container rep (setTop rep (some vp.2) (setLeft rep (some vp.1) (setClassName rep (String.append "node" (if exp then "" else " collapsed")) s.dom))))).1 (some (vp.1 + NODE_WIDTH / 2)) (ensureBar cb "vertical" (appendIfAbsent container rep (setTop rep (some vp.2) (setLeft rep (some vp.1) (setClassName rep (String.append "node" (if exp then "" else " collapsed")) s.dom))))).2.2)))).1 (some (vp.2 + NODE_HEIGHT + NODE_MARGIN_Y / 2)) (setLeft (ensureBar hb "horizontal" (appendIfAbsent container (ensureBar cb "vertical" (appendIfAbsent container rep (setTop rep (some vp.2) (setLeft rep (some vp.1) (setClassName rep (String.append "node" (if exp then "" else " collapsed")) s.dom))))).1 (setTop (ensureBar cb "vertical" (appendIfAbsent container rep (setTop rep (some vp.2) (setLeft rep (some vp.1) (setClassName rep (String.append "node" (if exp then "" else " collapsed")) s.dom))))).1 (some (vp.2 + NODE_HEIGHT)) (setLeft (ensureBar cb "vertical" (appendIfAbsent container rep (setTop rep (some vp.2) (setLeft rep (some vp.1) (setClassName rep (String.append "node" (if exp then "" else " collapsed")) s.dom))))).1 (some (vp.1 + NODE_WIDTH / 2)) (ensureBar cb "vertical" (appendIfAbsent container rep (setTop rep (some vp.2) (setLeft rep (some vp.1) (setClassName rep (String.append "node" (if exp then "" else " collapsed")) s.dom))))).2.2)))).1 (some (vp.1 + NODE_WIDTH / 2)) (setWidth (ensureBar hb "horizontal" (appendIfAbsent container (ensureBar cb "vertical" (appendIfAbsent container rep (setTop rep (some vp.2) (setLeft rep (some vp.1) (setClassName rep (String.append "node" (if exp then "" else " collapsed")) s.dom))))).1 (setTop (ensureBar cb "vertical" (appendIfAbsent container rep (setTop rep (some vp.2) (setLeft rep (some vp.1) (setClassName rep (String.append "node" (if exp then "" else " collapsed")) s.dom))))).1 (some (vp.2 + NODE_HEIGHT)) (setLeft (ensureBar cb "vertical" (appendIfAbsent container rep (setTop rep (some vp.2) (setLeft rep (some vp.1) (setClassName rep (String.append "node" (if exp then "" else " collapsed")) s.dom))))).1 (some (vp.1 + NODE_WIDTH / 2)) (ensureBar cb "vertical" (appendIfAbsent container rep (setTop rep (some vp.2) (setLeft rep (some vp.1) (setClassName rep (String.append "node" (if exp then "" else " collapsed")) s.dom))))).2.2)))).1 (some ((getRequiredWidth (DNode.mk b p ncs (((getRequiredWidth c0).2 :: rest).set (((getRequiredWidth c0).2 :: rest).length - 1) (getRequiredWidth (lastD ((getRequiredWidth c0).2 :: rest) (getRequiredWidth c0).2)).2) rw rep exp cb hb pb (some container) (some vp))).1 - (getRequiredWidth (lastD ((getRequiredWidth c0).2 :: rest) (getRequiredWidth c0).2)).1)) (ensureBar hb "horizontal" (appendIfAbsent container (ensureBar cb "vertical" (appendIfAbsent container rep (setTop rep (some vp.2) (setLeft rep (some vp.1) (setClassName rep (String.append "node" (if exp then "" else " collapsed")) s.dom))))).1 (setTop (ensureBar cb "vertical" (appendIfAbsent container rep (setTop rep (some vp.2) (setLeft rep (some vp.1) (setClassName rep (String.append "node" (if exp then "" else " collapsed")) s.dom))))).1 (some (vp.2 + NODE_HEIGHT)) (setLeft (ensureBar cb "vertical" (appendIfAbsent container rep (setTop rep (some vp.2) (setLeft rep (some vp.1) (setClassName rep (String.append "node" (if exp then "" else " collapsed")) s.dom))))).1 (some (vp.1 + NODE_WIDTH / 2)) (ensureBar cb "vertical" (appendIfAbsent container rep (setTop rep (some vp.2) (setLeft rep (some vp.1) (setClassName rep (String.append "node" (if exp then "" else " collapsed")) s.dom))))).2.2)))).2.2)))) })).2.2.dom.elems.length := K1
        have hsR4 : s.dom.elems.length ≤ ((drawKids (fun m vv t => draw f m container vv t) container (getRequiredWidth (DNode.mk b p ncs (((getRequiredWidth c0).2 :: rest).set (((getRequiredWidth c0).2 :: rest).length - 1) (getRequiredWidth (lastD ((getRequiredWidth c0).2 :: rest) (getRequiredWidth c0).2)).2) rw rep exp cb hb pb (some container) (some vp))).2.children vp.1 (vp.2 + NODE_HEIGHT + NODE_MARGIN_Y) { s with dom := (appendIfAbsent container (ensureBar hb "horizontal" (appendIfAbsent container (ensureBar cb "vertical" (appendIfAbsent container rep (setTop rep (some vp.2) (setLeft rep (some vp.1) (setClassName rep (String.append "node" (if exp then "" else " collapsed")) s.dom))))).1 (setTop (ensureBar cb "vertical" (appendIfAbsent container rep (setTop rep (some vp.2) (setLeft rep (some vp.1) (setClassName rep (String.append "node" (if exp then "" else " collapsed")) s.dom))))).1 (some (vp.2 + NODE_HEIGHT)) (setLeft (ensureBar cb "vertical" (appendIfAbsent container rep (setTop rep (some vp.2) (setLeft rep (some vp.1) (setClassName rep (String.append "node" (if exp then "" else " collapsed")) s.dom))))).1 (some (vp.1 + NODE_WIDTH / 2)) (ensureBar cb "vertical" (appendIfAbsent container rep (setTop rep (some vp.2) (setLeft rep (some vp.1) (setClassName rep (String.append "node" (if exp then "" else " collapsed")) s.dom))))).2.2)))).1 (setTop (ensureBar hb "horizontal" (appendIfAbsent container (ensureBar cb "vertical" (appendIfAbsent container rep (setTop rep (some vp.2) (setLeft rep (some vp.1) (setClassName rep (String.append "node" (if exp then "" else " collapsed")) s.dom))))).1 (setTop (ensureBar cb "vertical" (appendIfAbsent container rep (setTop rep (some vp.2) (setLeft rep (some vp.1) (setClassName rep (String.append "node" (if exp then "" else " collapsed")) s.dom))))).1 (some (vp.2 + NODE_HEIGHT)) (setLeft (ensureBar cb "vertical" (appendIfAbsent container rep (setTop rep (some vp.2) (setLeft rep (some vp.1) (setClassName rep (String.append "node" (if exp then "" else " collapsed")) s.dom))))).1 (some (vp.1 + NODE_WIDTH / 2)) (ensureBar cb "vertical" (appendIfAbsent container rep (setTop rep (some vp.2) (setLeft rep (some vp.1) (setClassName rep (String.append "node" (if exp then "" else " collapsed")) s.dom))))).2.2)))).1 (some (vp.2 + NODE_HEIGHT + NODE_MARGIN_Y / 2)) (setLeft (ensureBar hb "horizontal" (appendIfAbsent container (ensureBar cb "vertical" (appendIfAbsent container rep (setTop rep (some vp.2) (setLeft rep (some vp.1) (setClassName rep (String.append "node" (if exp then "" else " collapsed")) s.dom))))).1 (setTop (ensureBar cb "vertical" (appendIfAbsent container rep (setTop rep (some vp.2) (setLeft rep (some vp.1) (setClassName rep (String.append "node" (if exp then "" else " collapsed")) s.dom))))).1 (some (vp.2 + NODE_HEIGHT)) (setLeft (ensureBar cb "vertical" (appendIfAbsent container rep (setTop rep (some vp.2) (setLeft rep (some vp.1) (setClassName rep (String.append "node" (if exp then "" else " collapsed")) s.dom))))).1 (some (vp.1 + NODE_WIDTH / 2)) (ensureBar cb "vertical" (appendIfAbsent container rep (setTop rep (some vp.2) (setLeft rep (some vp.1) (setClassName rep (String.append "node" (if exp then "" else " collapsed")) s.dom))))).2.2)))).1 (some (vp.1 + NODE_WIDTH / 2)) (setWidth (ensureBar hb "horizontal" (appendIfAbsent container (ensureBar cb "vertical" (appendIfAbsent container rep (setTop rep (some vp.2) (setLeft rep (some vp.1) (setClassName rep (String.append "node" (if exp then "" else " collapsed")) s.dom))))).1 (setTop (ensureBar cb "vertical" (appendIfAbsent container rep (setTop rep (some vp.2) (setLeft rep (some vp.1) (setClassName rep (String.append "node" (if exp then "" else " collapsed")) s.dom))))).1 (some (vp.2 + NODE_HEIGHT)) (setLeft (ensureBar cb "vertical" (appendIfAbsent container rep (setTop rep (some vp.2) (setLeft rep (some vp.1) (setClassName rep (String.append "node" (if exp then "" else " collapsed")) s.dom))))).1 (some (vp.1 + NODE_WIDTH / 2)) (ensureBar cb "vertical" (appendIfAbsent container rep (setTop rep (some vp.2) (setLeft rep (some vp.1) (setClassName rep (String.append "node" (if exp then "" else " collapsed")) s.dom))))).2.2)))).1 (some ((getRequiredWidth (DNode.mk b p ncs (((getRequiredWidth c0).2 :: rest).set (((getRequiredWidth c0).2 :: rest).length - 1) (getRequiredWidth (lastD ((getRequiredWidth c0).2 :: rest) (getRequiredWidth c0).2)).2) rw rep exp cb hb pb (some container) (some vp))).1 - (getRequiredWidth (lastD ((getRequiredWidth c0).2 :: rest) (getRequiredWidth c0).2)).1)) (ensureBar hb "horizontal" (appendIfAbsent container (ensureBar cb "vertical" (appendIfAbsent container rep (setTop rep (some vp.2) (setLeft rep (some vp.1) (setClassName rep (String.append "node" (if exp then "" else " collapsed")) s.dom))))).1 (setTop (ensureBar cb "vertical" (appendIfAbsent container rep (setTop rep (some vp.2) (setLeft rep (some vp.1) (setClassName rep (String.append "node" (if exp then "" else " collapsed")) s.dom))))).1 (some (vp.2 + NODE_HEIGHT)) (setLeft (ensureBar cb "vertical" (appendIfAbsent container rep (setTop rep (some vp.2) (setLeft rep (some vp.1) (setClassName rep (String.append "node" (if exp then "" else " collapsed")) s.dom))))).1 (some (vp.1 + NODE_WIDTH / 2)) (ensureBar cb "vertical" (appendIfAbsent container rep (setTop rep (some vp.2) (setLeft rep (some vp.1) (setClassName rep (String.append "node" (if exp then "" else " collapsed")) s.dom))))).2.2)))).2.2)))) })).2.2.dom.elems.length := le_trans hsD4 K1x
        have hrepne2 : rep ≠ (ensureBar cb "vertical" (appendIfAbsent container rep (setTop rep (some vp.2) (setLeft rep (some vp.1) (setClassName rep (String.append "node" (if exp then "" else " collapsed")) s.dom))))).1 := by
          rcases c2char with ⟨i, hi, hv, _⟩ | ⟨_, hv, _⟩
          · rw [hv]
            intro he
            exact hrepnotin (List.mem_append_left _ (by rw [he]; simp [hi]))
          · rw [hv, hD2len]
            omega
        have hrepne3 : rep ≠ (ensureBar hb "horizontal" (appendIfAbsent container (ensureBar cb "vertical" (appendIfAbsent container rep (setTop rep (some vp.2) (setLeft rep (some vp.1) (setClassName rep (String.append "node" (if exp then "" else " collapsed")) s.dom))))).1 (setTop (ensureBar cb "vertical" (appendIfAbsent container rep (setTop rep (some vp.2) (setLeft rep (some vp.1) (setClassName rep (String.append "node" (if exp then "" else " collapsed")) s.dom))))).1 (some (vp.2 + NODE_HEIGHT)) (setLeft (ensureBar cb "vertical" (appendIfAbsent container rep (setTop rep (some vp.2) (setLeft rep (some vp.1) (setClassName rep (String.append "node" (if exp then "" else " collapsed")) s.dom))))).1 (some (vp.1 + NODE_WIDTH / 2)) (ensureBar cb "vertical" (appendIfAbsent container rep (setTop rep (some vp.2) (setLeft rep (some vp.1) (setClassName rep (String.append "node" (if exp then "" else " collapsed")) s.dom))))).2.2)))).1 := by
          rcases c3char with ⟨i, hi, hv, _⟩ | ⟨_, hv, _⟩
          · rw [hv]
            intro he
            exact hrepnotin (List.mem_append_left _ (by rw [he]; simp [hi]))
          · rw [hv, hD3len]
            omega
        have hcbine3 : (ensureBar cb "vertical" (appendIfAbsent container rep (setTop rep (some vp.2) (setLeft rep (some vp.1) (setClassName rep (String.append "node" (if exp then "" else " collapsed")) s.dom))))).1 ≠ (ensureBar hb "horizontal" (appendIfAbsent container (ensureBar cb "vertical" (appendIfAbsent container rep (setTop rep (some vp.2) (setLeft rep (some vp.1) (setClassName rep (String.append "node" (if exp then "" else " collapsed")) s.dom))))).1 (setTop (ensureBar cb "vertical" (appendIfAbsent container rep (setTop rep (some vp.2) (setLeft rep (some vp.1) (setClassName rep (String.append "node" (if exp then "" else " collapsed")) s.dom))))).1 (some (vp.2 + NODE_HEIGHT)) (setLeft (ensureBar cb "vertical" (appendIfAbsent container rep (setTop rep (some vp.2) (setLeft rep (some vp.1) (setClassName rep (String.append "node" (if exp then "" else " collapsed")) s.dom))))).1 (some (vp.1 + NODE_WIDTH / 2)) (ensureBar cb "vertical" (appendIfAbsent container rep (setTop rep (some vp.2) (setLeft rep (some vp.1) (setClassName rep (String.append "node" (if exp then "" else " collapsed")) s.dom))))).2.2)))).1 := by
          intro he
          rcases c2char with ⟨i, hi, hv, _⟩ | ⟨hn2, hv, hfr2⟩ <;>
            rcases c3char with ⟨i2, hi2, hv2, _⟩ | ⟨hn3, hv2, hfr3⟩
          · have h12 : i = i2 := by
              rw [← hv, ← hv2]
              exact he
            rw [hi, hi2] at hfmnd
            have h9 : (i :: i2 :: [pb].filterMap id).Nodup := by
              simpa [List.filterMap_cons] using hfmnd
            exact (List.nodup_cons.mp h9).1 (by rw [h12]; exact List.mem_cons_self _ _)
          · have h12 : i = ((appendIfAbsent container (ensureBar cb "vertical" (appendIfAbsent container rep (setTop rep (some vp.2) (setLeft rep (some vp.1) (setClassName rep (String.append "node" (if exp then "" else " collapsed")) s.dom))))).1 (setTop (ensureBar cb "vertical" (appendIfAbsent container rep (setTop rep (some vp.2) (setLeft rep (some vp.1) (setClassName rep (String.append "node" (if exp then "" else " collapsed")) s.dom))))).1 (some (vp.2 + NODE_HEIGHT)) (setLeft (ensureBar cb "vertical" (appendIfAbsent container rep (setTop rep (some vp.2) (setLeft rep (some vp.1) (setClassName rep (String.append "node" (if exp then "" else " collapsed")) s.dom))))).1 (some (vp.1 + NODE_WIDTH / 2)) (ensureBar cb "vertical" (appendIfAbsent container rep (setTop rep (some vp.2) (setLeft rep (some vp.1) (setClassName rep (String.append "node" (if exp then "" else " collapsed")) s.dom))))).2.2)))).elems.length := by
              rw [← hv, ← hv2]
              exact he
            have h1 := hrg i (mem_idsOf_cb hi)
            rw [hD3len] at h12
            omega
          · have h12 : ((appendIfAbsent container rep (setTop rep (some vp.2) (setLeft rep (some vp.1) (setClassName rep (String.append "node" (if exp then "" else " collapsed")) s.dom))))).elems.length = i2 := by
              rw [← hv, ← hv2]
              exact he
            have h1 := hrg i2 (mem_idsOf_hb hi2)
            rw [hD2len] at h12
            omega
          · have h12 : ((appendIfAbsent container rep (setTop rep (some vp.2) (setLeft rep (some vp.1) (setClassName rep (String.append "node" (if exp then "" else " collapsed")) s.dom))))).elems.length = ((appendIfAbsent container (ensureBar cb "vertical" (appendIfAbsent container rep (setTop rep (some vp.2) (setLeft rep (some vp.1) (setClassName rep (String.append "node" (if exp then "" else " collapsed")) s.dom))))).1 (setTop (ensureBar cb "vertical" (appendIfAbsent container rep (setTop rep (some vp.2) (setLeft rep (some vp.1) (setClassName rep (String.append "node" (if exp then "" else " collapsed")) s.dom))))).1 (some (vp.2 + NODE_HEIGHT)) (setLeft (ensureBar cb "vertical" (appendIfAbsent container rep (setTop rep (some vp.2) (setLeft rep (some vp.1) (setClassName rep (String.append "node" (if exp then "" else " collapsed")) s.dom))))).1 (some (vp.1 + NODE_WIDTH / 2)) (ensureBar cb "vertical" (appendIfAbsent container rep (setTop rep (some vp.2) (setLeft rep (some vp.1) (setClassName rep (String.append "node" (if exp then "" else " collapsed")) s.dom))))).2.2)))).elems.length := by
              rw [← hv, ← hv2]
              exact he
            rw [hD3len, hfr2] at h12
            omega
        have hcbD3 : (ensureBar cb "vertical" (appendIfAbsent container rep (setTop rep (some vp.2) (setLeft rep (some vp.1) (setClassName rep (String.append "node" (if exp then "" else " collapsed")) s.dom))))).1 < ((appendIfAbsent container (ensureBar cb "vertical" (appendIfAbsent container rep (setTop rep (some vp.2) (setLeft rep (some vp.1) (setClassName rep (String.append "node" (if exp then "" else " collapsed")) s.dom))))).1 (setTop (ensureBar cb "vertical" (appendIfAbsent container rep (setTop rep (some vp.2) (setLeft rep (some vp.1) (setClassName rep (String.append "node" (if exp then "" else " collapsed")) s.dom))))).1 (some (vp.2 + NODE_HEIGHT)) (setLeft (ensureBar cb "vertical" (appendIfAbsent container rep (setTop rep (some vp.2) (setLeft rep (some vp.1) (setClassName rep (String.append "node" (if exp then "" else " collapsed")) s.dom))))).1 (some (vp.1 + NODE_WIDTH / 2)) (ensureBar cb "vertical" (appendIfAbsent container rep (setTop rep (some vp.2) (setLeft rep (some vp.1) (setClassName rep (String.append "node" (if exp then "" else " collapsed")) s.dom))))).2.2)))).elems.length := by
          rw [hD3len]
          exact c2lt
        have hcbD4 : (ensureBar cb "vertical" (appendIfAbsent container rep (setTop rep (some vp.2) (setLeft rep (some vp.1) (setClassName rep (String.append "node" (if exp then "" else " collapsed")) s.dom))))).1 < ((appendIfAbsent container (ensureBar hb "horizontal" (appendIfAbsent container (ensureBar cb "vertical" (appendIfAbsent container rep (setTop rep (some vp.2) (setLeft rep (some vp.1) (setClassName rep (String.append "node" (if exp then "" else " collapsed")) s.dom))))).1 (setTop (ensureBar cb "vertical" (appendIfAbsent container rep (setTop rep (some vp.2) (setLeft rep (some vp.1) (setClassName rep (String.append "node" (if exp then "" else " collapsed")) s.dom))))).1 (some (vp.2 + NODE_HEIGHT)) (setLeft (ensureBar cb "vertical" (appendIfAbsent container rep (setTop rep (some vp.2) (setLeft rep (some vp.1) (setClassName rep (String.append "node" (if exp then "" else " collapsed")) s.dom))))).1 (some (vp.1 + NODE_WIDTH / 2)) (ensureBar cb "vertical" (appendIfAbsent container rep (setTop rep (some vp.2) (setLeft rep (some vp.1) (setClassName rep (String.append "node" (if exp then "" else " collapsed")) s.dom))))).2.2)))).1 (setTop (ensureBar hb "horizontal" (appendIfAbsent container (ensureBar cb "vertical" (appendIfAbsent container rep (setTop rep (some vp.2) (setLeft rep (some vp.1) (setClassName rep (String.append "node" (if exp then "" else " collapsed")) s.dom))))).1 (setTop (ensureBar cb "vertical" (appendIfAbsent container rep (setTop rep (some vp.2) (setLeft rep (some vp.1) (setClassName rep (String.append "node" (if exp then "" else " collapsed")) s.dom))))).1 (some (vp.2 + NODE_HEIGHT)) (setLeft (ensureBar cb "vertical" (appendIfAbsent container rep (setTop rep (some vp.2) (setLeft rep (some vp.1) (setClassName rep (String.append "node" (if exp then "" else " collapsed")) s.dom))))).1 (some (vp.1 + NODE_WIDTH / 2)) (ensureBar cb "vertical" (appendIfAbsent container rep (setTop rep (some vp.2) (setLeft rep (some vp.1) (setClassName rep (String.append "node" (if exp then "" else " collapsed")) s.dom))))).2.2)))).1 (some (vp.2 + NODE_HEIGHT + NODE_MARGIN_Y / 2)) (setLeft (ensureBar hb "horizontal" (appendIfAbsent container (ensureBar cb "vertical" (appendIfAbsent container rep (setTop rep (some vp.2) (setLeft rep (some vp.1) (setClassName rep (String.append "node" (if exp then "" else " collapsed")) s.dom))))).1 (setTop (ensureBar cb "vertical" (appendIfAbsent container rep (setTop rep (some vp.2) (setLeft rep (some vp.1) (setClassName rep (String.append "node" (if exp then "" else " collapsed")) s.dom))))).1 (some (vp.2 + NODE_HEIGHT)) (setLeft (ensureBar cb "vertical" (appendIfAbsent container rep (setTop rep (some vp.2) (setLeft rep (some vp.1) (setClassName rep (String.append "node" (if exp then "" else " collapsed")) s.dom))))).1 (some (vp.1 + NODE_WIDTH / 2)) (ensureBar cb "vertical" (appendIfAbsent container rep (setTop rep (some vp.2) (setLeft rep (some vp.1) (setClassName rep (String.append "node" (if exp then "" else " collapsed")) s.dom))))).2.2)))).1 (some (vp.1 + NODE_WIDTH / 2)) (setWidth (ensureBar hb "horizontal" (appendIfAbsent container (ensureBar cb "vertical" (appendIfAbsent container rep (setTop rep (some vp.2) (setLeft rep (some vp.1) (setClassName rep (String.append "node" (if exp then "" else " collapsed")) s.dom))))).1 (setTop (ensureBar cb "vertical" (appendIfAbsent container rep (setTop rep (some vp.2) (setLeft rep (some vp.1) (setClassName rep (String.append "node" (if exp then "" else " collapsed")) s.dom))))).1 (some (vp.2 + NODE_HEIGHT)) (setLeft (ensureBar cb "vertical" (appendIfAbsent container rep (setTop rep (some vp.2) (setLeft rep (some vp.1) (setClassName rep (String.append "node" (if exp then "" else " collapsed")) s.dom))))).1 (some (vp.1 + NODE_WIDTH / 2)) (ensureBar cb "vertical" (appendIfAbsent container rep (setTop rep (some vp.2) (setLeft rep (some vp.1) (setClassName rep (String.append "node" (if exp then "" else " collapsed")) s.dom))))).2.2)))).1 (some ((getRequiredWidth (DNode.mk b p ncs (((getRequiredWidth c0).2 :: rest).set (((getRequiredWidth c0).2 :: rest).length - 1) (getRequiredWidth (lastD ((getRequiredWidth c0).2 :: rest) (getRequiredWidth c0).2)).2) rw rep exp cb hb pb (some container) (some vp))).1 - (getRequiredWidth (lastD ((getRequiredWidth c0).2 :: rest) (getRequiredWidth c0).2)).1)) (ensureBar hb "horizontal" (appendIfAbsent container (ensureBar cb "vertical" (appendIfAbsent container rep (setTop rep (some vp.2) (setLeft rep (some vp.1) (setClassName rep (String.append "node" (if exp then "" else " collapsed")) s.dom))))).1 (setTop (ensureBar cb "vertical" (appendIfAbsent container rep (setTop rep (some vp.2) (setLeft rep (some vp.1) (setClassName rep (String.append "node" (if exp then "" else " collapsed")) s.dom))))).1 (some (vp.2 + NODE_HEIGHT)) (setLeft (ensureBar cb "vertical" (appendIfAbsent container rep (setTop rep (some vp.2) (setLeft rep (some vp.1) (setClassName rep (String.append "node" (if exp then "" else " collapsed")) s.dom))))).1 (some (vp.1 + NODE_WIDTH / 2)) (ensureBar cb "vertical" (appendIfAbsent container rep (setTop rep (some vp.2) (setLeft rep (some vp.1) (setClassName rep (String.append "node" (if exp then "" else " collapsed")) s.dom))))).2.2)))).2.2))))).elems.length := by
          rw [hD4len]
          exact lt_of_lt_of_le hcbD3 c3g
        have hhbD4 : (ensureBar hb "horizontal" (appendIfAbsent container (ensureBar cb "vertical" (appendIfAbsent container rep (setTop rep (some vp.2) (setLeft rep (some vp.1) (setClassName rep (String.append "node" (if exp then "" else " collapsed")) s.dom))))).1 (setTop (ensureBar cb "vertical" (appendIfAbsent container rep (setTop rep (some vp.2) (setLeft rep (some vp.1) (setClassName rep (String.append "node" (if exp then "" else " collapsed")) s.dom))))).1 (some (vp.2 + NODE_HEIGHT)) (setLeft (ensureBar cb "vertical" (appendIfAbsent container rep (setTop rep (some vp.2) (setLeft rep (some vp.1) (setClassName rep (String.append "node" (if exp then "" else " collapsed")) s.dom))))).1 (some (vp.1 + NODE_WIDTH / 2)) (ensureBar cb "vertical" (appendIfAbsent container rep (setTop rep (some vp.2) (setLeft rep (some vp.1) (setClassName rep (String.append "node" (if exp then "" else " collapsed")) s.dom))))).2.2)))).1 < ((appendIfAbsent container (ensureBar hb "horizontal" (appendIfAbsent container (ensureBar cb "vertical" (appendIfAbsent container rep (setTop rep (some vp.2) (setLeft rep (some vp.1) (setClassName rep (String.append "node" (if exp then "" else " collapsed")) s.dom))))).1 (setTop (ensureBar cb "vertical" (appendIfAbsent container rep (setTop rep (some vp.2) (setLeft rep (some vp.1) (setClassName rep (String.append "node" (if exp then "" else " collapsed")) s.dom))))).1 (some (vp.2 + NODE_HEIGHT)) (setLeft (ensureBar cb "vertical" (appendIfAbsent container rep (setTop rep (some vp.2) (setLeft rep (some vp.1) (setClassName rep (String.append "node" (if exp then "" else " collapsed")) s.dom))))).1 (some (vp.1 + NODE_WIDTH / 2)) (ensureBar cb "vertical" (appendIfAbsent container rep (setTop rep (some vp.2) (setLeft rep (some vp.1) (setClassName rep (String.append "node" (if exp then "" else " collapsed")) s.dom))))).2.2)))).1 (setTop (ensureBar hb "horizontal" (appendIfAbsent container (ensureBar cb "vertical" (appendIfAbsent container rep (setTop rep (some vp.2) (setLeft rep (some vp.1) (setClassName rep (String.append "node" (if exp then "" else " collapsed")) s.dom))))).1 (setTop (ensureBar cb "vertical" (appendIfAbsent container rep (setTop rep (some vp.2) (setLeft rep (some vp.1) (setClassName rep (String.append "node" (if exp then "" else " collapsed")) s.dom))))).1 (some (vp.2 + NODE_HEIGHT)) (setLeft (ensureBar cb "vertical" (appendIfAbsent container rep (setTop rep (some vp.2) (setLeft rep (some vp.1) (setClassName rep (String.append "node" (if exp then "" else " collapsed")) s.dom))))).1 (some (vp.1 + NODE_WIDTH / 2)) (ensureBar cb "vertical" (appendIfAbsent container rep (setTop rep (some vp.2) (setLeft rep (some vp.1) (setClassName rep (String.append "node" (if exp then "" else " collapsed")) s.dom))))).2.2)))).1 (some (vp.2 + NODE_HEIGHT + NODE_MARGIN_Y / 2)) (setLeft (ensureBar hb "horizontal" (appendIfAbsent container (ensureBar cb "vertical" (appendIfAbsent container rep (setTop rep (some vp.2) (setLeft rep (some vp.1) (setClassName rep (String.append "node" (if exp then "" else " collapsed")) s.dom))))).1 (setTop (ensureBar cb "vertical" (appendIfAbsent container rep (setTop rep (some vp.2) (setLeft rep (some vp.1) (setClassName rep (String.append "node" (if exp then "" else " collapsed")) s.dom))))).1 (some (vp.2 + NODE_HEIGHT)) (setLeft (ensureBar cb "vertical" (appendIfAbsent container rep (setTop rep (some vp.2) (setLeft rep (some vp.1) (setClassName rep (String.append "node" (if exp then "" else " collapsed")) s.dom))))).1 (some (vp.1 + NODE_WIDTH / 2)) (ensureBar cb "vertical" (appendIfAbsent container rep (setTop rep (some vp.2) (setLeft rep (some vp.1) (setClassName rep (String.append "node" (if exp then "" else " collapsed")) s.dom))))).2.2)))).1 (some (vp.1 + NODE_WIDTH / 2)) (setWidth (ensureBar hb "horizontal" (appendIfAbsent container (ensureBar cb "vertical" (appendIfAbsent container rep (setTop rep (some vp.2) (setLeft rep (some vp.1) (setClassName rep (String.append "node" (if exp then "" else " collapsed")) s.dom))))).1 (setTop (ensureBar cb "vertical" (appendIfAbsent container rep (setTop rep (some vp.2) (setLeft rep (some vp.1) (setClassName rep (String.append "node" (if exp then "" else " collapsed")) s.dom))))).1 (some (vp.2 + NODE_HEIGHT)) (setLeft (ensureBar cb "vertical" (appendIfAbsent container rep (setTop rep (some vp.2) (setLeft rep (some vp.1) (setClassName rep (String.append "node" (if exp then "" else " collapsed")) s.dom))))).1 (some (vp.1 + NODE_WIDTH / 2)) (ensureBar cb "vertical" (appendIfAbsent container rep (setTop rep (some vp.2) (setLeft rep (some vp.1) (setClassName rep (String.append "node" (if exp then "" else " collapsed")) s.dom))))).2.2)))).1 (some ((getRequiredWidth (DNode.mk b p ncs (((getRequiredWidth c0).2 :: rest).set (((getRequiredWidth c0).2 :: rest).length - 1) (getRequiredWidth (lastD ((getRequiredWidth c0).2 :: rest) (getRequiredWidth c0).2)).2) rw rep exp cb hb pb (some container) (some vp))).1 - (getRequiredWidth (lastD ((getRequiredWidth c0).2 :: rest) (getRequiredWidth c0).2)).1)) (ensureBar hb "horizontal" (appendIfAbsent container (ensureBar cb "vertical" (appendIfAbsent container rep (setTop rep (some vp.2) (setLeft rep (some vp.1) (setClassName rep (String.append "node" (if exp then "" else " collapsed")) s.dom))))).1 (setTop (ensureBar cb "vertical" (appendIfAbsent container rep (setTop rep (some vp.2) (setLeft rep (some vp.1) (setClassName rep (String.append "node" (if exp then "" else " collapsed")) s.dom))))).1 (some (vp.2 + NODE_HEIGHT)) (setLeft (ensureBar cb "vertical" (appendIfAbsent container rep (setTop rep (some vp.2) (setLeft rep (some vp.1) (setClassName rep (String.append "node" (if exp then "" else " collapsed")) s.dom))))).1 (some (vp.1 + NODE_WIDTH / 2)) (ensureBar cb "vertical" (appendIfAbsent container rep (setTop rep (some vp.2) (setLeft rep (some vp.1) (setClassName rep (String.append "node" (if exp then "" else " collapsed")) s.dom))))).2.2)))).2.2))))).elems.length := by
          rw [hD4len]
          exact c3lt
        have hrepnw : rep ∉ wIdsList (((getRequiredWidth (DNode.mk b p ncs (((getRequiredWidth c0).2 :: rest).set (((getRequiredWidth c0).2 :: rest).length - 1) (getRequiredWidth (lastD ((getRequiredWidth c0).2 :: rest) (getRequiredWidth c0).2)).2) rw rep exp cb hb pb (some container) (some vp)))).2.children) := by
          rw [F3]
          intro hmem
          exact hrepnotin (List.mem_append_right _ (wIds_subset_pack.2 _ _ hmem))
        have hcbnw : (ensureBar cb "vertical" (appendIfAbsent container rep (setTop rep (some vp.2) (setLeft rep (some vp.1) (setClassName rep (String.append "node" (if exp then "" else " collapsed")) s.dom))))).1 ∉ wIdsList (((getRequiredWidth (DNode.mk b p ncs (((getRequiredWidth c0).2 :: rest).set (((getRequiredWidth c0).2 :: rest).length - 1) (getRequiredWidth (lastD ((getRequiredWidth c0).2 :: rest) (getRequiredWidth c0).2)).2) rw rep exp cb hb pb (some container) (some vp)))).2.children) := by
          rw [F3]
          rcases c2char with ⟨i, hi, hv, _⟩ | ⟨_, hv, _⟩
          · rw [hv]
            intro hmem
            exact hfmdisj (by simp [hi]) (wIds_subset_pack.2 _ _ hmem)
          · rw [hv, hD2len]
            intro hmem
            have := hrgkids _ (wIds_subset_pack.2 _ _ hmem)
            omega
        have hhbnw : (ensureBar hb "horizontal" (appendIfAbsent container (ensureBar cb "vertical" (appendIfAbsent container rep (setTop rep (some vp.2) (setLeft rep (some vp.1) (setClassName rep (String.append "node" (if exp then "" else " collapsed")) s.dom))))).1 (setTop (ensureBar cb "vertical" (appendIfAbsent container rep (setTop rep (some vp.2) (setLeft rep (some vp.1) (setClassName rep (String.append "node" (if exp then "" else " collapsed")) s.dom))))).1 (some (vp.2 + NODE_HEIGHT)) (setLeft (ensureBar cb "vertical" (appendIfAbsent container rep (setTop rep (some vp.2) (setLeft rep (some vp.1) (setClassName rep (String.append "node" (if exp then "" else " collapsed")) s.dom))))).1 (some (vp.1 + NODE_WIDTH / 2)) (ensureBar cb "vertical" (appendIfAbsent container rep (setTop rep (some vp.2) (setLeft rep (some vp.1) (setClassName rep (String.append "node" (if exp then "" else " collapsed")) s.dom))))).2.2)))).1 ∉ wIdsList (((getRequiredWidth (DNode.mk b p ncs (((getRequiredWidth c0).2 :: rest).set (((getRequiredWidth c0).2 :: rest).length - 1) (getRequiredWidth (lastD ((getRequiredWidth c0).2 :: rest) (getRequiredWidth c0).2)).2) rw rep exp cb hb pb (some container) (some vp)))).2.children) := by
          rw [F3]
          rcases c3char with ⟨i, hi, hv, _⟩ | ⟨_, hv, _⟩
          · rw [hv]
            intro hmem
            exact hfmdisj (by simp [hi]) (wIds_subset_pack.2 _ _ hmem)
          · rw [hv, hD3len]
            intro hmem
            have h5 := hrgkids _ (wIds_subset_pack.2 _ _ hmem)
            omega
        have Erep0 : ElemIs ((appendIfAbsent container rep (setTop rep (some vp.2) (setLeft rep (some vp.1) (setClassName rep (String.append "node" (if exp then "" else " collapsed")) s.dom))))) rep (fun x => x.className = (String.append "node" (if exp then "" else " collapsed")) ∧
            x.left = some vp.1 ∧ x.top = some vp.2 ∧ x.parent = some container) :=
          ElemIs_repWrites he0
        have Erep1 := ElemIs_agree (hP_rep _ _ _ _) (c2ag rep (by
          rw [hD2len]
          exact hreplt)) Erep0
        have Erep2 : ElemIs (appendIfAbsent container (ensureBar cb "vertical" (appendIfAbsent container rep (setTop rep (some vp.2) (setLeft rep (some vp.1) (setClassName rep (String.append "node" (if exp then "" else " collapsed")) s.dom))))).1 (setTop (ensureBar cb "vertical" (appendIfAbsent container rep (setTop rep (some vp.2) (setLeft rep (some vp.1) (setClassName rep (String.append "node" (if exp then "" else " collapsed")) s.dom))))).1 (some (vp.2 + NODE_HEIGHT)) (setLeft (ensureBar cb "vertical" (appendIfAbsent container rep (setTop rep (some vp.2) (setLeft rep (some vp.1) (setClassName rep (String.append "node" (if exp then "" else " collapsed")) s.dom))))).1 (some (vp.1 + NODE_WIDTH / 2)) (ensureBar cb "vertical" (appendIfAbsent container rep (setTop rep (some vp.2) (setLeft rep (some vp.1) (setClassName rep (String.append "node" (if exp then "" else " collapsed")) s.dom))))).2.2))) rep (fun x => x.className = (String.append "node" (if exp then "" else " collapsed")) ∧ x.left = some vp.1 ∧ x.top = some vp.2 ∧ x.parent = some container) :=
          ElemIs_agree (hP_rep _ _ _ _) (elemAgree_barWrites hrepne2) Erep1
        have Erep3 := ElemIs_agree (hP_rep _ _ _ _) (c3ag rep
          (lt_of_lt_of_le hreplt hsD3)) Erep2
        have Erep4 : ElemIs (appendIfAbsent container (ensureBar hb "horizontal" (appendIfAbsent container (ensureBar cb "vertical" (appendIfAbsent container rep (setTop rep (some vp.2) (setLeft rep (some vp.1) (setClassName rep (String.append "node" (if exp then "" else " collapsed")) s.dom))))).1 (setTop (ensureBar cb "vertical" (appendIfAbsent container rep (setTop rep (some vp.2) (setLeft rep (some vp.1) (setClassName rep (String.append "node" (if exp then "" else " collapsed")) s.dom))))).1 (some (vp.2 + NODE_HEIGHT)) (setLeft (ensureBar cb "vertical" (appendIfAbsent container rep (setTop rep (some vp.2) (setLeft rep (some vp.1) (setClassName rep (String.append "node" (if exp then "" else " collapsed")) s.dom))))).1 (some (vp.1 + NODE_WIDTH / 2)) (ensureBar cb "vertical" (appendIfAbsent container rep (setTop rep (some vp.2) (setLeft rep (some vp.1) (setClassName rep (String.append "node" (if exp then "" else " collapsed")) s.dom))))).2.2)))).1 (setTop (ensureBar hb "horizontal" (appendIfAbsent container (ensureBar cb "vertical" (appendIfAbsent container rep (setTop rep (some vp.2) (setLeft rep (some vp.1) (setClassName rep (String.append "node" (if exp then "" else " collapsed")) s.dom))))).1 (setTop (ensureBar cb "vertical" (appendIfAbsent container rep (setTop rep (some vp.2) (setLeft rep (some vp.1) (setClassName rep (String.append "node" (if exp then "" else " collapsed")) s.dom))))).1 (some (vp.2 + NODE_HEIGHT)) (setLeft (ensureBar cb "vertical" (appendIfAbsent container rep (setTop rep (some vp.2) (setLeft rep (some vp.1) (setClassName rep (String.append "node" (if exp then "" else " collapsed")) s.dom))))).1 (some (vp.1 + NODE_WIDTH / 2)) (ensureBar cb "vertical" (appendIfAbsent container rep (setTop rep (some vp.2) (setLeft rep (some vp.1) (setClassName rep (String.append "node" (if exp then "" else " collapsed")) s.dom))))).2.2)))).1 (some (vp.2 + NODE_HEIGHT + NODE_MARGIN_Y / 2)) (setLeft (ensureBar hb "horizontal" (appendIfAbsent container (ensureBar cb "vertical" (appendIfAbsent container rep (setTop rep (some vp.2) (setLeft rep (some vp.1) (setClassName rep (String.append "node" (if exp then "" else " collapsed")) s.dom))))).1 (setTop (ensureBar cb "vertical" (appendIfAbsent container rep (setTop rep (some vp.2) (setLeft rep (some vp.1) (setClassName rep (String.append "node" (if exp then "" else " collapsed")) s.dom))))).1 (some (vp.2 + NODE_HEIGHT)) (setLeft (ensureBar cb "vertical" (appendIfAbsent container rep (setTop rep (some vp.2) (setLeft rep (some vp.1) (setClassName rep (String.append "node" (if exp then "" else " collapsed")) s.dom))))).1 (some (vp.1 + NODE_WIDTH / 2)) (ensureBar cb "vertical" (appendIfAbsent container rep (setTop rep (some vp.2) (setLeft rep (some vp.1) (setClassName rep (String.append "node" (if exp then "" else " collapsed")) s.dom))))).2.2)))).1 (some (vp.1 + NODE_WIDTH / 2)) (setWidth (ensureBar hb "horizontal" (appendIfAbsent container (ensureBar cb "vertical" (appendIfAbsent container rep (setTop rep (some vp.2) (setLeft rep (some vp.1) (setClassName rep (String.append "node" (if exp then "" else " collapsed")) s.dom))))).1 (setTop (ensureBar cb "vertical" (appendIfAbsent container rep (setTop rep (some vp.2) (setLeft rep (some vp.1) (setClassName rep (String.append "node" (if exp then "" else " collapsed")) s.dom))))).1 (some (vp.2 + NODE_HEIGHT)) (setLeft (ensureBar cb "vertical" (appendIfAbsent container rep (setTop rep (some vp.2) (setLeft rep (some vp.1) (setClassName rep (String.append "node" (if exp then "" else " collapsed")) s.dom))))).1 (some (vp.1 + NODE_WIDTH / 2)) (ensureBar cb "vertical" (appendIfAbsent container rep (setTop rep (some vp.2) (setLeft rep (some vp.1) (setClassName rep (String.append "node" (if exp then "" else " collapsed")) s.dom))))).2.2)))).1 (some ((getRequiredWidth (DNode.mk b p ncs (((getRequiredWidth c0).2 :: rest).set (((getRequiredWidth c0).2 :: rest).length - 1) (getRequiredWidth (lastD ((getRequiredWidth c0).2 :: rest) (getRequiredWidth c0).2)).2) rw rep exp cb hb pb (some container) (some vp))).1 - (getRequiredWidth (lastD ((getRequiredWidth c0).2 :: rest) (getRequiredWidth c0).2)).1)) (ensureBar hb "horizontal" (appendIfAbsent container (ensureBar cb "vertical" (appendIfAbsent container rep (setTop rep (some vp.2) (setLeft rep (some vp.1) (setClassName rep (String.append "node" (if exp then "" else " collapsed")) s.dom))))).1 (setTop (ensureBar cb "vertical" (appendIfAbsent container rep (setTop rep (some vp.2) (setLeft rep (some vp.1) (setClassName rep (String.append "node" (if exp then "" else " collapsed")) s.dom))))).1 (some (vp.2 + NODE_HEIGHT)) (setLeft (ensureBar cb "vertical" (appendIfAbsent container rep (setTop rep (some vp.2) (setLeft rep (some vp.1) (setClassName rep (String.append "node" (if exp then "" else " collapsed")) s.dom))))).1 (some (vp.1 + NODE_WIDTH / 2)) (ensureBar cb "vertical" (appendIfAbsent container rep (setTop rep (some vp.2) (setLeft rep (some vp.1) (setClassName rep (String.append "node" (if exp then "" else " collapsed")) s.dom))))).2.2)))).2.2)))) rep (fun x => x.className = (String.append "node" (if exp then "" else " collapsed")) ∧ x.left = some vp.1 ∧ x.top = some vp.2 ∧ x.parent = some container) :=
          ElemIs_agree (hP_rep _ _ _ _) (elemAgree_hbWrites hrepne3) Erep3
        have Erep5 := ElemIs_agree (hP_rep _ _ _ _)
          (K2 rep (lt_of_lt_of_le hreplt hsD4) hrepnw) Erep4
        have Ecb0 : ElemIs ((appendIfAbsent container (ensureBar cb "vertical" (appendIfAbsent container rep (setTop rep (some vp.2) (setLeft rep (some vp.1) (setClassName rep (String.append "node" (if exp then "" else " collapsed")) s.dom))))).1 (setTop (ensureBar cb "vertical" (appendIfAbsent container rep (setTop rep (some vp.2) (setLeft rep (some vp.1) (setClassName rep (String.append "node" (if exp then "" else " collapsed")) s.dom))))).1 (some (vp.2 + NODE_HEIGHT)) (setLeft (ensureBar cb "vertical" (appendIfAbsent container rep (setTop rep (some vp.2) (setLeft rep (some vp.1) (setClassName rep (String.append "node" (if exp then "" else " collapsed")) s.dom))))).1 (some (vp.1 + NODE_WIDTH / 2)) (ensureBar cb "vertical" (appendIfAbsent container rep (setTop rep (some vp.2) (setLeft rep (some vp.1) (setClassName rep (String.append "node" (if exp then "" else " collapsed")) s.dom))))).2.2)))) (ensureBar cb "vertical" (appendIfAbsent container rep (setTop rep (some vp.2) (setLeft rep (some vp.1) (setClassName rep (String.append "node" (if exp then "" else " collapsed")) s.dom))))).1 (fun x => x.left = some (vp.1 + NODE_WIDTH / 2) ∧
            x.top = some (vp.2 + NODE_HEIGHT) ∧ x.parent = some container) :=
          ElemIs_barWrites he2
        have Ecb1 := ElemIs_agree (hP_bar _ _ _) (c3ag _ hcbD3) Ecb0
        have Ecb2 : ElemIs (appendIfAbsent container (ensureBar hb "horizontal" (appendIfAbsent container (ensureBar cb "vertical" (appendIfAbsent container rep (setTop rep (some vp.2) (setLeft rep (some vp.1) (setClassName rep (String.append "node" (if exp then "" else " collapsed")) s.dom))))).1 (setTop (ensureBar cb "vertical" (appendIfAbsent container rep (setTop rep (some vp.2) (setLeft rep (some vp.1) (setClassName rep (String.append "node" (if exp then "" else " collapsed")) s.dom))))).1 (some (vp.2 + NODE_HEIGHT)) (setLeft (ensureBar cb "vertical" (appendIfAbsent container rep (setTop rep (some vp.2) (setLeft rep (some vp.1) (setClassName rep (String.append "node" (if exp then "" else " collapsed")) s.dom))))).1 (some (vp.1 + NODE_WIDTH / 2)) (ensureBar cb "vertical" (appendIfAbsent container rep (setTop rep (some vp.2) (setLeft rep (some vp.1) (setClassName rep (String.append "node" (if exp then "" else " collapsed")) s.dom))))).2.2)))).1 (setTop (ensureBar hb "horizontal" (appendIfAbsent container (ensureBar cb "vertical" (appendIfAbsent container rep (setTop rep (some vp.2) (setLeft rep (some vp.1) (setClassName rep (String.append "node" (if exp then "" else " collapsed")) s.dom))))).1 (setTop (ensureBar cb "vertical" (appendIfAbsent container rep (setTop rep (some vp.2) (setLeft rep (some vp.1) (setClassName rep (String.append "node" (if exp then "" else " collapsed")) s.dom))))).1 (some (vp.2 + NODE_HEIGHT)) (setLeft (ensureBar cb "vertical" (appendIfAbsent container rep (setTop rep (some vp.2) (setLeft rep (some vp.1) (setClassName rep (String.append "node" (if exp then "" else " collapsed")) s.dom))))).1 (some (vp.1 + NODE_WIDTH / 2)) (ensureBar cb "vertical" (appendIfAbsent container rep (setTop rep (some vp.2) (setLeft rep (some vp.1) (setClassName rep (String.append "node" (if exp then "" else " collapsed")) s.dom))))).2.2)))).1 (some (vp.2 + NODE_HEIGHT + NODE_MARGIN_Y / 2)) (setLeft (ensureBar hb "horizontal" (appendIfAbsent container (ensureBar cb "vertical" (appendIfAbsent container rep (setTop rep (some vp.2) (setLeft rep (some vp.1) (setClassName rep (String.append "node" (if exp then "" else " collapsed")) s.dom))))).1 (setTop (ensureBar cb "vertical" (appendIfAbsent container rep (setTop rep (some vp.2) (setLeft rep (some vp.1) (setClassName rep (String.append "node" (if exp then "" else " collapsed")) s.dom))))).1 (some (vp.2 + NODE_HEIGHT)) (setLeft (ensureBar cb "vertical" (appendIfAbsent container rep (setTop rep (some vp.2) (setLeft rep (some vp.1) (setClassName rep (String.append "node" (if exp then "" else " collapsed")) s.dom))))).1 (some (vp.1 + NODE_WIDTH / 2)) (ensureBar cb "vertical" (appendIfAbsent container rep (setTop rep (some vp.2) (setLeft rep (some vp.1) (setClassName rep (String.append "node" (if exp then "" else " collapsed")) s.dom))))).2.2)))).1 (some (vp.1 + NODE_WIDTH / 2)) (setWidth (ensureBar hb "horizontal" (appendIfAbsent container (ensureBar cb "vertical" (appendIfAbsent container rep (setTop rep (some vp.2) (setLeft rep (some vp.1) (setClassName rep (String.append "node" (if exp then "" else " collapsed")) s.dom))))).1 (setTop (ensureBar cb "vertical" (appendIfAbsent container rep (setTop rep (some vp.2) (setLeft rep (some vp.1) (setClassName rep (String.append "node" (if exp then "" else " collapsed")) s.dom))))).1 (some (vp.2 + NODE_HEIGHT)) (setLeft (ensureBar cb "vertical" (appendIfAbsent container rep (setTop rep (some vp.2) (setLeft rep (some vp.1) (setClassName rep (String.append "node" (if exp then "" else " collapsed")) s.dom))))).1 (some (vp.1 + NODE_WIDTH / 2)) (ensureBar cb "vertical" (appendIfAbsent container rep (setTop rep (some vp.2) (setLeft rep (some vp.1) (setClassName rep (String.append "node" (if exp then "" else " collapsed")) s.dom))))).2.2)))).1 (some ((getRequiredWidth (DNode.mk b p ncs (((getRequiredWidth c0).2 :: rest).set (((getRequiredWidth c0).2 :: rest).length - 1) (getRequiredWidth (lastD ((getRequiredWidth c0).2 :: rest) (getRequiredWidth c0).2)).2) rw rep exp cb hb pb (some container) (some vp))).1 - (getRequiredWidth (lastD ((getRequiredWidth c0).2 :: rest) (getRequiredWidth c0).2)).1)) (ensureBar hb "horizontal" (appendIfAbsent container (ensureBar cb "vertical" (appendIfAbsent container rep (setTop rep (some vp.2) (setLeft rep (some vp.1) (setClassName rep (String.append "node" (if exp then "" else " collapsed")) s.dom))))).1 (setTop (ensureBar cb "vertical" (appendIfAbsent container rep (setTop rep (some vp.2) (setLeft rep (some vp.1) (setClassName rep (String.append "node" (if exp then "" else " collapsed")) s.dom))))).1 (some (vp.2 + NODE_HEIGHT)) (setLeft (ensureBar cb "vertical" (appendIfAbsent container rep (setTop rep (some vp.2) (setLeft rep (some vp.1) (setClassName rep (String.append "node" (if exp then "" else " collapsed")) s.dom))))).1 (some (vp.1 + NODE_WIDTH / 2)) (ensureBar cb "vertical" (appendIfAbsent container rep (setTop rep (some vp.2) (setLeft rep (some vp.1) (setClassName rep (String.append "node" (if exp then "" else " collapsed")) s.dom))))).2.2)))).2.2)))) (ensureBar cb "vertical" (appendIfAbsent container rep (setTop rep (some vp.2) (setLeft rep (some vp.1) (setClassName rep (String.append "node" (if exp then "" else " collapsed")) s.dom))))).1 (fun x => x.left = some (vp.1 + NODE_WIDTH / 2) ∧ x.top = some (vp.2 + NODE_HEIGHT) ∧ x.parent = some container) :=
          ElemIs_agree (hP_bar _ _ _) (elemAgree_hbWrites hcbine3) Ecb1
        have Ecb3 := ElemIs_agree (hP_bar _ _ _) (K2 _ hcbD4 hcbnw) Ecb2
        have Ehb0 : ElemIs ((appendIfAbsent container (ensureBar hb "horizontal" (appendIfAbsent container (ensureBar cb "vertical" (appendIfAbsent container rep (setTop rep (some vp.2) (setLeft rep (some vp.1) (setClassName rep (String.append "node" (if exp then "" else " collapsed")) s.dom))))).1 (setTop (ensureBar cb "vertical" (appendIfAbsent container rep (setTop rep (some vp.2) (setLeft rep (some vp.1) (setClassName rep (String.append "node" (if exp then "" else " collapsed")) s.dom))))).1 (some (vp.2 + NODE_HEIGHT)) (setLeft (ensureBar cb "vertical" (appendIfAbsent container rep (setTop rep (some vp.2) (setLeft rep (some vp.1) (setClassName rep (String.append "node" (if exp then "" else " collapsed")) s.dom))))).1 (some (vp.1 + NODE_WIDTH / 2)) (ensureBar cb "vertical" (appendIfAbsent container rep (setTop rep (some vp.2) (setLeft rep (some vp.1) (setClassName rep (String.append "node" (if exp then "" else " collapsed")) s.dom))))).2.2)))).1 (setTop (ensureBar hb "horizontal" (appendIfAbsent container (ensureBar cb "vertical" (appendIfAbsent container rep (setTop rep (some vp.2) (setLeft rep (some vp.1) (setClassName rep (String.append "node" (if exp then "" else " collapsed")) s.dom))))).1 (setTop (ensureBar cb "vertical" (appendIfAbsent container rep (setTop rep (some vp.2) (setLeft rep (some vp.1) (setClassName rep (String.append "node" (if exp then "" else " collapsed")) s.dom))))).1 (some (vp.2 + NODE_HEIGHT)) (setLeft (ensureBar cb "vertical" (appendIfAbsent container rep (setTop rep (some vp.2) (setLeft rep (some vp.1) (setClassName rep (String.append "node" (if exp then "" else " collapsed")) s.dom))))).1 (some (vp.1 + NODE_WIDTH / 2)) (ensureBar cb "vertical" (appendIfAbsent container rep (setTop rep (some vp.2) (setLeft rep (some vp.1) (setClassName rep (String.append "node" (if exp then "" else " collapsed")) s.dom))))).2.2)))).1 (some (vp.2 + NODE_HEIGHT + NODE_MARGIN_Y / 2)) (setLeft (ensureBar hb "horizontal" (appendIfAbsent container (ensureBar cb "vertical" (appendIfAbsent container rep (setTop rep (some vp.2) (setLeft rep (some vp.1) (setClassName rep (String.append "node" (if exp then "" else " collapsed")) s.dom))))).1 (setTop (ensureBar cb "vertical" (appendIfAbsent container rep (setTop rep (some vp.2) (setLeft rep (some vp.1) (setClassName rep (String.append "node" (if exp then "" else " collapsed")) s.dom))))).1 (some (vp.2 + NODE_HEIGHT)) (setLeft (ensureBar cb "vertical" (appendIfAbsent container rep (setTop rep (some vp.2) (setLeft rep (some vp.1) (setClassName rep (String.append "node" (if exp then "" else " collapsed")) s.dom))))).1 (some (vp.1 + NODE_WIDTH / 2)) (ensureBar cb "vertical" (appendIfAbsent container rep (setTop rep (some vp.2) (setLeft rep (some vp.1) (setClassName rep (String.append "node" (if exp then "" else " collapsed")) s.dom))))).2.2)))).1 (some (vp.1 + NODE_WIDTH / 2)) (setWidth (ensureBar hb "horizontal" (appendIfAbsent container (ensureBar cb "vertical" (appendIfAbsent container rep (setTop rep (some vp.2) (setLeft rep (some vp.1) (setClassName rep (String.append "node" (if exp then "" else " collapsed")) s.dom))))).1 (setTop (ensureBar cb "vertical" (appendIfAbsent container rep (setTop rep (some vp.2) (setLeft rep (some vp.1) (setClassName rep (String.append "node" (if exp then "" else " collapsed")) s.dom))))).1 (some (vp.2 + NODE_HEIGHT)) (setLeft (ensureBar cb "vertical" (appendIfAbsent container rep (setTop rep (some vp.2) (setLeft rep (some vp.1) (setClassName rep (String.append "node" (if exp then "" else " collapsed")) s.dom))))).1 (some (vp.1 + NODE_WIDTH / 2)) (ensureBar cb "vertical" (appendIfAbsent container rep (setTop rep (some vp.2) (setLeft rep (some vp.1) (setClassName rep (String.append "node" (if exp then "" else " collapsed")) s.dom))))).2.2)))).1 (some ((getRequiredWidth (DNode.mk b p ncs (((getRequiredWidth c0).2 :: rest).set (((getRequiredWidth c0).2 :: rest).length - 1) (getRequiredWidth (lastD ((getRequiredWidth c0).2 :: rest) (getRequiredWidth c0).2)).2) rw rep exp cb hb pb (some container) (some vp))).1 - (getRequiredWidth (lastD ((getRequiredWidth c0).2 :: rest) (getRequiredWidth c0).2)).1)) (ensureBar hb "horizontal" (appendIfAbsent container (ensureBar cb "vertical" (appendIfAbsent container rep (setTop rep (some vp.2) (setLeft rep (some vp.1) (setClassName rep (String.append "node" (if exp then "" else " collapsed")) s.dom))))).1 (setTop (ensureBar cb "vertical" (appendIfAbsent container rep (setTop rep (some vp.2) (setLeft rep (some vp.1) (setClassName rep (String.append "node" (if exp then "" else " collapsed")) s.dom))))).1 (some (vp.2 + NODE_HEIGHT)) (setLeft (ensureBar cb "vertical" (appendIfAbsent container rep (setTop rep (some vp.2) (setLeft rep (some vp.1) (setClassName rep (String.append "node" (if exp then "" else " collapsed")) s.dom))))).1 (some (vp.1 + NODE_WIDTH / 2)) (ensureBar cb "vertical" (appendIfAbsent container rep (setTop rep (some vp.2) (setLeft rep (some vp.1) (setClassName rep (String.append "node" (if exp then "" else " collapsed")) s.dom))))).2.2)))).2.2))))) (ensureBar hb "horizontal" (appendIfAbsent container (ensureBar cb "vertical" (appendIfAbsent container rep (setTop rep (some vp.2) (setLeft rep (some vp.1) (setClassName rep (String.append "node" (if exp then "" else " collapsed")) s.dom))))).1 (setTop (ensureBar cb "vertical" (appendIfAbsent container rep (setTop rep (some vp.2) (setLeft rep (some vp.1) (setClassName rep (String.append "node" (if exp then "" else " collapsed")) s.dom))))).1 (some (vp.2 + NODE_HEIGHT)) (setLeft (ensureBar cb "vertical" (appendIfAbsent container rep (setTop rep (some vp.2) (setLeft rep (some vp.1) (setClassName rep (String.append "node" (if exp then "" else " collapsed")) s.dom))))).1 (some (vp.1 + NODE_WIDTH / 2)) (ensureBar cb "vertical" (appendIfAbsent container rep (setTop rep (some vp.2) (setLeft rep (some vp.1) (setClassName rep (String.append "node" (if exp then "" else " collapsed")) s.dom))))).2.2)))).1 (fun x =>
            x.width = some (((getRequiredWidth (DNode.mk b p ncs (((getRequiredWidth c0).2 :: rest).set (((getRequiredWidth c0).2 :: rest).length - 1) (getRequiredWidth (lastD ((getRequiredWidth c0).2 :: rest) (getRequiredWidth c0).2)).2) rw rep exp cb hb pb (some container) (some vp)))).1 - (getRequiredWidth (lastD ((getRequiredWidth c0).2 :: rest) (getRequiredWidth c0).2)).1) ∧
            x.left = some (vp.1 + NODE_WIDTH / 2) ∧
            x.top = some (vp.2 + NODE_HEIGHT + NODE_MARGIN_Y / 2) ∧
            x.parent = some container) :=
          ElemIs_hbWrites he3
        have Ehb1 := ElemIs_agree (hP_hbar _ _ _ _) (K2 _ hhbD4 hhbnw) Ehb0
        refine ⟨hsR4, ?_, ?_, ?_, ?_⟩
        · intro j hj hw
          simp only [wIds_mk, List.mem_cons, List.mem_append] at hw
          push_neg at hw
          obtain ⟨hw1, hw2, hw3⟩ := hw
          have hne2 : j ≠ (ensureBar cb "vertical" (appendIfAbsent container rep (setTop rep (some vp.2) (setLeft rep (some vp.1) (setClassName rep (String.append "node" (if exp then "" else " collapsed")) s.dom))))).1 := by
            rcases c2char with ⟨i, hi, hv, _⟩ | ⟨_, hv, _⟩
            · rw [hv]
              intro he
              exact hw2 (by rw [he]; simp [hi])
            · rw [hv, hD2len]
              omega
          have hne3 : j ≠ (ensureBar hb "horizontal" (appendIfAbsent container (ensureBar cb "vertical" (appendIfAbsent container rep (setTop rep (some vp.2) (setLeft rep (some vp.1) (setClassName rep (String.append "node" (if exp then "" else " collapsed")) s.dom))))).1 (setTop (ensureBar cb "vertical" (appendIfAbsent container rep (setTop rep (some vp.2) (setLeft rep (some vp.1) (setClassName rep (String.append "node" (if exp then "" else " collapsed")) s.dom))))).1 (some (vp.2 + NODE_HEIGHT)) (setLeft (ensureBar cb "vertical" (appendIfAbsent container rep (setTop rep (some vp.2) (setLeft rep (some vp.1) (setClassName rep (String.append "node" (if exp then "" else " collapsed")) s.dom))))).1 (some (vp.1 + NODE_WIDTH / 2)) (ensureBar cb "vertical" (appendIfAbsent container rep (setTop rep (some vp.2) (setLeft rep (some vp.1) (setClassName rep (String.append "node" (if exp then "" else " collapsed")) s.dom))))).2.2)))).1 := by
            rcases c3char with ⟨i, hi, hv, _⟩ | ⟨_, hv, _⟩
            · rw [hv]
              intro he
              exact hw2 (by rw [he]; simp [hi])
            · rw [hv, hD3len]
              omega
          have a1 : elemAgree s.dom ((appendIfAbsent container rep (setTop rep (some vp.2) (setLeft rep (some vp.1) (setClassName rep (String.append "node" (if exp then "" else " collapsed")) s.dom))))) j := elemAgree_repWrites hw1
          have a2 : elemAgree ((appendIfAbsent container rep (setTop rep (some vp.2) (setLeft rep (some vp.1) (setClassName rep (String.append "node" (if exp then "" else " collapsed")) s.dom))))) ((ensureBar cb "vertical" (appendIfAbsent container rep (setTop rep (some vp.2) (setLeft rep (some vp.1) (setClassName rep (String.append "node" (if exp then "" else " collapsed")) s.dom))))).2.2) j := c2ag j (by
            rw [hD2len]
            exact hj)
          have a3 : elemAgree ((ensureBar cb "vertical" (appendIfAbsent container rep (setTop rep (some vp.2) (setLeft rep (some vp.1) (setClassName rep (String.append "node" (if exp then "" else " collapsed")) s.dom))))).2.2) ((appendIfAbsent container (ensureBar cb "vertical" (appendIfAbsent container rep (setTop rep (some vp.2) (setLeft rep (some vp.1) (setClassName rep (String.append "node" (if exp then "" else " collapsed")) s.dom))))).1 (setTop (ensureBar cb "vertical" (appendIfAbsent container rep (setTop rep (some vp.2) (setLeft rep (some vp.1) (setClassName rep (String.append "node" (if exp then "" else " collapsed")) s.dom))))).1 (some (vp.2 + NODE_HEIGHT)) (setLeft (ensureBar cb "vertical" (appendIfAbsent container rep (setTop rep (some vp.2) (setLeft rep (some vp.1) (setClassName rep (String.append "node" (if exp then "" else " collapsed")) s.dom))))).1 (some (vp.1 + NODE_WIDTH / 2)) (ensureBar cb "vertical" (appendIfAbsent container rep (setTop rep (some vp.2) (setLeft rep (some vp.1) (setClassName rep (String.append "node" (if exp then "" else " collapsed")) s.dom))))).2.2)))) j := elemAgree_barWrites hne2
          have a4 : elemAgree ((appendIfAbsent container (ensureBar cb "vertical" (appendIfAbsent container rep (setTop rep (some vp.2) (setLeft rep (some vp.1) (setClassName rep (String.append "node" (if exp then "" else " collapsed")) s.dom))))).1 (setTop (ensureBar cb "vertical" (appendIfAbsent container rep (setTop rep (some vp.2) (setLeft rep (some vp.1) (setClassName rep (String.append "node" (if exp then "" else " collapsed")) s.dom))))).1 (some (vp.2 + NODE_HEIGHT)) (setLeft (ensureBar cb "vertical" (appendIfAbsent container rep (setTop rep (some vp.2) (setLeft rep (some vp.1) (setClassName rep (String.append "node" (if exp then "" else " collapsed")) s.dom))))).1 (some (vp.1 + NODE_WIDTH / 2)) (ensureBar cb "vertical" (appendIfAbsent container rep (setTop rep (some vp.2) (setLeft rep (some vp.1) (setClassName rep (String.append "node" (if exp then "" else " collapsed")) s.dom))))).2.2)))) ((ensureBar hb "horizontal" (appendIfAbsent container (ensureBar cb "vertical" (appendIfAbsent container rep (setTop rep (some vp.2) (setLeft rep (some vp.1) (setClassName rep (String.append "node" (if exp then "" else " collapsed")) s.dom))))).1 (setTop (ensureBar cb "vertical" (appendIfAbsent container rep (setTop rep (some vp.2) (setLeft rep (some vp.1) (setClassName rep (String.append "node" (if exp then "" else " collapsed")) s.dom))))).1 (some (vp.2 + NODE_HEIGHT)) (setLeft (ensureBar cb "vertical" (appendIfAbsent container rep (setTop rep (some vp.2) (setLeft rep (some vp.1) (setClassName rep (String.append "node" (if exp then "" else " collapsed")) s.dom))))).1 (some (vp.1 + NODE_WIDTH / 2)) (ensureBar cb "vertical" (appendIfAbsent container rep (setTop rep (some vp.2) (setLeft rep (some vp.1) (setClassName rep (String.append "node" (if exp then "" else " collapsed")) s.dom))))).2.2)))).2.2) j := c3ag j (lt_of_lt_of_le hj hsD3)
          have a5 : elemAgree ((ensureBar hb "horizontal" (appendIfAbsent container (ensureBar cb "vertical" (appendIfAbsent container rep (setTop rep (some vp.2) (setLeft rep (some vp.1) (setClassName rep (String.append "node" (if exp then "" else " collapsed")) s.dom))))).1 (setTop (ensureBar cb "vertical" (appendIfAbsent container rep (setTop rep (some vp.2) (setLeft rep (some vp.1) (setClassName rep (String.append "node" (if exp then "" else " collapsed")) s.dom))))).1 (some (vp.2 + NODE_HEIGHT)) (setLeft (ensureBar cb "vertical" (appendIfAbsent container rep (setTop rep (some vp.2) (setLeft rep (some vp.1) (setClassName rep (String.append "node" (if exp then "" else " collapsed")) s.dom))))).1 (some (vp.1 + NODE_WIDTH / 2)) (ensureBar cb "vertical" (appendIfAbsent container rep (setTop rep (some vp.2) (setLeft rep (some vp.1) (setClassName rep (String.append "node" (if exp then "" else " collapsed")) s.dom))))).2.2)))).2.2) ((appendIfAbsent container (ensureBar hb "horizontal" (appendIfAbsent container (ensureBar cb "vertical" (appendIfAbsent container rep (setTop rep (some vp.2) (setLeft rep (some vp.1) (setClassName rep (String.append "node" (if exp then "" else " collapsed")) s.dom))))).1 (setTop (ensureBar cb "vertical" (appendIfAbsent container rep (setTop rep (some vp.2) (setLeft rep (some vp.1) (setClassName rep (String.append "node" (if exp then "" else " collapsed")) s.dom))))).1 (some (vp.2 + NODE_HEIGHT)) (setLeft (ensureBar cb "vertical" (appendIfAbsent container rep (setTop rep (some vp.2) (setLeft rep (some vp.1) (setClassName rep (String.append "node" (if exp then "" else " collapsed")) s.dom))))).1 (some (vp.1 + NODE_WIDTH / 2)) (ensureBar cb "vertical" (appendIfAbsent container rep (setTop rep (some vp.2) (setLeft rep (some vp.1) (setClassName rep (String.append "node" (if exp then "" else " collapsed")) s.dom))))).2.2)))).1 (setTop (ensureBar hb "horizontal" (appendIfAbsent container (ensureBar cb "vertical" (appendIfAbsent container rep (setTop rep (some vp.2) (setLeft rep (some vp.1) (setClassName rep (String.append "node" (if exp then "" else " collapsed")) s.dom))))).1 (setTop (ensureBar cb "vertical" (appendIfAbsent container rep (setTop rep (some vp.2) (setLeft rep (some vp.1) (setClassName rep (String.append "node" (if exp then "" else " collapsed")) s.dom))))).1 (some (vp.2 + NODE_HEIGHT)) (setLeft (ensureBar cb "vertical" (appendIfAbsent container rep (setTop rep (some vp.2) (setLeft rep (some vp.1) (setClassName rep (String.append "node" (if exp then "" else " collapsed")) s.dom))))).1 (some (vp.1 + NODE_WIDTH / 2)) (ensureBar cb "vertical" (appendIfAbsent container rep (setTop rep (some vp.2) (setLeft rep (some vp.1) (setClassName rep (String.append "node" (if exp then "" else " collapsed")) s.dom))))).2.2)))).1 (some (vp.2 + NODE_HEIGHT + NODE_MARGIN_Y / 2)) (setLeft (ensureBar hb "horizontal" (appendIfAbsent container (ensureBar cb "vertical" (appendIfAbsent container rep (setTop rep (some vp.2) (setLeft rep (some vp.1) (setClassName rep (String.append "node" (if exp then "" else " collapsed")) s.dom))))).1 (setTop (ensureBar cb "vertical" (appendIfAbsent container rep (setTop rep (some vp.2) (setLeft rep (some vp.1) (setClassName rep (String.append "node" (if exp then "" else " collapsed")) s.dom))))).1 (some (vp.2 + NODE_HEIGHT)) (setLeft (ensureBar cb "vertical" (appendIfAbsent container rep (setTop rep (some vp.2) (setLeft rep (some vp.1) (setClassName rep (String.append "node" (if exp then "" else " collapsed")) s.dom))))).1 (some (vp.1 + NODE_WIDTH / 2)) (ensureBar cb "vertical" (appendIfAbsent container rep (setTop rep (some vp.2) (setLeft rep (some vp.1) (setClassName rep (String.append "node" (if exp then "" else " collapsed")) s.dom))))).2.2)))).1 (some (vp.1 + NODE_WIDTH / 2)) (setWidth (ensureBar hb "horizontal" (appendIfAbsent container (ensureBar cb "vertical" (appendIfAbsent container rep (setTop rep (some vp.2) (setLeft rep (some vp.1) (setClassName rep (String.append "node" (if exp then "" else " collapsed")) s.dom))))).1 (setTop (ensureBar cb "vertical" (appendIfAbsent container rep (setTop rep (some vp.2) (setLeft rep (some vp.1) (setClassName rep (String.append "node" (if exp then "" else " collapsed")) s.dom))))).1 (some (vp.2 + NODE_HEIGHT)) (setLeft (ensureBar cb "vertical" (appendIfAbsent container rep (setTop rep (some vp.2) (setLeft rep (some vp.1) (setClassName rep (String.append "node" (if exp then "" else " collapsed")) s.dom))))).1 (some (vp.1 + NODE_WIDTH / 2)) (ensureBar cb "vertical" (appendIfAbsent container rep (setTop rep (some vp.2) (setLeft rep (some vp.1) (setClassName rep (String.append "node" (if exp then "" else " collapsed")) s.dom))))).2.2)))).1 (some ((getRequiredWidth (DNode.mk b p ncs (((getRequiredWidth c0).2 :: rest).set (((getRequiredWidth c0).2 :: rest).length - 1) (getRequiredWidth (lastD ((getRequiredWidth c0).2 :: rest) (getRequiredWidth c0).2)).2) rw rep exp cb hb pb (some container) (some vp))).1 - (getRequiredWidth (lastD ((getRequiredWidth c0).2 :: rest) (getRequiredWidth c0).2)).1)) (ensureBar hb "horizontal" (appendIfAbsent container (ensureBar cb "vertical" (appendIfAbsent container rep (setTop rep (some vp.2) (setLeft rep (some vp.1) (setClassName rep (String.append "node" (if exp then "" else " collapsed")) s.dom))))).1 (setTop (ensureBar cb "vertical" (appendIfAbsent container rep (setTop rep (some vp.2) (setLeft rep (some vp.1) (setClassName rep (String.append "node" (if exp then "" else " collapsed")) s.dom))))).1 (some (vp.2 + NODE_HEIGHT)) (setLeft (ensureBar cb "vertical" (appendIfAbsent container rep (setTop rep (some vp.2) (setLeft rep (some vp.1) (setClassName rep (String.append "node" (if exp then "" else " collapsed")) s.dom))))).1 (some (vp.1 + NODE_WIDTH / 2)) (ensureBar cb "vertical" (appendIfAbsent container rep (setTop rep (some vp.2) (setLeft rep (some vp.1) (setClassName rep (String.append "node" (if exp then "" else " collapsed")) s.dom))))).2.2)))).2.2))))) j := elemAgree_hbWrites hne3
          have a6 : elemAgree ((appendIfAbsent container (ensureBar hb "horizontal" (appendIfAbsent container (ensureBar cb "vertical" (appendIfAbsent container rep (setTop rep (some vp.2) (setLeft rep (some vp.1) (setClassName rep (String.append "node" (if exp then "" else " collapsed")) s.dom))))).1 (setTop (ensureBar cb "vertical" (appendIfAbsent container rep (setTop rep (some vp.2) (setLeft rep (some vp.1) (setClassName rep (String.append "node" (if exp then "" else " collapsed")) s.dom))))).1 (some (vp.2 + NODE_HEIGHT)) (setLeft (ensureBar cb "vertical" (appendIfAbsent container rep (setTop rep (some vp.2) (setLeft rep (some vp.1) (setClassName rep (String.append "node" (if exp then "" else " collapsed")) s.dom))))).1 (some (vp.1 + NODE_WIDTH / 2)) (ensureBar cb "vertical" (appendIfAbsent container rep (setTop rep (some vp.2) (setLeft rep (some vp.1) (setClassName rep (String.append "node" (if exp then "" else " collapsed")) s.dom))))).2.2)))).1 (setTop (ensureBar hb "horizontal" (appendIfAbsent container (ensureBar cb "vertical" (appendIfAbsent container rep (setTop rep (some vp.2) (setLeft rep (some vp.1) (setClassName rep (String.append "node" (if exp then "" else " collapsed")) s.dom))))).1 (setTop (ensureBar cb "vertical" (appendIfAbsent container rep (setTop rep (some vp.2) (setLeft rep (some vp.1) (setClassName rep (String.append "node" (if exp then "" else " collapsed")) s.dom))))).1 (some (vp.2 + NODE_HEIGHT)) (setLeft (ensureBar cb "vertical" (appendIfAbsent container rep (setTop rep (some vp.2) (setLeft rep (some vp.1) (setClassName rep (String.append "node" (if exp then "" else " collapsed")) s.dom))))).1 (some (vp.1 + NODE_WIDTH / 2)) (ensureBar cb "vertical" (appendIfAbsent container rep (setTop rep (some vp.2) (setLeft rep (some vp.1) (setClassName rep (String.append "node" (if exp then "" else " collapsed")) s.dom))))).2.2)))).1 (some (vp.2 + NODE_HEIGHT + NODE_MARGIN_Y / 2)) (setLeft (ensureBar hb "horizontal" (appendIfAbsent container (ensureBar cb "vertical" (appendIfAbsent container rep (setTop rep (some vp.2) (setLeft rep (some vp.1) (setClassName rep (String.append "node" (if exp then "" else " collapsed")) s.dom))))).1 (setTop (ensureBar cb "vertical" (appendIfAbsent container rep (setTop rep (some vp.2) (setLeft rep (some vp.1) (setClassName rep (String.append "node" (if exp then "" else " collapsed")) s.dom))))).1 (some (vp.2 + NODE_HEIGHT)) (setLeft (ensureBar cb "vertical" (appendIfAbsent container rep (setTop rep (some vp.2) (setLeft rep (some vp.1) (setClassName rep (String.append "node" (if exp then "" else " collapsed")) s.dom))))).1 (some (vp.1 + NODE_WIDTH / 2)) (ensureBar cb "vertical" (appendIfAbsent container rep (setTop rep (some vp.2) (setLeft rep (some vp.1) (setClassName rep (String.append "node" (if exp then "" else " collapsed")) s.dom))))).2.2)))).1 (some (vp.1 + NODE_WIDTH / 2)) (setWidth (ensureBar hb "horizontal" (appendIfAbsent container (ensureBar cb "vertical" (appendIfAbsent container rep (setTop rep (some vp.2) (setLeft rep (some vp.1) (setClassName rep (String.append "node" (if exp then "" else " collapsed")) s.dom))))).1 (setTop (ensureBar cb "vertical" (appendIfAbsent container rep (setTop rep (some vp.2) (setLeft rep (some vp.1) (setClassName rep (String.append "node" (if exp then "" else " collapsed")) s.dom))))).1 (some (vp.2 + NODE_HEIGHT)) (setLeft (ensureBar cb "vertical" (appendIfAbsent container rep (setTop rep (some vp.2) (setLeft rep (some vp.1) (setClassName rep (String.append "node" (if exp then "" else " collapsed")) s.dom))))).1 (some (vp.1 + NODE_WIDTH / 2)) (ensureBar cb "vertical" (appendIfAbsent container rep (setTop rep (some vp.2) (setLeft rep (some vp.1) (setClassName rep (String.append "node" (if exp then "" else " collapsed")) s.dom))))).2.2)))).1 (some ((getRequiredWidth (DNode.mk b p ncs (((getRequiredWidth c0).2 :: rest).set (((getRequiredWidth c0).2 :: rest).length - 1) (getRequiredWidth (lastD ((getRequiredWidth c0).2 :: rest) (getRequiredWidth c0).2)).2) rw rep exp cb hb pb (some container) (some vp))).1 - (getRequiredWidth (lastD ((getRequiredWidth c0).2 :: rest) (getRequiredWidth c0).2)).1)) (ensureBar hb "horizontal" (appendIfAbsent container (ensureBar cb "vertical" (appendIfAbsent container rep (setTop rep (some vp.2) (setLeft rep (some vp.1) (setClassName rep (String.append "node" (if exp then "" else " collapsed")) s.dom))))).1 (setTop (ensureBar cb "vertical" (appendIfAbsent container rep (setTop rep (some vp.2) (setLeft rep (some vp.1) (setClassName rep (String.append "node" (if exp then "" else " collapsed")) s.dom))))).1 (some (vp.2 + NODE_HEIGHT)) (setLeft (ensureBar cb "vertical" (appendIfAbsent container rep (setTop rep (some vp.2) (setLeft rep (some vp.1) (setClassName rep (String.append "node" (if exp then "" else " collapsed")) s.dom))))).1 (some (vp.1 + NODE_WIDTH / 2)) (ensureBar cb "vertical" (appendIfAbsent container rep (setTop rep (some vp.2) (setLeft rep (some vp.1) (setClassName rep (String.append "node" (if exp then "" else " collapsed")) s.dom))))).2.2)))).2.2))))) (((drawKids (fun m vv t => draw f m container vv t) container (getRequiredWidth (DNode.mk b p ncs (((getRequiredWidth c0).2 :: rest).set (((getRequiredWidth c0).2 :: rest).length - 1) (getRequiredWidth (lastD ((getRequiredWidth c0).2 :: rest) (getRequiredWidth c0).2)).2) rw rep exp cb hb pb (some container) (some vp))).2.children vp.1 (vp.2 + NODE_HEIGHT + NODE_MARGIN_Y) { s with dom := (appendIfAbsent container (ensureBar hb "horizontal" (appendIfAbsent container (ensureBar cb "vertical" (appendIfAbsent container rep (setTop rep (some vp.2) (setLeft rep (some vp.1) (setClassName rep (String.append "node" (if exp then "" else " collapsed")) s.dom))))).1 (setTop (ensureBar cb "vertical" (appendIfAbsent container rep (setTop rep (some vp.2) (setLeft rep (some vp.1) (setClassName rep (String.append "node" (if exp then "" else " collapsed")) s.dom))))).1 (some (vp.2 + NODE_HEIGHT)) (setLeft (ensureBar cb "vertical" (appendIfAbsent container rep (setTop rep (some vp.2) (setLeft rep (some vp.1) (setClassName rep (String.append "node" (if exp then "" else " collapsed")) s.dom))))).1 (some (vp.1 + NODE_WIDTH / 2)) (ensureBar cb "vertical" (appendIfAbsent container rep (setTop rep (some vp.2) (setLeft rep (some vp.1) (setClassName rep (String.append "node" (if exp then "" else " collapsed")) s.dom))))).2.2)))).1 (setTop (ensureBar hb "horizontal" (appendIfAbsent container (ensureBar cb "vertical" (appendIfAbsent container rep (setTop rep (some vp.2) (setLeft rep (some vp.1) (setClassName rep (String.append "node" (if exp then "" else " collapsed")) s.dom))))).1 (setTop (ensureBar cb "vertical" (appendIfAbsent container rep (setTop rep (some vp.2) (setLeft rep (some vp.1) (setClassName rep (String.append "node" (if exp then "" else " collapsed")) s.dom))))).1 (some (vp.2 + NODE_HEIGHT)) (setLeft (ensureBar cb "vertical" (appendIfAbsent container rep (setTop rep (some vp.2) (setLeft rep (some vp.1) (setClassName rep (String.append "node" (if exp then "" else " collapsed")) s.dom))))).1 (some (vp.1 + NODE_WIDTH / 2)) (ensureBar cb "vertical" (appendIfAbsent container rep (setTop rep (some vp.2) (setLeft rep (some vp.1) (setClassName rep (String.append "node" (if exp then "" else " collapsed")) s.dom))))).2.2)))).1 (some (vp.2 + NODE_HEIGHT + NODE_MARGIN_Y / 2)) (setLeft (ensureBar hb "horizontal" (appendIfAbsent container (ensureBar cb "vertical" (appendIfAbsent container rep (setTop rep (some vp.2) (setLeft rep (some vp.1) (setClassName rep (String.append "node" (if exp then "" else " collapsed")) s.dom))))).1 (setTop (ensureBar cb "vertical" (appendIfAbsent container rep (setTop rep (some vp.2) (setLeft rep (some vp.1) (setClassName rep (String.append "node" (if exp then "" else " collapsed")) s.dom))))).1 (some (vp.2 + NODE_HEIGHT)) (setLeft (ensureBar cb "vertical" (appendIfAbsent container rep (setTop rep (some vp.2) (setLeft rep (some vp.1) (setClassName rep (String.append "node" (if exp then "" else " collapsed")) s.dom))))).1 (some (vp.1 + NODE_WIDTH / 2)) (ensureBar cb "vertical" (appendIfAbsent container rep (setTop rep (some vp.2) (setLeft rep (some vp.1) (setClassName rep (String.append "node" (if exp then "" else " collapsed")) s.dom))))).2.2)))).1 (some (vp.1 + NODE_WIDTH / 2)) (setWidth (ensureBar hb "horizontal" (appendIfAbsent container (ensureBar cb "vertical" (appendIfAbsent container rep (setTop rep (some vp.2) (setLeft rep (some vp.1) (setClassName rep (String.append "node" (if exp then "" else " collapsed")) s.dom))))).1 (setTop (ensureBar cb "vertical" (appendIfAbsent container rep (setTop rep (some vp.2) (setLeft rep (some vp.1) (setClassName rep (String.append "node" (if exp then "" else " collapsed")) s.dom))))).1 (some (vp.2 + NODE_HEIGHT)) (setLeft (ensureBar cb "vertical" (appendIfAbsent container rep (setTop rep (some vp.2) (setLeft rep (some vp.1) (setClassName rep (String.append "node" (if exp then "" else " collapsed")) s.dom))))).1 (some (vp.1 + NODE_WIDTH / 2)) (ensureBar cb "vertical" (appendIfAbsent container rep (setTop rep (some vp.2) (setLeft rep (some vp.1) (setClassName rep (String.append "node" (if exp then "" else " collapsed")) s.dom))))).2.2)))).1 (some ((getRequiredWidth (DNode.mk b p ncs (((getRequiredWidth c0).2 :: rest).set (((getRequiredWidth c0).2 :: rest).length - 1) (getRequiredWidth (lastD ((getRequiredWidth c0).2 :: rest) (getRequiredWidth c0).2)).2) rw rep exp cb hb pb (some container) (some vp))).1 - (getRequiredWidth (lastD ((getRequiredWidth c0).2 :: rest) (getRequiredWidth c0).2)).1)) (ensureBar hb "horizontal" (appendIfAbsent container (ensureBar cb "vertical" (appendIfAbsent container rep (setTop rep (some vp.2) (setLeft rep (some vp.1) (setClassName rep (String.append "node" (if exp then "" else " collapsed")) s.dom))))).1 (setTop (ensureBar cb "vertical" (appendIfAbsent container rep (setTop rep (some vp.2) (setLeft rep (some vp.1) (setClassName rep (String.append "node" (if exp then "" else " collapsed")) s.dom))))).1 (some (vp.2 + NODE_HEIGHT)) (setLeft (ensureBar cb "vertical" (appendIfAbsent container rep (setTop rep (some vp.2) (setLeft rep (some vp.1) (setClassName rep (String.append "node" (if exp then "" else " collapsed")) s.dom))))).1 (some (vp.1 + NODE_WIDTH / 2)) (ensureBar cb "vertical" (appendIfAbsent container rep (setTop rep (some vp.2) (setLeft rep (some vp.1) (setClassName rep (String.append "node" (if exp then "" else " collapsed")) s.dom))))).2.2)))).2.2)))) })).2.2.dom) j :=
            K2 j (lt_of_lt_of_le hj hsD4) (by rw [F3]; exact hw3)
          exact elemAgree_trans (elemAgree_trans (elemAgree_trans (elemAgree_trans
            (elemAgree_trans a1 a2) a3) a4) a5) a6
        · intro j hj
          rw [idsOf_setBars_setChildren] at hj
          simp only [List.mem_cons, List.mem_append, List.mem_filterMap] at hj
          have htwrep : ((getRequiredWidth (DNode.mk b p ncs (((getRequiredWidth c0).2 :: rest).set (((getRequiredWidth c0).2 :: rest).length - 1) (getRequiredWidth (lastD ((getRequiredWidth c0).2 :: rest) (getRequiredWidth c0).2)).2) rw rep exp cb hb pb (some container) (some vp)))).2.representation = rep :=
            (getRequiredWidth_snd_fields _).2.2.2.1
          have htwpb : ((getRequiredWidth (DNode.mk b p ncs (((getRequiredWidth c0).2 :: rest).set (((getRequiredWidth c0).2 :: rest).length - 1) (getRequiredWidth (lastD ((getRequiredWidth c0).2 :: rest) (getRequiredWidth c0).2)).2) rw rep exp cb hb pb (some container) (some vp)))).2.parentBar = pb :=
            (getRequiredWidth_snd_fields _).2.2.2.2.2.2.2.1
          rcases hj with hj | ⟨a, ha, haj⟩ | hj
          · rw [htwrep] at hj
            subst hj
            exact ⟨Or.inl mem_idsOf_rep, lt_of_lt_of_le hreplt hsR4⟩
          · simp only [List.mem_cons, List.not_mem_nil, or_false] at ha
            rcases ha with ha | ha | ha
            · subst ha
              rw [c21] at haj
              have hj2 : (ensureBar cb "vertical" (appendIfAbsent container rep (setTop rep (some vp.2) (setLeft rep (some vp.1) (setClassName rep (String.append "node" (if exp then "" else " collapsed")) s.dom))))).1 = j := Option.some.inj haj
              subst hj2
              constructor
              · rcases c2char with ⟨i, hi, hv, _⟩ | ⟨_, hv, _⟩
                · rw [hv]
                  exact Or.inl (mem_idsOf_cb hi)
                · rw [hv, hD2len]
                  exact Or.inr (le_refl _)
              · exact lt_of_lt_of_le hcbD4 K1x
            · subst ha
              rw [c31] at haj
              have hj2 : (ensureBar hb "horizontal" (appendIfAbsent container (ensureBar cb "vertical" (appendIfAbsent container rep (setTop rep (some vp.2) (setLeft rep (some vp.1) (setClassName rep (String.append "node" (if exp then "" else " collapsed")) s.dom))))).1 (setTop (ensureBar cb "vertical" (appendIfAbsent container rep (setTop rep (some vp.2) (setLeft rep (some vp.1) (setClassName rep (String.append "node" (if exp then "" else " collapsed")) s.dom))))).1 (some (vp.2 + NODE_HEIGHT)) (setLeft (ensureBar cb "vertical" (appendIfAbsent container rep (setTop rep (some vp.2) (setLeft rep (some vp.1) (setClassName rep (String.append "node" (if exp then "" else " collapsed")) s.dom))))).1 (some (vp.1 + NODE_WIDTH / 2)) (ensureBar cb "vertical" (appendIfAbsent container rep (setTop rep (some vp.2) (setLeft rep (some vp.1) (setClassName rep (String.append "node" (if exp then "" else " collapsed")) s.dom))))).2.2)))).1 = j := Option.some.inj haj
              subst hj2
              constructor
              · rcases c3char with ⟨i, hi, hv, _⟩ | ⟨_, hv, _⟩
                · rw [hv]
                  exact Or.inl (mem_idsOf_hb hi)
                · rw [hv, hD3len]
                  exact Or.inr hsEB2
              · exact lt_of_lt_of_le hhbD4 K1x
            · subst ha
              rw [htwpb] at haj
              have hpbj : pb = some j := haj
              constructor
              · exact Or.inl (mem_idsOf_parentBar hpbj)
              · exact lt_of_lt_of_le (hrg j (mem_idsOf_parentBar hpbj)) hsR4
          · obtain ⟨hor, hub⟩ := K3 j hj
            constructor
            · rcases hor with h | h
              · rw [F1] at h
                exact Or.inl (mem_idsOf_kids h)
              · exact Or.inr (le_trans hsD4 h)
            · exact hub
        · rw [depthD_setBars_setChildren, depthList_eq_of_map K5, F2]
          rfl
        · have hR4len0 : ((drawKids (fun m vv t => draw f m container vv t) container (getRequiredWidth (DNode.mk b p ncs (((getRequiredWidth c0).2 :: rest).set (((getRequiredWidth c0).2 :: rest).length - 1) (getRequiredWidth (lastD ((getRequiredWidth c0).2 :: rest) (getRequiredWidth c0).2)).2) rw rep exp cb hb pb (some container) (some vp))).2.children vp.1 (vp.2 + NODE_HEIGHT + NODE_MARGIN_Y) { s with dom := (appendIfAbsent container (ensureBar hb "horizontal" (appendIfAbsent container (ensureBar cb "vertical" (appendIfAbsent container rep (setTop rep (some vp.2) (setLeft rep (some vp.1) (setClassName rep (String.append "node" (if exp then "" else " collapsed")) s.dom))))).1 (setTop (ensureBar cb "vertical" (appendIfAbsent container rep (setTop rep (some vp.2) (setLeft rep (some vp.1) (setClassName rep (String.append "node" (if exp then "" else " collapsed")) s.dom))))).1 (some (vp.2 + NODE_HEIGHT)) (setLeft (ensureBar cb "vertical" (appendIfAbsent container rep (setTop rep (some vp.2) (setLeft rep (some vp.1) (setClassName rep (String.append "node" (if exp then "" else " collapsed")) s.dom))))).1 (some (vp.1 + NODE_WIDTH / 2)) (ensureBar cb "vertical" (appendIfAbsent container rep (setTop rep (some vp.2) (setLeft rep (some vp.1) (setClassName rep (String.append "node" (if exp then "" else " collapsed")) s.dom))))).2.2)))).1 (setTop (ensureBar hb "horizontal" (appendIfAbsent container (ensureBar cb "vertical" (appendIfAbsent container rep (setTop rep (some vp.2) (setLeft rep (some vp.1) (setClassName rep (String.append "node" (if exp then "" else " collapsed")) s.dom))))).1 (setTop (ensureBar cb "vertical" (appendIfAbsent container rep (setTop rep (some vp.2) (setLeft rep (some vp.1) (setClassName rep (String.append "node" (if exp then "" else " collapsed")) s.dom))))).1 (some (vp.2 + NODE_HEIGHT)) (setLeft (ensureBar cb "vertical" (appendIfAbsent container rep (setTop rep (some vp.2) (setLeft rep (some vp.1) (setClassName rep (String.append "node" (if exp then "" else " collapsed")) s.dom))))).1 (some (vp.1 + NODE_WIDTH / 2)) (ensureBar cb "vertical" (appendIfAbsent container rep (setTop rep (some vp.2) (setLeft rep (some vp.1) (setClassName rep (String.append "node" (if exp then "" else " collapsed")) s.dom))))).2.2)))).1 (some (vp.2 + NODE_HEIGHT + NODE_MARGIN_Y / 2)) (setLeft (ensureBar hb "horizontal" (appendIfAbsent container (ensureBar cb "vertical" (appendIfAbsent container rep (setTop rep (some vp.2) (setLeft rep (some vp.1) (setClassName rep (String.append "node" (if exp then "" else " collapsed")) s.dom))))).1 (setTop (ensureBar cb "vertical" (appendIfAbsent container rep (setTop rep (some vp.2) (setLeft rep (some vp.1) (setClassName rep (String.append "node" (if exp then "" else " collapsed")) s.dom))))).1 (some (vp.2 + NODE_HEIGHT)) (setLeft (ensureBar cb "vertical" (appendIfAbsent container rep (setTop rep (some vp.2) (setLeft rep (some vp.1) (setClassName rep (String.append "node" (if exp then "" else " collapsed")) s.dom))))).1 (some (vp.1 + NODE_WIDTH / 2)) (ensureBar cb "vertical" (appendIfAbsent container rep (setTop rep (some vp.2) (setLeft rep (some vp.1) (setClassName rep (String.append "node" (if exp then "" else " collapsed")) s.dom))))).2.2)))).1 (some (vp.1 + NODE_WIDTH / 2)) (setWidth (ensureBar hb "horizontal" (appendIfAbsent container (ensureBar cb "vertical" (appendIfAbsent container rep (setTop rep (some vp.2) (setLeft rep (some vp.1) (setClassName rep (String.append "node" (if exp then "" else " collapsed")) s.dom))))).1 (setTop (ensureBar cb "vertical" (appendIfAbsent container rep (setTop rep (some vp.2) (setLeft rep (some vp.1) (setClassName rep (String.append "node" (if exp then "" else " collapsed")) s.dom))))).1 (some (vp.2 + NODE_HEIGHT)) (setLeft (ensureBar cb "vertical" (appendIfAbsent container rep (setTop rep (some vp.2) (setLeft rep (some vp.1) (setClassName rep (String.append "node" (if exp then "" else " collapsed")) s.dom))))).1 (some (vp.1 + NODE_WIDTH / 2)) (ensureBar cb "vertical" (appendIfAbsent container rep (setTop rep (some vp.2) (setLeft rep (some vp.1) (setClassName rep (String.append "node" (if exp then "" else " collapsed")) s.dom))))).2.2)))).1 (some ((getRequiredWidth (DNode.mk b p ncs (((getRequiredWidth c0).2 :: rest).set (((getRequiredWidth c0).2 :: rest).length - 1) (getRequiredWidth (lastD ((getRequiredWidth c0).2 :: rest) (getRequiredWidth c0).2)).2) rw rep exp cb hb pb (some container) (some vp))).1 - (getRequiredWidth (lastD ((getRequiredWidth c0).2 :: rest) (getRequiredWidth c0).2)).1)) (ensureBar hb "horizontal" (appendIfAbsent container (ensureBar cb "vertical" (appendIfAbsent container rep (setTop rep (some vp.2) (setLeft rep (some vp.1) (setClassName rep (String.append "node" (if exp then "" else " collapsed")) s.dom))))).1 (setTop (ensureBar cb "vertical" (appendIfAbsent container rep (setTop rep (some vp.2) (setLeft rep (some vp.1) (setClassName rep (String.append "node" (if exp then "" else " collapsed")) s.dom))))).1 (some (vp.2 + NODE_HEIGHT)) (setLeft (ensureBar cb "vertical" (appendIfAbsent container rep (setTop rep (some vp.2) (setLeft rep (some vp.1) (setClassName rep (String.append "node" (if exp then "" else " collapsed")) s.dom))))).1 (some (vp.1 + NODE_WIDTH / 2)) (ensureBar cb "vertical" (appendIfAbsent container rep (setTop rep (some vp.2) (setLeft rep (some vp.1) (setClassName rep (String.append "node" (if exp then "" else " collapsed")) s.dom))))).2.2)))).2.2)))) })).1.length = rest.length + 1 := by
            rw [drawKids_length]
            exact F5
          have hlast : lastRW ((drawKids (fun m vv t => draw f m container vv t) container (getRequiredWidth (DNode.mk b p ncs (((getRequiredWidth c0).2 :: rest).set (((getRequiredWidth c0).2 :: rest).length - 1) (getRequiredWidth (lastD ((getRequiredWidth c0).2 :: rest) (getRequiredWidth c0).2)).2) rw rep exp cb hb pb (some container) (some vp))).2.children vp.1 (vp.2 + NODE_HEIGHT + NODE_MARGIN_Y) { s with dom := (appendIfAbsent container (ensureBar hb "horizontal" (appendIfAbsent container (ensureBar cb "vertical" (appendIfAbsent container rep (setTop rep (some vp.2) (setLeft rep (some vp.1) (setClassName rep (String.append "node" (if exp then "" else " collapsed")) s.dom))))).1 (setTop (ensureBar cb "vertical" (appendIfAbsent container rep (setTop rep (some vp.2) (setLeft rep (some vp.1) (setClassName rep (String.append "node" (if exp then "" else " collapsed")) s.dom))))).1 (some (vp.2 + NODE_HEIGHT)) (setLeft (ensureBar cb "vertical" (appendIfAbsent container rep (setTop rep (some vp.2) (setLeft rep (some vp.1) (setClassName rep (String.append "node" (if exp then "" else " collapsed")) s.dom))))).1 (some (vp.1 + NODE_WIDTH / 2)) (ensureBar cb "vertical" (appendIfAbsent container rep (setTop rep (some vp.2) (setLeft rep (some vp.1) (setClassName rep (String.append "node" (if exp then "" else " collapsed")) s.dom))))).2.2)))).1 (setTop (ensureBar hb "horizontal" (appendIfAbsent container (ensureBar cb "vertical" (appendIfAbsent container rep (setTop rep (some vp.2) (setLeft rep (some vp.1) (setClassName rep (String.append "node" (if exp then "" else " collapsed")) s.dom))))).1 (setTop (ensureBar cb "vertical" (appendIfAbsent container rep (setTop rep (some vp.2) (setLeft rep (some vp.1) (setClassName rep (String.append "node" (if exp then "" else " collapsed")) s.dom))))).1 (some (vp.2 + NODE_HEIGHT)) (setLeft (ensureBar cb "vertical" (appendIfAbsent container rep (setTop rep (some vp.2) (setLeft rep (some vp.1) (setClassName rep (String.append "node" (if exp then "" else " collapsed")) s.dom))))).1 (some (vp.1 + NODE_WIDTH / 2)) (ensureBar cb "vertical" (appendIfAbsent container rep (setTop rep (some vp.2) (setLeft rep (some vp.1) (setClassName rep (String.append "node" (if exp then "" else " collapsed")) s.dom))))).2.2)))).1 (some (vp.2 + NODE_HEIGHT + NODE_MARGIN_Y / 2)) (setLeft (ensureBar hb "horizontal" (appendIfAbsent container (ensureBar cb "vertical" (appendIfAbsent container rep (setTop rep (some vp.2) (setLeft rep (some vp.1) (setClassName rep (String.append "node" (if exp then "" else " collapsed")) s.dom))))).1 (setTop (ensureBar cb "vertical" (appendIfAbsent container rep (setTop rep (some vp.2) (setLeft rep (some vp.1) (setClassName rep (String.append "node" (if exp then "" else " collapsed")) s.dom))))).1 (some (vp.2 + NODE_HEIGHT)) (setLeft (ensureBar cb "vertical" (appendIfAbsent container rep (setTop rep (some vp.2) (setLeft rep (some vp.1) (setClassName rep (String.append "node" (if exp then "" else " collapsed")) s.dom))))).1 (some (vp.1 + NODE_WIDTH / 2)) (ensureBar cb "vertical" (appendIfAbsent container rep (setTop rep (some vp.2) (setLeft rep (some vp.1) (setClassName rep (String.append "node" (if exp then "" else " collapsed")) s.dom))))).2.2)))).1 (some (vp.1 + NODE_WIDTH / 2)) (setWidth (ensureBar hb "horizontal" (appendIfAbsent container (ensureBar cb "vertical" (appendIfAbsent container rep (setTop rep (some vp.2) (setLeft rep (some vp.1) (setClassName rep (String.append "node" (if exp then "" else " collapsed")) s.dom))))).1 (setTop (ensureBar cb "vertical" (appendIfAbsent container rep (setTop rep (some vp.2) (setLeft rep (some vp.1) (setClassName rep (String.append "node" (if exp then "" else " collapsed")) s.dom))))).1 (some (vp.2 + NODE_HEIGHT)) (setLeft (ensureBar cb "vertical" (appendIfAbsent container rep (setTop rep (some vp.2) (setLeft rep (some vp.1) (setClassName rep (String.append "node" (if exp then "" else " collapsed")) s.dom))))).1 (some (vp.1 + NODE_WIDTH / 2)) (ensureBar cb "vertical" (appendIfAbsent container rep (setTop rep (some vp.2) (setLeft rep (some vp.1) (setClassName rep (String.append "node" (if exp then "" else " collapsed")) s.dom))))).2.2)))).1 (some ((getRequiredWidth (DNode.mk b p ncs (((getRequiredWidth c0).2 :: rest).set (((getRequiredWidth c0).2 :: rest).length - 1) (getRequiredWidth (lastD ((getRequiredWidth c0).2 :: rest) (getRequiredWidth c0).2)).2) rw rep exp cb hb pb (some container) (some vp))).1 - (getRequiredWidth (lastD ((getRequiredWidth c0).2 :: rest) (getRequiredWidth c0).2)).1)) (ensureBar hb "horizontal" (appendIfAbsent container (ensureBar cb "vertical" (appendIfAbsent container rep (setTop rep (some vp.2) (setLeft rep (some vp.1) (setClassName rep (String.append "node" (if exp then "" else " collapsed")) s.dom))))).1 (setTop (ensureBar cb "vertical" (appendIfAbsent container rep (setTop rep (some vp.2) (setLeft rep (some vp.1) (setClassName rep (String.append "node" (if exp then "" else " collapsed")) s.dom))))).1 (some (vp.2 + NODE_HEIGHT)) (setLeft (ensureBar cb "vertical" (appendIfAbsent container rep (setTop rep (some vp.2) (setLeft rep (some vp.1) (setClassName rep (String.append "node" (if exp then "" else " collapsed")) s.dom))))).1 (some (vp.1 + NODE_WIDTH / 2)) (ensureBar cb "vertical" (appendIfAbsent container rep (setTop rep (some vp.2) (setLeft rep (some vp.1) (setClassName rep (String.append "node" (if exp then "" else " collapsed")) s.dom))))).2.2)))).2.2)))) })).1 = (getRequiredWidth (lastD ((getRequiredWidth c0).2 :: rest) (getRequiredWidth c0).2)).1 := by
            have hmap : ((drawKids (fun m vv t => draw f m container vv t) container (getRequiredWidth (DNode.mk b p ncs (((getRequiredWidth c0).2 :: rest).set (((getRequiredWidth c0).2 :: rest).length - 1) (getRequiredWidth (lastD ((getRequiredWidth c0).2 :: rest) (getRequiredWidth c0).2)).2) rw rep exp cb hb pb (some container) (some vp))).2.children vp.1 (vp.2 + NODE_HEIGHT + NODE_MARGIN_Y) { s with dom := (appendIfAbsent container (ensureBar hb "horizontal" (appendIfAbsent container (ensureBar cb "vertical" (appendIfAbsent container rep (setTop rep (some vp.2) (setLeft rep (some vp.1) (setClassName rep (String.append "node" (if exp then "" else " collapsed")) s.dom))))).1 (setTop (ensureBar cb "vertical" (appendIfAbsent container rep (setTop rep (some vp.2) (setLeft rep (some vp.1) (setClassName rep (String.append "node" (if exp then "" else " collapsed")) s.dom))))).1 (some (vp.2 + NODE_HEIGHT)) (setLeft (ensureBar cb "vertical" (appendIfAbsent container rep (setTop rep (some vp.2) (setLeft rep (some vp.1) (setClassName rep (String.append "node" (if exp then "" else " collapsed")) s.dom))))).1 (some (vp.1 + NODE_WIDTH / 2)) (ensureBar cb "vertical" (appendIfAbsent container rep (setTop rep (some vp.2) (setLeft rep (some vp.1) (setClassName rep (String.append "node" (if exp then "" else " collapsed")) s.dom))))).2.2)))).1 (setTop (ensureBar hb "horizontal" (appendIfAbsent container (ensureBar cb "vertical" (appendIfAbsent container rep (setTop rep (some vp.2) (setLeft rep (some vp.1) (setClassName rep (String.append "node" (if exp then "" else " collapsed")) s.dom))))).1 (setTop (ensureBar cb "vertical" (appendIfAbsent container rep (setTop rep (some vp.2) (setLeft rep (some vp.1) (setClassName rep (String.append "node" (if exp then "" else " collapsed")) s.dom))))).1 (some (vp.2 + NODE_HEIGHT)) (setLeft (ensureBar cb "vertical" (appendIfAbsent container rep (setTop rep (some vp.2) (setLeft rep (some vp.1) (setClassName rep (String.append "node" (if exp then "" else " collapsed")) s.dom))))).1 (some (vp.1 + NODE_WIDTH / 2)) (ensureBar cb "vertical" (appendIfAbsent container rep (setTop rep (some vp.2) (setLeft rep (some vp.1) (setClassName rep (String.append "node" (if exp then "" else " collapsed")) s.dom))))).2.2)))).1 (some (vp.2 + NODE_HEIGHT + NODE_MARGIN_Y / 2)) (setLeft (ensureBar hb "horizontal" (appendIfAbsent container (ensureBar cb "vertical" (appendIfAbsent container rep (setTop rep (some vp.2) (setLeft rep (some vp.1) (setClassName rep (String.append "node" (if exp then "" else " collapsed")) s.dom))))).1 (setTop (ensureBar cb "vertical" (appendIfAbsent container rep (setTop rep (some vp.2) (setLeft rep (some vp.1) (setClassName rep (String.append "node" (if exp then "" else " collapsed")) s.dom))))).1 (some (vp.2 + NODE_HEIGHT)) (setLeft (ensureBar cb "vertical" (appendIfAbsent container rep (setTop rep (some vp.2) (setLeft rep (some vp.1) (setClassName rep (String.append "node" (if exp then "" else " collapsed")) s.dom))))).1 (some (vp.1 + NODE_WIDTH / 2)) (ensureBar cb "vertical" (appendIfAbsent container rep (setTop rep (some vp.2) (setLeft rep (some vp.1) (setClassName rep (String.append "node" (if exp then "" else " collapsed")) s.dom))))).2.2)))).1 (some (vp.1 + NODE_WIDTH / 2)) (setWidth (ensureBar hb "horizontal" (appendIfAbsent container (ensureBar cb "vertical" (appendIfAbsent container rep (setTop rep (some vp.2) (setLeft rep (some vp.1) (setClassName rep (String.append "node" (if exp then "" else " collapsed")) s.dom))))).1 (setTop (ensureBar cb "vertical" (appendIfAbsent container rep (setTop rep (some vp.2) (setLeft rep (some vp.1) (setClassName rep (String.append "node" (if exp then "" else " collapsed")) s.dom))))).1 (some (vp.2 + NODE_HEIGHT)) (setLeft (ensureBar cb "vertical" (appendIfAbsent container rep (setTop rep (some vp.2) (setLeft rep (some vp.1) (setClassName rep (String.append "node" (if exp then "" else " collapsed")) s.dom))))).1 (some (vp.1 + NODE_WIDTH / 2)) (ensureBar cb "vertical" (appendIfAbsent container rep (setTop rep (some vp.2) (setLeft rep (some vp.1) (setClassName rep (String.append "node" (if exp then "" else " collapsed")) s.dom))))).2.2)))).1 (some ((getRequiredWidth (DNode.mk b p ncs (((getRequiredWidth c0).2 :: rest).set (((getRequiredWidth c0).2 :: rest).length - 1) (getRequiredWidth (lastD ((getRequiredWidth c0).2 :: rest) (getRequiredWidth c0).2)).2) rw rep exp cb hb pb (some container) (some vp))).1 - (getRequiredWidth (lastD ((getRequiredWidth c0).2 :: rest) (getRequiredWidth c0).2)).1)) (ensureBar hb "horizontal" (appendIfAbsent container (ensureBar cb "vertical" (appendIfAbsent container rep (setTop rep (some vp.2) (setLeft rep (some vp.1) (setClassName rep (String.append "node" (if exp then "" else " collapsed")) s.dom))))).1 (setTop (ensureBar cb "vertical" (appendIfAbsent container rep (setTop rep (some vp.2) (setLeft rep (some vp.1) (setClassName rep (String.append "node" (if exp then "" else " collapsed")) s.dom))))).1 (some (vp.2 + NODE_HEIGHT)) (setLeft (ensureBar cb "vertical" (appendIfAbsent container rep (setTop rep (some vp.2) (setLeft rep (some vp.1) (setClassName rep (String.append "node" (if exp then "" else " collapsed")) s.dom))))).1 (some (vp.1 + NODE_WIDTH / 2)) (ensureBar cb "vertical" (appendIfAbsent container rep (setTop rep (some vp.2) (setLeft rep (some vp.1) (setClassName rep (String.append "node" (if exp then "" else " collapsed")) s.dom))))).2.2)))).2.2)))) })).1.map DNode.requiredWidth =
                (c0 :: rest).map (fun c => (getRequiredWidth c).1) := by
              rw [K4, F4m]
            have hlast1 := lastRW_map_eq hmap (by simp)
            have hch1ne : ((getRequiredWidth c0).2 :: rest) ≠ ([] : List DNode) := by simp
            have hlastD : lastD ((getRequiredWidth c0).2 :: rest) (getRequiredWidth c0).2 = ((getRequiredWidth c0).2 :: rest).getLast hch1ne := by
              simp [lastD, List.getLast?_eq_getLast _ hch1ne]
            have hmap2 : ((getRequiredWidth c0).2 :: rest).map (fun c => (getRequiredWidth c).1) =
                (c0 :: rest).map (fun c => (getRequiredWidth c).1) := by
              simp only [List.map_cons]
              rw [show (getRequiredWidth (getRequiredWidth c0).2).1 =
                (getRequiredWidth c0).1 from by rw [getRequiredWidth_idem]]
            have hg1 : ((((getRequiredWidth c0).2 :: rest)).map (fun c => (getRequiredWidth c).1)).getLast? =
                some ((getRequiredWidth (((getRequiredWidth c0).2 :: rest).getLast hch1ne)).1) := by
              rw [List.getLast?_map, List.getLast?_eq_getLast _ hch1ne]
              rfl
            have hg2 : (((c0 :: rest)).map (fun c => (getRequiredWidth c).1)).getLast? =
                some ((getRequiredWidth ((c0 :: rest).getLast (by simp))).1) := by
              rw [List.getLast?_map, List.getLast?_eq_getLast _ (by simp)]
              rfl
            rw [hmap2] at hg1
            rw [hg1] at hg2
            rw [hlast1, hlastD]
            exact (Option.some.inj hg2).symm
          cases hR4 : ((drawKids (fun m vv t => draw f m container vv t) container (getRequiredWidth (DNode.mk b p ncs (((getRequiredWidth c0).2 :: rest).set (((getRequiredWidth c0).2 :: rest).length - 1) (getRequiredWidth (lastD ((getRequiredWidth c0).2 :: rest) (getRequiredWidth c0).2)).2) rw rep exp cb hb pb (some container) (some vp))).2.children vp.1 (vp.2 + NODE_HEIGHT + NODE_MARGIN_Y) { s with dom := (appendIfAbsent container (ensureBar hb "horizontal" (appendIfAbsent container (ensureBar cb "vertical" (appendIfAbsent container rep (setTop rep (some vp.2) (setLeft rep (some vp.1) (setClassName rep (String.append "node" (if exp then "" else " collapsed")) s.dom))))).1 (setTop (ensureBar cb "vertical" (appendIfAbsent container rep (setTop rep (some vp.2) (setLeft rep (some vp.1) (setClassName rep (String.append "node" (if exp then "" else " collapsed")) s.dom))))).1 (some (vp.2 + NODE_HEIGHT)) (setLeft (ensureBar cb "vertical" (appendIfAbsent container rep (setTop rep (some vp.2) (setLeft rep (some vp.1) (setClassName rep (String.append "node" (if exp then "" else " collapsed")) s.dom))))).1 (some (vp.1 + NODE_WIDTH / 2)) (ensureBar cb "vertical" (appendIfAbsent container rep (setTop rep (some vp.2) (setLeft rep (some vp.1) (setClassName rep (String.append "node" (if exp then "" else " collapsed")) s.dom))))).2.2)))).1 (setTop (ensureBar hb "horizontal" (appendIfAbsent container (ensureBar cb "vertical" (appendIfAbsent container rep (setTop rep (some vp.2) (setLeft rep (some vp.1) (setClassName rep (String.append "node" (if exp then "" else " collapsed")) s.dom))))).1 (setTop (ensureBar cb "vertical" (appendIfAbsent container rep (setTop rep (some vp.2) (setLeft rep (some vp.1) (setClassName rep (String.append "node" (if exp then "" else " collapsed")) s.dom))))).1 (some (vp.2 + NODE_HEIGHT)) (setLeft (ensureBar cb "vertical" (appendIfAbsent container rep (setTop rep (some vp.2) (setLeft rep (some vp.1) (setClassName rep (String.append "node" (if exp then "" else " collapsed")) s.dom))))).1 (some (vp.1 + NODE_WIDTH / 2)) (ensureBar cb "vertical" (appendIfAbsent container rep (setTop rep (some vp.2) (setLeft rep (some vp.1) (setClassName rep (String.append "node" (if exp then "" else " collapsed")) s.dom))))).2.2)))).1 (some (vp.2 + NODE_HEIGHT + NODE_MARGIN_Y / 2)) (setLeft (ensureBar hb "horizontal" (appendIfAbsent container (ensureBar cb "vertical" (appendIfAbsent container rep (setTop rep (some vp.2) (setLeft rep (some vp.1) (setClassName rep (String.append "node" (if exp then "" else " collapsed")) s.dom))))).1 (setTop (ensureBar cb "vertical" (appendIfAbsent container rep (setTop rep (some vp.2) (setLeft rep (some vp.1) (setClassName rep (String.append "node" (if exp then "" else " collapsed")) s.dom))))).1 (some (vp.2 + NODE_HEIGHT)) (setLeft (ensureBar cb "vertical" (appendIfAbsent container rep (setTop rep (some vp.2) (setLeft rep (some vp.1) (setClassName rep (String.append "node" (if exp then "" else " collapsed")) s.dom))))).1 (some (vp.1 + NODE_WIDTH / 2)) (ensureBar cb "vertical" (appendIfAbsent container rep (setTop rep (some vp.2) (setLeft rep (some vp.1) (setClassName rep (String.append "node" (if exp then "" else " collapsed")) s.dom))))).2.2)))).1 (some (vp.1 + NODE_WIDTH / 2)) (setWidth (ensureBar hb "horizontal" (appendIfAbsent container (ensureBar cb "vertical" (appendIfAbsent container rep (setTop rep (some vp.2) (setLeft rep (some vp.1) (setClassName rep (String.append "node" (if exp then "" else " collapsed")) s.dom))))).1 (setTop (ensureBar cb "vertical" (appendIfAbsent container rep (setTop rep (some vp.2) (setLeft rep (some vp.1) (setClassName rep (String.append "node" (if exp then "" else " collapsed")) s.dom))))).1 (some (vp.2 + NODE_HEIGHT)) (setLeft (ensureBar cb "vertical" (appendIfAbsent container rep (setTop rep (some vp.2) (setLeft rep (some vp.1) (setClassName rep (String.append "node" (if exp then "" else " collapsed")) s.dom))))).1 (some (vp.1 + NODE_WIDTH / 2)) (ensureBar cb "vertical" (appendIfAbsent container rep (setTop rep (some vp.2) (setLeft rep (some vp.1) (setClassName rep (String.append "node" (if exp then "" else " collapsed")) s.dom))))).2.2)))).1 (some ((getRequiredWidth (DNode.mk b p ncs (((getRequiredWidth c0).2 :: rest).set (((getRequiredWidth c0).2 :: rest).length - 1) (getRequiredWidth (lastD ((getRequiredWidth c0).2 :: rest) (getRequiredWidth c0).2)).2) rw rep exp cb hb pb (some container) (some vp))).1 - (getRequiredWidth (lastD ((getRequiredWidth c0).2 :: rest) (getRequiredWidth c0).2)).1)) (ensureBar hb "horizontal" (appendIfAbsent container (ensureBar cb "vertical" (appendIfAbsent container rep (setTop rep (some vp.2) (setLeft rep (some vp.1) (setClassName rep (String.append "node" (if exp then "" else " collapsed")) s.dom))))).1 (setTop (ensureBar cb "vertical" (appendIfAbsent container rep (setTop rep (some vp.2) (setLeft rep (some vp.1) (setClassName rep (String.append "node" (if exp then "" else " collapsed")) s.dom))))).1 (some (vp.2 + NODE_HEIGHT)) (setLeft (ensureBar cb "vertical" (appendIfAbsent container rep (setTop rep (some vp.2) (setLeft rep (some vp.1) (setClassName rep (String.append "node" (if exp then "" else " collapsed")) s.dom))))).1 (some (vp.1 + NODE_WIDTH / 2)) (ensureBar cb "vertical" (appendIfAbsent container rep (setTop rep (some vp.2) (setLeft rep (some vp.1) (setClassName rep (String.append "node" (if exp then "" else " collapsed")) s.dom))))).2.2)))).2.2)))) })).1 with
          | nil =>
            rw [hR4] at hR4len0
            simp at hR4len0
          | cons d0 drest =>
            rw [setBars_setChildren_as_mk]
            rw [Drawn_cons]
            have htwlc : ((getRequiredWidth (DNode.mk b p ncs (((getRequiredWidth c0).2 :: rest).set (((getRequiredWidth c0).2 :: rest).length - 1) (getRequiredWidth (lastD ((getRequiredWidth c0).2 :: rest) (getRequiredWidth c0).2)).2) rw rep exp cb hb pb (some container) (some vp)))).2.lastContainer = some container :=
              (getRequiredWidth_snd_fields _).2.2.2.2.2.2.2.2.1
            have htwlv : ((getRequiredWidth (DNode.mk b p ncs (((getRequiredWidth c0).2 :: rest).set (((getRequiredWidth c0).2 :: rest).length - 1) (getRequiredWidth (lastD ((getRequiredWidth c0).2 :: rest) (getRequiredWidth c0).2)).2) rw rep exp cb hb pb (some container) (some vp)))).2.lastViewport = some vp :=
              (getRequiredWidth_snd_fields _).2.2.2.2.2.2.2.2.2
            have htwrep : ((getRequiredWidth (DNode.mk b p ncs (((getRequiredWidth c0).2 :: rest).set (((getRequiredWidth c0).2 :: rest).length - 1) (getRequiredWidth (lastD ((getRequiredWidth c0).2 :: rest) (getRequiredWidth c0).2)).2) rw rep exp cb hb pb (some container) (some vp)))).2.representation = rep :=
              (getRequiredWidth_snd_fields _).2.2.2.1
            have htwexp : ((getRequiredWidth (DNode.mk b p ncs (((getRequiredWidth c0).2 :: rest).set (((getRequiredWidth c0).2 :: rest).length - 1) (getRequiredWidth (lastD ((getRequiredWidth c0).2 :: rest) (getRequiredWidth c0).2)).2) rw rep exp cb hb pb (some container) (some vp)))).2.isExpanded = exp :=
              (getRequiredWidth_snd_fields _).2.2.2.2.1
            have htwrw : ((getRequiredWidth (DNode.mk b p ncs (((getRequiredWidth c0).2 :: rest).set (((getRequiredWidth c0).2 :: rest).length - 1) (getRequiredWidth (lastD ((getRequiredWidth c0).2 :: rest) (getRequiredWidth c0).2)).2) rw rep exp cb hb pb (some container) (some vp)))).2.requiredWidth = ((getRequiredWidth (DNode.mk b p ncs (((getRequiredWidth c0).2 :: rest).set (((getRequiredWidth c0).2 :: rest).length - 1) (getRequiredWidth (lastD ((getRequiredWidth c0).2 :: rest) (getRequiredWidth c0).2)).2) rw rep exp cb hb pb (some container) (some vp)))).1 := getRequiredWidth_snd_rw _
            have hlastdd : lastRW (d0 :: drest) = (getRequiredWidth (lastD ((getRequiredWidth c0).2 :: rest) (getRequiredWidth c0).2)).1 := by
              rw [← hR4]
              exact hlast
            rw [htwlc, htwlv, htwrep, htwexp, htwrw, hlastdd]
            refine ⟨rfl, rfl, Erep5, getRequiredWidth_fst_ne _, ⟨(ensureBar cb "vertical" (appendIfAbsent container rep (setTop rep (some vp.2) (setLeft rep (some vp.1) (setClassName rep (String.append "node" (if exp then "" else " collapsed")) s.dom))))).1, c21, Ecb3⟩,
              ⟨(ensureBar hb "horizontal" (appendIfAbsent container (ensureBar cb "vertical" (appendIfAbsent container rep (setTop rep (some vp.2) (setLeft rep (some vp.1) (setClassName rep (String.append "node" (if exp then "" else " collapsed")) s.dom))))).1 (setTop (ensureBar cb "vertical" (appendIfAbsent container rep (setTop rep (some vp.2) (setLeft rep (some vp.1) (setClassName rep (String.append "node" (if exp then "" else " collapsed")) s.dom))))).1 (some (vp.2 + NODE_HEIGHT)) (setLeft (ensureBar cb "vertical" (appendIfAbsent container rep (setTop rep (some vp.2) (setLeft rep (some vp.1) (setClassName rep (String.append "node" (if exp then "" else " collapsed")) s.dom))))).1 (some (vp.1 + NODE_WIDTH / 2)) (ensureBar cb "vertical" (appendIfAbsent container rep (setTop rep (some vp.2) (setLeft rep (some vp.1) (setClassName rep (String.append "node" (if exp then "" else " collapsed")) s.dom))))).2.2)))).1, c31, Ehb1⟩, ?_⟩
            rw [← hR4]
            exact K6

theorem draw_outVp (fuel : Nat) (n : DNode) (container : Nat) (vp : Int × Int) (s : TState)
    (h : 1 ≤ fuel) :
    (draw fuel n container vp s).2.1 = outVp (draw fuel n container vp s).1 vp := by
  cases fuel with
  | zero => exact absurd h (by decide)
  | succ f =>
    cases n with
    | mk b p ncs cs rw rep exp cb hb pb lc lv =>
      cases cs with
      | nil =>
        simp only [draw]
        simp [outVp]
      | cons c0 rest =>
        simp only [draw]
        rw [drawKids_cursor _ _ _ _ _ _ (fun m vv t hm => draw_fst_rw f m container vv t hm)]
        have hlen2 := congrArg List.length (tw_children_map depthD
          (fun y => (grw_shape_pack.1 y).2) b p ncs c0 rest rw rep exp cb hb pb
          (some container) (some vp))
        rw [List.length_map, List.length_map] at hlen2
        simp only [outVp]
        rw [(DNode.fields_setBars_setChildren _ _ _ _).2.2.2]
        rw [show ((drawKids (fun m vv t => draw f m container vv t) container
            (getRequiredWidth (DNode.mk b p ncs (((getRequiredWidth c0).2 :: rest).set (((getRequiredWidth c0).2 :: rest).length - 1) (getRequiredWidth (lastD ((getRequiredWidth c0).2 :: rest) (getRequiredWidth c0).2)).2) rw rep exp cb hb pb (some container) (some vp))).2.children vp.1 (vp.2 + NODE_HEIGHT + NODE_MARGIN_Y) { s with dom := (appendIfAbsent container (ensureBar hb "horizontal" (appendIfAbsent container (ensureBar cb "vertical" (appendIfAbsent container rep (setTop rep (some vp.2) (setLeft rep (some vp.1) (setClassName rep (String.append "node" (if exp then "" else " collapsed")) s.dom))))).1 (setTop (ensureBar cb "vertical" (appendIfAbsent container rep (setTop rep (some vp.2) (setLeft rep (some vp.1) (setClassName rep (String.append "node" (if exp then "" else " collapsed")) s.dom))))).1 (some (vp.2 + NODE_HEIGHT)) (setLeft (ensureBar cb "vertical" (appendIfAbsent container rep (setTop rep (some vp.2) (setLeft rep (some vp.1) (setClassName rep (String.append "node" (if exp then "" else " collapsed")) s.dom))))).1 (some (vp.1 + NODE_WIDTH / 2)) (ensureBar cb "vertical" (appendIfAbsent container rep (setTop rep (some vp.2) (setLeft rep (some vp.1) (setClassName rep (String.append "node" (if exp then "" else " collapsed")) s.dom))))).2.2)))).1 (setTop (ensureBar hb "horizontal" (appendIfAbsent container (ensureBar cb "vertical" (appendIfAbsent container rep (setTop rep (some vp.2) (setLeft rep (some vp.1) (setClassName rep (String.append "node" (if exp then "" else " collapsed")) s.dom))))).1 (setTop (ensureBar cb "vertical" (appendIfAbsent container rep (setTop rep (some vp.2) (setLeft rep (some vp.1) (setClassName rep (String.append "node" (if exp then "" else " collapsed")) s.dom))))).1 (some (vp.2 + NODE_HEIGHT)) (setLeft (ensureBar cb "vertical" (appendIfAbsent container rep (setTop rep (some vp.2) (setLeft rep (some vp.1) (setClassName rep (String.append "node" (if exp then "" else " collapsed")) s.dom))))).1 (some (vp.1 + NODE_WIDTH / 2)) (ensureBar cb "vertical" (appendIfAbsent container rep (setTop rep (some vp.2) (setLeft rep (some vp.1) (setClassName rep (String.append "node" (if exp then "" else " collapsed")) s.dom))))).2.2)))).1 (some (vp.2 + NODE_HEIGHT + NODE_MARGIN_Y / 2)) (setLeft (ensureBar hb "horizontal" (appendIfAbsent container (ensureBar cb "vertical" (appendIfAbsent container rep (setTop rep (some vp.2) (setLeft rep (some vp.1) (setClassName rep (String.append "node" (if exp then "" else " collapsed")) s.dom))))).1 (setTop (ensureBar cb "vertical" (appendIfAbsent container rep (setTop rep (some vp.2) (setLeft rep (some vp.1) (setClassName rep (String.append "node" (if exp then "" else " collapsed")) s.dom))))).1 (some (vp.2 + NODE_HEIGHT)) (setLeft (ensureBar cb "vertical" (appendIfAbsent container rep (setTop rep (some vp.2) (setLeft rep (some vp.1) (setClassName rep (String.append "node" (if exp then "" else " collapsed")) s.dom))))).1 (some (vp.1 + NODE_WIDTH / 2)) (ensureBar cb "vertical" (appendIfAbsent container rep (setTop rep (some vp.2) (setLeft rep (some vp.1) (setClassName rep (String.append "node" (if exp then "" else " collapsed")) s.dom))))).2.2)))).1 (some (vp.1 + NODE_WIDTH / 2)) (setWidth (ensureBar hb "horizontal" (appendIfAbsent container (ensureBar cb "vertical" (appendIfAbsent container rep (setTop rep (some vp.2) (setLeft rep (some vp.1) (setClassName rep (String.append "node" (if exp then "" else " collapsed")) s.dom))))).1 (setTop (ensureBar cb "vertical" (appendIfAbsent container rep (setTop rep (some vp.2) (setLeft rep (some vp.1) (setClassName rep (String.append "node" (if exp then "" else " collapsed")) s.dom))))).1 (some (vp.2 + NODE_HEIGHT)) (setLeft (ensureBar cb "vertical" (appendIfAbsent container rep (setTop rep (some vp.2) (setLeft rep (some vp.1) (setClassName rep (String.append "node" (if exp then "" else " collapsed")) s.dom))))).1 (some (vp.1 + NODE_WIDTH / 2)) (ensureBar cb "vertical" (appendIfAbsent container rep (setTop rep (some vp.2) (setLeft rep (some vp.1) (setClassName rep (String.append "node" (if exp then "" else " collapsed")) s.dom))))).2.2)))).1 (some ((getRequiredWidth (DNode.mk b p ncs (((getRequiredWidth c0).2 :: rest).set (((getRequiredWidth c0).2 :: rest).length - 1) (getRequiredWidth (lastD ((getRequiredWidth c0).2 :: rest) (getRequiredWidth c0).2)).2) rw rep exp cb hb pb (some container) (some vp))).1 - (getRequiredWidth (lastD ((getRequiredWidth c0).2 :: rest) (getRequiredWidth c0).2)).1)) (ensureBar hb "horizontal" (appendIfAbsent container (ensureBar cb "vertical" (appendIfAbsent container rep (setTop rep (some vp.2) (setLeft rep (some vp.1) (setClassName rep (String.append "node" (if exp then "" else " collapsed")) s.dom))))).1 (setTop (ensureBar cb "vertical" (appendIfAbsent container rep (setTop rep (some vp.2) (setLeft rep (some vp.1) (setClassName rep (String.append "node" (if exp then "" else " collapsed")) s.dom))))).1 (some (vp.2 + NODE_HEIGHT)) (setLeft (ensureBar cb "vertical" (appendIfAbsent container rep (setTop rep (some vp.2) (setLeft rep (some vp.1) (setClassName rep (String.append "node" (if exp then "" else " collapsed")) s.dom))))).1 (some (vp.1 + NODE_WIDTH / 2)) (ensureBar cb "vertical" (appendIfAbsent container rep (setTop rep (some vp.2) (setLeft rep (some vp.1) (setClassName rep (String.append "node" (if exp then "" else " collapsed")) s.dom))))).2.2)))).2.2)))) }).1).isEmpty =
            false from by
          rw [List.isEmpty_eq_false_iff_exists_mem]
          have hlk := drawKids_length (fun m vv t => draw f m container vv t) container
            (getRequiredWidth (DNode.mk b p ncs (((getRequiredWidth c0).2 :: rest).set (((getRequiredWidth c0).2 :: rest).length - 1) (getRequiredWidth (lastD ((getRequiredWidth c0).2 :: rest) (getRequiredWidth c0).2)).2) rw rep exp cb hb pb (some container) (some vp))).2.children vp.1 (vp.2 + NODE_HEIGHT + NODE_MARGIN_Y) { s with dom := (appendIfAbsent container (ensureBar hb "horizontal" (appendIfAbsent container (ensureBar cb "vertical" (appendIfAbsent container rep (setTop rep (some vp.2) (setLeft rep (some vp.1) (setClassName rep (String.append "node" (if exp then "" else " collapsed")) s.dom))))).1 (setTop (ensureBar cb "vertical" (appendIfAbsent container rep (setTop rep (some vp.2) (setLeft rep (some vp.1) (setClassName rep (String.append "node" (if exp then "" else " collapsed")) s.dom))))).1 (some (vp.2 + NODE_HEIGHT)) (setLeft (ensureBar cb "vertical" (appendIfAbsent container rep (setTop rep (some vp.2) (setLeft rep (some vp.1) (setClassName rep (String.append "node" (if exp then "" else " collapsed")) s.dom))))).1 (some (vp.1 + NODE_WIDTH / 2)) (ensureBar cb "vertical" (appendIfAbsent container rep (setTop rep (some vp.2) (setLeft rep (some vp.1) (setClassName rep (String.append "node" (if exp then "" else " collapsed")) s.dom))))).2.2)))).1 (setTop (ensureBar hb "horizontal" (appendIfAbsent container (ensureBar cb "vertical" (appendIfAbsent container rep (setTop rep (some vp.2) (setLeft rep (some vp.1) (setClassName rep (String.append "node" (if exp then "" else " collapsed")) s.dom))))).1 (setTop (ensureBar cb "vertical" (appendIfAbsent container rep (setTop rep (some vp.2) (setLeft rep (some vp.1) (setClassName rep (String.append "node" (if exp then "" else " collapsed")) s.dom))))).1 (some (vp.2 + NODE_HEIGHT)) (setLeft (ensureBar cb "vertical" (appendIfAbsent container rep (setTop rep (some vp.2) (setLeft rep (some vp.1) (setClassName rep (String.append "node" (if exp then "" else " collapsed")) s.dom))))).1 (some (vp.1 + NODE_WIDTH / 2)) (ensureBar cb "vertical" (appendIfAbsent container rep (setTop rep (some vp.2) (setLeft rep (some vp.1) (setClassName rep (String.append "node" (if exp then "" else " collapsed")) s.dom))))).2.2)))).1 (some (vp.2 + NODE_HEIGHT + NODE_MARGIN_Y / 2)) (setLeft (ensureBar hb "horizontal" (appendIfAbsent container (ensureBar cb "vertical" (appendIfAbsent container rep (setTop rep (some vp.2) (setLeft rep (some vp.1) (setClassName rep (String.append "node" (if exp then "" else " collapsed")) s.dom))))).1 (setTop (ensureBar cb "vertical" (appendIfAbsent container rep (setTop rep (some vp.2) (setLeft rep (some vp.1) (setClassName rep (String.append "node" (if exp then "" else " collapsed")) s.dom))))).1 (some (vp.2 + NODE_HEIGHT)) (setLeft (ensureBar cb "vertical" (appendIfAbsent container rep (setTop rep (some vp.2) (setLeft rep (some vp.1) (setClassName rep (String.append "node" (if exp then "" else " collapsed")) s.dom))))).1 (some (vp.1 + NODE_WIDTH / 2)) (ensureBar cb "vertical" (appendIfAbsent container rep (setTop rep (some vp.2) (setLeft rep (some vp.1) (setClassName rep (String.append "node" (if exp then "" else " collapsed")) s.dom))))).2.2)))).1 (some (vp.1 + NODE_WIDTH / 2)) (setWidth (ensureBar hb "horizontal" (appendIfAbsent container (ensureBar cb "vertical" (appendIfAbsent container rep (setTop rep (some vp.2) (setLeft rep (some vp.1) (setClassName rep (String.append "node" (if exp then "" else " collapsed")) s.dom))))).1 (setTop (ensureBar cb "vertical" (appendIfAbsent container rep (setTop rep (some vp.2) (setLeft rep (some vp.1) (setClassName rep (String.append "node" (if exp then "" else " collapsed")) s.dom))))).1 (some (vp.2 + NODE_HEIGHT)) (setLeft (ensureBar cb "vertical" (appendIfAbsent container rep (setTop rep (some vp.2) (setLeft rep (some vp.1) (setClassName rep (String.append "node" (if exp then "" else " collapsed")) s.dom))))).1 (some (vp.1 + NODE_WIDTH / 2)) (ensureBar cb "vertical" (appendIfAbsent container rep (setTop rep (some vp.2) (setLeft rep (some vp.1) (setClassName rep (String.append "node" (if exp then "" else " collapsed")) s.dom))))).2.2)))).1 (some ((getRequiredWidth (DNode.mk b p ncs (((getRequiredWidth c0).2 :: rest).set (((getRequiredWidth c0).2 :: rest).length - 1) (getRequiredWidth (lastD ((getRequiredWidth c0).2 :: rest) (getRequiredWidth c0).2)).2) rw rep exp cb hb pb (some container) (some vp))).1 - (getRequiredWidth (lastD ((getRequiredWidth c0).2 :: rest) (getRequiredWidth c0).2)).1)) (ensureBar hb "horizontal" (appendIfAbsent container (ensureBar cb "vertical" (appendIfAbsent container rep (setTop rep (some vp.2) (setLeft rep (some vp.1) (setClassName rep (String.append "node" (if exp then "" else " collapsed")) s.dom))))).1 (setTop (ensureBar cb "vertical" (appendIfAbsent container rep (setTop rep (some vp.2) (setLeft rep (some vp.1) (setClassName rep (String.append "node" (if exp then "" else " collapsed")) s.dom))))).1 (some (vp.2 + NODE_HEIGHT)) (setLeft (ensureBar cb "vertical" (appendIfAbsent container rep (setTop rep (some vp.2) (setLeft rep (some vp.1) (setClassName rep (String.append "node" (if exp then "" else " collapsed")) s.dom))))).1 (some (vp.1 + NODE_WIDTH / 2)) (ensureBar cb "vertical" (appendIfAbsent container rep (setTop rep (some vp.2) (setLeft rep (some vp.1) (setClassName rep (String.append "node" (if exp then "" else " collapsed")) s.dom))))).2.2)))).2.2)))) }
          rw [hlen2] at hlk
          cases hc : (drawKids (fun m vv t => draw f m container vv t) container
              (getRequiredWidth (DNode.mk b p ncs (((getRequiredWidth c0).2 :: rest).set (((getRequiredWidth c0).2 :: rest).length - 1) (getRequiredWidth (lastD ((getRequiredWidth c0).2 :: rest) (getRequiredWidth c0).2)).2) rw rep exp cb hb pb (some container) (some vp))).2.children vp.1 (vp.2 + NODE_HEIGHT + NODE_MARGIN_Y) { s with dom := (appendIfAbsent container (ensureBar hb "horizontal" (appendIfAbsent container (ensureBar cb "vertical" (appendIfAbsent container rep (setTop rep (some vp.2) (setLeft rep (some vp.1) (setClassName rep (String.append "node" (if exp then "" else " collapsed")) s.dom))))).1 (setTop (ensureBar cb "vertical" (appendIfAbsent container rep (setTop rep (some vp.2) (setLeft rep (some vp.1) (setClassName rep (String.append "node" (if exp then "" else " collapsed")) s.dom))))).1 (some (vp.2 + NODE_HEIGHT)) (setLeft (ensureBar cb "vertical" (appendIfAbsent container rep (setTop rep (some vp.2) (setLeft rep (some vp.1) (setClassName rep (String.append "node" (if exp then "" else " collapsed")) s.dom))))).1 (some (vp.1 + NODE_WIDTH / 2)) (ensureBar cb "vertical" (appendIfAbsent container rep (setTop rep (some vp.2) (setLeft rep (some vp.1) (setClassName rep (String.append "node" (if exp then "" else " collapsed")) s.dom))))).2.2)))).1 (setTop (ensureBar hb "horizontal" (appendIfAbsent container (ensureBar cb "vertical" (appendIfAbsent container rep (setTop rep (some vp.2) (setLeft rep (some vp.1) (setClassName rep (String.append "node" (if exp then "" else " collapsed")) s.dom))))).1 (setTop (ensureBar cb "vertical" (appendIfAbsent container rep (setTop rep (some vp.2) (setLeft rep (some vp.1) (setClassName rep (String.append "node" (if exp then "" else " collapsed")) s.dom))))).1 (some (vp.2 + NODE_HEIGHT)) (setLeft (ensureBar cb "vertical" (appendIfAbsent container rep (setTop rep (some vp.2) (setLeft rep (some vp.1) (setClassName rep (String.append "node" (if exp then "" else " collapsed")) s.dom))))).1 (some (vp.1 + NODE_WIDTH / 2)) (ensureBar cb "vertical" (appendIfAbsent container rep (setTop rep (some vp.2) (setLeft rep (some vp.1) (setClassName rep (String.append "node" (if exp then "" else " collapsed")) s.dom))))).2.2)))).1 (some (vp.2 + NODE_HEIGHT + NODE_MARGIN_Y / 2)) (setLeft (ensureBar hb "horizontal" (appendIfAbsent container (ensureBar cb "vertical" (appendIfAbsent container rep (setTop rep (some vp.2) (setLeft rep (some vp.1) (setClassName rep (String.append "node" (if exp then "" else " collapsed")) s.dom))))).1 (setTop (ensureBar cb "vertical" (appendIfAbsent container rep (setTop rep (some vp.2) (setLeft rep (some vp.1) (setClassName rep (String.append "node" (if exp then "" else " collapsed")) s.dom))))).1 (some (vp.2 + NODE_HEIGHT)) (setLeft (ensureBar cb "vertical" (appendIfAbsent container rep (setTop rep (some vp.2) (setLeft rep (some vp.1) (setClassName rep (String.append "node" (if exp then "" else " collapsed")) s.dom))))).1 (some (vp.1 + NODE_WIDTH / 2)) (ensureBar cb "vertical" (appendIfAbsent container rep (setTop rep (some vp.2) (setLeft rep (some vp.1) (setClassName rep (String.append "node" (if exp then "" else " collapsed")) s.dom))))).2.2)))).1 (some (vp.1 + NODE_WIDTH / 2)) (setWidth (ensureBar hb "horizontal" (appendIfAbsent container (ensureBar cb "vertical" (appendIfAbsent container rep (setTop rep (some vp.2) (setLeft rep (some vp.1) (setClassName rep (String.append "node" (if exp then "" else " collapsed")) s.dom))))).1 (setTop (ensureBar cb "vertical" (appendIfAbsent container rep (setTop rep (some vp.2) (setLeft rep (some vp.1) (setClassName rep (String.append "node" (if exp then "" else " collapsed")) s.dom))))).1 (some (vp.2 + NODE_HEIGHT)) (setLeft (ensureBar cb "vertical" (appendIfAbsent container rep (setTop rep (some vp.2) (setLeft rep (some vp.1) (setClassName rep (String.append "node" (if exp then "" else " collapsed")) s.dom))))).1 (some (vp.1 + NODE_WIDTH / 2)) (ensureBar cb "vertical" (appendIfAbsent container rep (setTop rep (some vp.2) (setLeft rep (some vp.1) (setClassName rep (String.append "node" (if exp then "" else " collapsed")) s.dom))))).2.2)))).1 (some ((getRequiredWidth (DNode.mk b p ncs (((getRequiredWidth c0).2 :: rest).set (((getRequiredWidth c0).2 :: rest).length - 1) (getRequiredWidth (lastD ((getRequiredWidth c0).2 :: rest) (getRequiredWidth c0).2)).2) rw rep exp cb hb pb (some container) (some vp))).1 - (getRequiredWidth (lastD ((getRequiredWidth c0).2 :: rest) (getRequiredWidth c0).2)).1)) (ensureBar hb "horizontal" (appendIfAbsent container (ensureBar cb "vertical" (appendIfAbsent container rep (setTop rep (some vp.2) (setLeft rep (some vp.1) (setClassName rep (String.append "node" (if exp then "" else " collapsed")) s.dom))))).1 (setTop (ensureBar cb "vertical" (appendIfAbsent container rep (setTop rep (some vp.2) (setLeft rep (some vp.1) (setClassName rep (String.append "node" (if exp then "" else " collapsed")) s.dom))))).1 (some (vp.2 + NODE_HEIGHT)) (setLeft (ensureBar cb "vertical" (appendIfAbsent container rep (setTop rep (some vp.2) (setLeft rep (some vp.1) (setClassName rep (String.append "node" (if exp then "" else " collapsed")) s.dom))))).1 (some (vp.1 + NODE_WIDTH / 2)) (ensureBar cb "vertical" (appendIfAbsent container rep (setTop rep (some vp.2) (setLeft rep (some vp.1) (setClassName rep (String.append "node" (if exp then "" else " collapsed")) s.dom))))).2.2)))).2.2)))) }).1 with
          | nil =>
            rw [hc] at hlk
            simp at hlk
          | cons x xs => exact ⟨x, List.mem_cons_self _ _⟩]
        simp

/-- C7: `draw` is idempotent on an already-drawn tree: starting from a
well-formed node (distinct in-range element handles, none of them the
container), once `draw` has run with enough fuel for the tree's depth,
running it again with the same container and origin changes nothing — it
attaches no duplicate elements and every position, class, size and
attachment is exactly as the first call left it (the second call returns
the same node, cursor and state). -/
theorem c7_draw_idempotent (fuel : Nat) (n : DNode) (container : Nat) (vp : Int × Int)
    (s : TState) (hwf : WFNode n container s.dom) (hdep : depthD n ≤ fuel) :
    draw fuel (draw fuel n container vp s).1 container vp (draw fuel n container vp s).2.2 =
      draw fuel n container vp s := by
  obtain ⟨hnd, hrg, hct, hcl⟩ := hwf
  obtain ⟨g1, g2, g3, g4, g7⟩ := draw_pack fuel n container vp s hnd hrg hct hcl hdep
  have hfuel1 : 1 ≤ fuel := le_trans (depthD_pos n) hdep
  have hb2 := drawn_draw_id fuel (draw fuel n container vp s).1 container vp
    (draw fuel n container vp s).2.2 g7 (by rw [g4]; exact hdep)
  rw [hb2, ← draw_outVp fuel n container vp s hfuel1]

/-- C7 witness: drawing the expanded two-leaf tree twice at the origin
into container 0 — the second call returns exactly the first call's
result. -/
theorem c7_witness :
    draw 2 (draw 2 exExpandPair.1 0 (0, 0) exExpandPair.2).1 0 (0, 0)
        (draw 2 exExpandPair.1 0 (0, 0) exExpandPair.2).2.2 =
      draw 2 exExpandPair.1 0 (0, 0) exExpandPair.2 :=
  c7_draw_idempotent 2 exExpandPair.1 0 (0, 0) exExpandPair.2 (by decide) (by decide)
